import Mathlib

/-!
# Sunshine video core (`sunshine/video.cpp`): encode sessions and IDR scheduling

A shallow embedding of the session construction (`make_session`), of the
per-frame protocol (`encode`), of the two frame loops (`encode_run`, the
sweep of `encode_run_sync`), of the producer `captureThread`, of the encoder
probes (`validate_config`, `validate_encoder`, `init`) and of the scaling of
`swdevice_t::init` of `sunshine/video.cpp`.

Conventions of the embedding.

* C++ `int` values are `Int`; every `int` addition or multiplication of the
  source goes through `wrap32` (two's-complement wrap-around), so a theorem
  that needs "no overflow" says so in a hypothesis.
* What the source obtains from code outside `video.cpp` (libavcodec, the
  coded-bitstream helpers of `cbs.h`, the events and queues of
  `thread_safe.h`, the clock) is an explicit input: a record of results that
  the embedded function consumes in the order the source makes the calls.
* A loop that waits on the surroundings consumes a finite script of answers
  and returns nothing when the script ends before the loop does; that it
  returns is then a theorem under a condition on the script.
* The arithmetic of `float` is a parameter (`float_t`).
* A pointer into `config::video` (the `int *`, `std::optional<int> *` and
  `std::string *` alternatives of `option_t::value`) is a projection of the
  record `video_cfg`, applied when the source dereferences it.
-/

namespace video

/-! ## Machine integers -/

/-- Two's-complement reduction of an integer to the range of a C++ `int`. -/
def wrap32 (x : Int) : Int := (x + 2147483648) % 4294967296 - 2147483648

/-- The value of `std::numeric_limits<int>::max()`. -/
def INT_MAX : Int := 2147483647

/-- The value of `std::numeric_limits<std::int16_t>::max()`. -/
def INT16_MAX : Int := 32767

/-- Conversion `(int)b` of a C++ `bool`. -/
def b2i (b : Bool) : Int := if b then 1 else 0

/-! ## Constants of the source and of the libraries it names -/

/-- Bytes of a `std::string_view`. -/
abbrev bytes := List Nat

/-- Line 31: the literal `"\000\000\000\001("sv`. -/
def hevc_nalu : bytes := [0, 0, 0, 1, 0x28]

/-- Line 32: the literal `"\000\000\000\001e"sv`. -/
def h264_nalu : bytes := [0, 0, 0, 1, 0x65]

/-- Global `flag_e` (lines 238-243). -/
def SYSTEM_MEMORY : Int := 0x01
def H264_ONLY : Int := 0x02
def LIMITED_GOP_SIZE : Int := 0x04

def AV_PICTURE_TYPE_NONE : Int := 0
def AV_PICTURE_TYPE_I : Int := 1

/-- The value of `AVERROR(EAGAIN)`. -/
def AVERROR_EAGAIN : Int := -11

/-- The value of `AVERROR_EOF`. -/
def AVERROR_EOF : Int := -541478725

def AV_HWDEVICE_TYPE_NONE : Int := 0
def AV_HWDEVICE_TYPE_VAAPI : Int := 3
def AV_HWDEVICE_TYPE_D3D11VA : Int := 7

def AV_CODEC_FLAG_CLOSED_GOP : Nat := 0x80000000
def AV_CODEC_FLAG_LOW_DELAY : Nat := 0x00080000
def AV_CODEC_FLAG2_FAST : Nat := 0x00000001

def AVCOL_RANGE_MPEG : Int := 1
def AVCOL_RANGE_JPEG : Int := 2

def AVCOL_PRI_BT709 : Int := 1
def AVCOL_PRI_SMPTE170M : Int := 6
def AVCOL_PRI_BT2020 : Int := 9
def AVCOL_TRC_BT709 : Int := 1
def AVCOL_TRC_SMPTE170M : Int := 6
def AVCOL_TRC_BT2020_10 : Int := 14
def AVCOL_SPC_BT709 : Int := 1
def AVCOL_SPC_SMPTE170M : Int := 6
def AVCOL_SPC_BT2020_NCL : Int := 9

def SWS_CS_ITU709 : Int := 1
def SWS_CS_SMPTE170M : Int := 5
def SWS_CS_BT2020 : Int := 9

def FF_THREAD_SLICE : Int := 2

/-! ## Data model -/

/-- The `config_t` of `video.h`, fields in the order of the aggregate
initialisers of `validate_encoder` (lines 1475-1476). -/
structure config_t where
  width : Int
  height : Int
  framerate : Int
  bitrate : Int
  slicesPerFrame : Int
  numRefFrames : Int
  encoderCscMode : Int
  videoFormat : Int
  dynamicRange : Int
deriving DecidableEq

/-- The part of `config::video` that `video.cpp` reads. -/
structure video_cfg where
  crf : Int
  qp : Int
  hevc_mode : Int
  min_threads : Int
  sw_preset : String
  sw_tune : String
  nv_preset : Option Int
  nv_rc : Option Int
  nv_coder : Int
  amd_quality : Option Int
  amd_rc : Option Int
  encoder : String
  adapter_name : String

/-- The enumeration `encoder_t::flag_e` (lines 247-256). -/
inductive flag_e where
  | PASSED
  | REF_FRAMES_RESTRICT
  | REF_FRAMES_AUTOSELECT
  | SLICE
  | DYNAMIC_RANGE
  | VUI_PARAMETERS
  | NALU_PREFIX_5b
deriving DecidableEq

/-- The `std::bitset<MAX_FLAGS>` of a codec block, one `Bool` per flag. -/
structure capabilities_t where
  passed : Bool
  ref_frames_restrict : Bool
  ref_frames_autoselect : Bool
  slice : Bool
  dynamic_range : Bool
  vui_parameters : Bool
  nalu_prefix_5b : Bool
deriving DecidableEq

/-- Reading `capabilities[(std::size_t)flag]` (line 306). -/
def capabilities_t.get (c : capabilities_t) : flag_e → Bool
  | .PASSED => c.passed
  | .REF_FRAMES_RESTRICT => c.ref_frames_restrict
  | .REF_FRAMES_AUTOSELECT => c.ref_frames_autoselect
  | .SLICE => c.slice
  | .DYNAMIC_RANGE => c.dynamic_range
  | .VUI_PARAMETERS => c.vui_parameters
  | .NALU_PREFIX_5b => c.nalu_prefix_5b

/-- The alternatives of `option_t::value` (line 282). -/
inductive value_t where
  | int (v : Int)
  | int_ref (v : video_cfg → Int)
  | opt_int_ref (v : video_cfg → Option Int)
  | str (v : String)
  | str_ref (v : video_cfg → String)

/-- The structure `encoder_t::option_t` (lines 277-285). -/
structure option_t where
  name : String
  value : value_t

/-- One codec block of `encoder_t` (lines 299-313). -/
structure codec_t where
  options : List option_t
  crf : Option option_t
  qp : Option option_t
  name : String
  capabilities : capabilities_t

/-- The member `profile` of `encoder_t` (lines 287-291). -/
structure profile_t where
  h264_high : Int
  hevc_main : Int
  hevc_main_10 : Int
deriving DecidableEq

/-- The structure `encoder_t` (lines 245-318); `make_hwdevice_ctx` is called
through `av_env`. -/
structure encoder_t where
  name : String
  profile : profile_t
  dev_type : Int
  dev_pix_fmt : Int
  static_pix_fmt : Int
  dynamic_pix_fmt : Int
  hevc : codec_t
  h264 : codec_t
  flags : Int

/-- A value stored by `av_dict_set_int` or `av_dict_set`. -/
inductive dict_value where
  | int (v : Int)
  | str (v : String)
deriving DecidableEq

/-- An `AVDictionary`, as the sequence of the `av_dict_set` calls made on it. -/
abbrev AVDictionary := List (String × dict_value)

/-- The fields of `AVCodecContext` that `make_session` assigns. -/
structure AVCodecContext where
  width : Int
  height : Int
  time_base : Int × Int
  framerate : Int × Int
  profile : Int
  max_b_frames : Int
  gop_size : Int
  keyint_min : Int
  refs : Int
  flags : Nat
  flags2 : Nat
  color_range : Int
  color_primaries : Int
  color_trc : Int
  colorspace : Int
  sw_pix_fmt : Int
  pix_fmt : Int
  slices : Int
  thread_type : Int
  thread_count : Int
  rc_max_rate : Int
  rc_buffer_size : Int
  bit_rate : Int
  rc_min_rate : Int
  hw_frames_ctx : Bool

/-- The fields of `AVFrame` that `video.cpp` assigns. -/
structure AVFrame where
  pts : Int
  pict_type : Int
  key_frame : Int
  format : Int
  width : Int
  height : Int
  hw_frames_ctx : Bool
deriving DecidableEq

/-- An `AVPacket` as received from the encoder. -/
structure AVPacket where
  data : bytes
  flags : Int
deriving DecidableEq

/-- An entry `packet_raw_t::replace_t` of a replacement table: `(old, _new)`. -/
abbrev replace_t := bytes × bytes

/-- The structure `cbs::nal_t`: a parameter set as emitted and as rewritten. -/
structure nal_t where
  old : bytes
  _new : bytes
deriving DecidableEq

/-- Results of `cbs::make_sps_h264` and `cbs::make_sps_hevc`. -/
structure h264_t where
  sps : nal_t
deriving DecidableEq

structure hevc_t where
  vps : nal_t
  sps : nal_t
deriving DecidableEq

/-- The coded-bitstream helpers of `cbs.h` that `encode` calls. -/
structure cbs_t where
  make_sps_h264 : AVCodecContext → AVPacket → h264_t
  make_sps_hevc : AVCodecContext → AVPacket → hevc_t

/-- The conversion device bound to a session: the software scaler built by
`make_session` or the one furnished by the display, with the frame given to
`set_frame`. -/
structure device_t where
  software : Bool
  frame : AVFrame
deriving DecidableEq

/-- The class `session_t` (lines 320-350). -/
structure session_t where
  ctx : AVCodecContext
  device : device_t
  replacements : List replace_t
  sps : nal_t
  vps : nal_t
  inject : Int

/-- A `packet_t` on an output queue. The source stores the address of the
session's replacement table in the packet; the embedding stores the table as
it is at the moment of the push. -/
structure packet_t where
  pkt : AVPacket
  replacements : List replace_t
  channel_data : Nat
deriving DecidableEq

/-! ## `encode` (lines 700-759) -/

/-- What libavcodec answers during one `encode` call: the return value of
`avcodec_send_frame`, the packets that the successive successful
`avcodec_receive_packet` calls deliver, and the negative value returned by
the call that ends the drain. -/
structure reply_t where
  send : Int
  received : List AVPacket
  last : Int
  last_neg : last < 0

/-- The body of the `while(ret >= 0)` loop of `encode` (lines 728-755), once
for each packet received: arm-once injection of the parameter sets, then the
push on the output queue. -/
def encode_loop (cbs : cbs_t) (channel_data : Nat) :
    session_t → List packet_t → List AVPacket → session_t × List packet_t
  | session, packets, [] => (session, packets)
  | session, packets, packet :: rest =>
    let session1 : session_t :=
      if session.inject ≠ 0 then
        if session.inject = 1 then
          let h264 := cbs.make_sps_h264 session.ctx packet
          { session with
            sps := h264.sps
            inject := 0
            replacements := session.replacements ++ [(h264.sps.old, h264.sps._new)] }
        else
          let hevc := cbs.make_sps_hevc session.ctx packet
          { session with
            sps := hevc.sps
            vps := hevc.vps
            inject := 0
            replacements :=
              (session.replacements ++ [(hevc.vps.old, hevc.vps._new)])
                ++ [(hevc.sps.old, hevc.sps._new)] }
      else session
    encode_loop cbs channel_data session1
      (packets ++ [{ pkt := packet, replacements := session1.replacements,
                     channel_data := channel_data }]) rest

/-- What one `encode` call leaves behind: its return value, the session, the
frame as submitted and the output queue. -/
structure encode_t where
  ret : Int
  session : session_t
  frame : AVFrame
  packets : List packet_t

/-- The function `encode` (lines 700-759). -/
def encode (cbs : cbs_t) (frame_nr : Int) (session : session_t) (frame : AVFrame)
    (packets : List packet_t) (channel_data : Nat) (reply : reply_t) : encode_t :=
  let frame1 := { frame with pts := frame_nr }
  if reply.send < 0 then
    { ret := -1, session := session, frame := frame1, packets := packets }
  else
    let r := encode_loop cbs channel_data session packets reply.received
    if reply.last = AVERROR_EAGAIN ∨ reply.last = AVERROR_EOF then
      { ret := 0, session := r.1, frame := frame1, packets := r.2 }
    else
      { ret := reply.last, session := r.1, frame := frame1, packets := r.2 }

/-- A sequence of `encode` calls on one session and one output queue, each
with its own frame number and encoder answer. -/
def encode_calls (cbs : cbs_t) (frame : AVFrame) (channel_data : Nat) :
    session_t → List packet_t → List (Int × reply_t) → session_t × List packet_t
  | session, packets, [] => (session, packets)
  | session, packets, (frame_nr, reply) :: rest =>
    let r := encode cbs frame_nr session frame packets channel_data reply
    encode_calls cbs r.frame channel_data r.session r.packets rest

/-- The first packet that the encoder delivers over a sequence of `encode`
calls: calls whose frame is refused, or that drain nothing, deliver none. -/
def first_received : List (Int × reply_t) → Option AVPacket
  | [] => none
  | (_, reply) :: rest =>
    if reply.send < 0 then first_received rest
    else
      match reply.received with
      | [] => first_received rest
      | packet :: _ => some packet

/-- All the packets that the encoder delivers over a sequence of `encode`
calls, in the order received. -/
def all_received : List (Int × reply_t) → List AVPacket
  | [] => []
  | (_, reply) :: rest =>
    (if reply.send < 0 then [] else reply.received) ++ all_received rest

/-- The entries that the claim on header injection expects for a session and
its first packet: the SPS pair for `inject = 1`, the VPS pair and then the
SPS pair otherwise. -/
def injected (cbs : cbs_t) (session : session_t) (packet : AVPacket) : List replace_t :=
  if session.inject = 1 then
    [((cbs.make_sps_h264 session.ctx packet).sps.old,
      (cbs.make_sps_h264 session.ctx packet).sps._new)]
  else
    [((cbs.make_sps_hevc session.ctx packet).vps.old,
      (cbs.make_sps_hevc session.ctx packet).vps._new),
     ((cbs.make_sps_hevc session.ctx packet).sps.old,
      (cbs.make_sps_hevc session.ctx packet).sps._new)]

/-! ## `make_session` (lines 761-986) -/

/-- The answers of the code outside `video.cpp` that `make_session` calls. -/
structure av_env where
  /-- The context returned by `avcodec_alloc_context3`. -/
  ctx0 : AVCodecContext
  /-- The frame returned by `av_frame_alloc`. -/
  frame0 : AVFrame
  /-- Whether `avcodec_find_encoder_by_name` finds the codec. -/
  find_encoder : String → Bool
  /-- Whether `encoder.make_hwdevice_ctx(hwdevice)` yields a buffer. -/
  make_hwdevice_ctx : Bool
  /-- The return value of `av_hwframe_ctx_init`. -/
  hwframe_ctx_init : Int
  /-- The return value of `avcodec_open2`. -/
  open2 : AVCodecContext → AVDictionary → Int
  /-- The return value of `swdevice_t::init`. -/
  swdevice_init : Int → Int → AVFrame → Int → Int
  /-- The return value of `device->set_frame`. -/
  set_frame : AVFrame → Int

/-- The calls that `make_session` makes to code outside `video.cpp`, in the
order it makes them. -/
inductive call_e where
  | avcodec_find_encoder_by_name (name : String)
  | avcodec_alloc_context3
  | make_hwdevice_ctx
  | hwframe_ctx
  | avcodec_open2 (ctx : AVCodecContext) (options : AVDictionary)
  | av_frame_alloc
  | swdevice_init (width height : Int)
  | set_frame
  | set_colorspace (colorspace color_range : Int)

/-- The lambda `handle_option` of `make_session` (lines 897-906). -/
def handle_option (video : video_cfg) (options : AVDictionary) (option : option_t) :
    AVDictionary :=
  match option.value with
  | .int v => options ++ [(option.name, .int v)]
  | .int_ref v => options ++ [(option.name, .int (v video))]
  | .opt_int_ref v =>
    match v video with
    | some x => options ++ [(option.name, .int x)]
    | none => options
  | .str v => options ++ [(option.name, .str v)]
  | .str_ref v =>
    if v video = "" then options else options ++ [(option.name, .str (v video))]

/-- The function `hwframe_ctx` (lines 1629-1646): the return value and the
context with its hardware-frames pool. -/
def hwframe_ctx (init : Int) (ctx : AVCodecContext) : Int × AVCodecContext :=
  if init < 0 then (init, ctx) else (0, { ctx with hw_frames_ctx := true })

/-- The branch of the rate-control chain of `make_session` (lines 912-928)
that a configuration takes. -/
inductive rate_control_e where
  | cbr
  | crf
  | qp
  | unsupported
deriving DecidableEq

/-- The conditions of the rate-control chain (lines 912, 919, 922, 925). -/
def rate_control (video : video_cfg) (video_format : codec_t) (config : config_t) :
    rate_control_e :=
  if config.bitrate > 500 then .cbr
  else if video_format.crf.isSome ∧ video.crf ≠ 0 then .crf
  else if video_format.qp.isSome then .qp
  else .unsupported

/-- The result of `make_session`: the session, if one is returned, and the
calls made to code outside `video.cpp`. -/
structure made_t where
  session : Option session_t
  calls : List call_e

/-- The codec block that `make_session` works with (line 764). -/
def video_format (encoder : encoder_t) (config : config_t) : codec_t :=
  if config.videoFormat = 0 then encoder.h264 else encoder.hevc

/-- The software pixel format `sw_fmt` of `make_session` (lines 853-859). -/
def sw_fmt (encoder : encoder_t) (config : config_t) : Int :=
  if config.dynamicRange = 0 then encoder.static_pix_fmt else encoder.dynamic_pix_fmt

/-- The value `sws_color_space` of `make_session` (lines 821-850). -/
def sws_color_space (config : config_t) : Int :=
  if config.encoderCscMode >>> 1 = 1 then SWS_CS_ITU709
  else if config.encoderCscMode >>> 1 = 2 then SWS_CS_BT2020
  else SWS_CS_SMPTE170M

/-- Lines 782-862 of `make_session`: the assignments to the freshly allocated
context `ctx0`, none of which depends on an outside call. -/
def make_session_ctx (ctx0 : AVCodecContext) (encoder : encoder_t) (config : config_t) :
    AVCodecContext :=
  { ctx0 with
    width := config.width
    height := config.height
    time_base := (1, config.framerate)
    framerate := (config.framerate, 1)
    profile :=
      if config.videoFormat = 0 then encoder.profile.h264_high
      else if config.dynamicRange = 0 then encoder.profile.hevc_main
      else encoder.profile.hevc_main_10
    max_b_frames := 0
    gop_size := if Int.land encoder.flags LIMITED_GOP_SIZE ≠ 0 then INT16_MAX else INT_MAX
    keyint_min := INT_MAX
    refs :=
      if config.numRefFrames = 0 then
        (if (video_format encoder config).capabilities.get .REF_FRAMES_AUTOSELECT then 0
         else 16)
      else
        (if (video_format encoder config).capabilities.get .REF_FRAMES_RESTRICT then
           config.numRefFrames
         else 0)
    flags := ctx0.flags ||| (AV_CODEC_FLAG_CLOSED_GOP ||| AV_CODEC_FLAG_LOW_DELAY)
    flags2 := ctx0.flags2 ||| AV_CODEC_FLAG2_FAST
    color_range :=
      if Int.land config.encoderCscMode 0x1 ≠ 0 then AVCOL_RANGE_JPEG else AVCOL_RANGE_MPEG
    color_primaries :=
      if config.encoderCscMode >>> 1 = 1 then AVCOL_PRI_BT709
      else if config.encoderCscMode >>> 1 = 2 then AVCOL_PRI_BT2020
      else AVCOL_PRI_SMPTE170M
    color_trc :=
      if config.encoderCscMode >>> 1 = 1 then AVCOL_TRC_BT709
      else if config.encoderCscMode >>> 1 = 2 then AVCOL_TRC_BT2020_10
      else AVCOL_TRC_SMPTE170M
    colorspace :=
      if config.encoderCscMode >>> 1 = 1 then AVCOL_SPC_BT709
      else if config.encoderCscMode >>> 1 = 2 then AVCOL_SPC_BT2020_NCL
      else AVCOL_SPC_SMPTE170M
    sw_pix_fmt := sw_fmt encoder config }

/-- Lines 864-894 of `make_session`: the hardware frames pool or the software
pixel format, then the slice and thread counts. No context comes back when
`make_hwdevice_ctx` or `hwframe_ctx` fails. -/
def make_session_slices (av : av_env) (video : video_cfg) (encoder : encoder_t)
    (config : config_t) (ctx : AVCodecContext) : Option AVCodecContext × List call_e :=
  let hw : Option AVCodecContext × List call_e :=
    if encoder.dev_type ≠ AV_HWDEVICE_TYPE_NONE then
      if av.make_hwdevice_ctx = false then (none, [.make_hwdevice_ctx])
      else
        let r := hwframe_ctx av.hwframe_ctx_init { ctx with pix_fmt := encoder.dev_pix_fmt }
        if r.1 ≠ 0 then (none, [.make_hwdevice_ctx, .hwframe_ctx])
        else (some { r.2 with slices := config.slicesPerFrame },
              [.make_hwdevice_ctx, .hwframe_ctx])
    else
      (some { ctx with pix_fmt := sw_fmt encoder config,
                       slices := max config.slicesPerFrame video.min_threads }, [])
  match hw with
  | (none, calls) => (none, calls)
  | (some ctx1, calls) =>
    let slices : Int :=
      if (video_format encoder config).capabilities.get .SLICE = false then 1 else ctx1.slices
    (some { ctx1 with slices := slices, thread_type := FF_THREAD_SLICE, thread_count := slices },
     calls)

/-- Lines 912-928 of `make_session`: the rate control written into the context
and into the option dictionary. Nothing comes back when the encoder declares
neither usable `crf` nor `qp`. -/
def make_session_rc (video : video_cfg) (encoder : encoder_t) (config : config_t)
    (ctx : AVCodecContext) (options : AVDictionary) : Option (AVCodecContext × AVDictionary) :=
  match rate_control video (video_format encoder config) config with
  | .cbr =>
    let bitrate := wrap32 (config.bitrate * 1000)
    some ({ ctx with
            rc_max_rate := bitrate
            rc_buffer_size := Int.tdiv bitrate config.framerate
            bit_rate := bitrate
            rc_min_rate := bitrate }, options)
  | .crf =>
    match (video_format encoder config).crf with
    | some o => some (ctx, handle_option video options o)
    | none => none
  | .qp =>
    match (video_format encoder config).qp with
    | some o => some (ctx, handle_option video options o)
    | none => none
  | .unsupported => none

/-- Lines 940-948 of `make_session`: the output frame. -/
def make_session_frame (av : av_env) (encoder : encoder_t) (ctx : AVCodecContext) : AVFrame :=
  { av.frame0 with
    format := ctx.pix_fmt
    width := ctx.width
    height := ctx.height
    hw_frames_ctx :=
      if encoder.dev_type ≠ AV_HWDEVICE_TYPE_NONE then ctx.hw_frames_ctx
      else av.frame0.hw_frames_ctx }

/-- Lines 950-969 of `make_session`: the conversion device. No device comes
back when `swdevice_t::init` or `set_frame` fails. -/
def make_session_device (av : av_env) (encoder : encoder_t) (config : config_t)
    (width height : Int) (hwdevice_data : Bool) (ctx : AVCodecContext) :
    Option device_t × List call_e :=
  let frame := make_session_frame av encoder ctx
  let dev : Option device_t × List call_e :=
    if hwdevice_data = false then
      if av.swdevice_init width height frame (sw_fmt encoder config) ≠ 0 then
        (none, [.av_frame_alloc, .swdevice_init width height])
      else
        (some { software := true, frame := frame }, [.av_frame_alloc, .swdevice_init width height])
    else (some { software := false, frame := frame }, [.av_frame_alloc])
  match dev with
  | (none, calls) => (none, calls)
  | (some device, calls) =>
    if av.set_frame frame ≠ 0 then (none, calls ++ [.set_frame])
    else
      (some device,
       calls ++ [.set_frame, .set_colorspace (sws_color_space config) ctx.color_range])

/-- The function `make_session` (lines 761-986). `hwdevice_data` says whether
`hwdevice->data` is non-null. The context is the one assigned by
`make_session`; what `avcodec_open2` itself writes into it is not modelled. -/
def make_session (av : av_env) (video : video_cfg) (encoder : encoder_t) (config : config_t)
    (width height : Int) (hwdevice_data : Bool) : made_t :=
  if (video_format encoder config).capabilities.get .PASSED = false then
    { session := none, calls := [] }
  else if config.dynamicRange ≠ 0 ∧
      (video_format encoder config).capabilities.get .DYNAMIC_RANGE = false then
    { session := none, calls := [] }
  else if av.find_encoder (video_format encoder config).name = false then
    { session := none,
      calls := [.avcodec_find_encoder_by_name (video_format encoder config).name] }
  else
    let calls1 : List call_e :=
      [.avcodec_find_encoder_by_name (video_format encoder config).name,
       .avcodec_alloc_context3]
    match make_session_slices av video encoder config
        (make_session_ctx av.ctx0 encoder config) with
    | (none, calls2) => { session := none, calls := calls1 ++ calls2 }
    | (some ctx1, calls2) =>
      match make_session_rc video encoder config ctx1
          ((video_format encoder config).options.foldl (handle_option video) []) with
      | none => { session := none, calls := calls1 ++ calls2 }
      | some (ctx, options) =>
        if av.open2 ctx options ≠ 0 then
          { session := none, calls := calls1 ++ calls2 ++ [.avcodec_open2 ctx options] }
        else
          match make_session_device av encoder config width height hwdevice_data ctx with
          | (none, calls3) =>
            { session := none,
              calls := calls1 ++ calls2 ++ [.avcodec_open2 ctx options] ++ calls3 }
          | (some device, calls3) =>
            { session := some
                { ctx := ctx
                  device := device
                  -- line 979: the table is seeded when the capability is absent
                  replacements :=
                    if (video_format encoder config).capabilities.get .NALU_PREFIX_5b = false
                    then [((if config.videoFormat ≠ 0 then hevc_nalu else h264_nalu).drop 1,
                           if config.videoFormat ≠ 0 then hevc_nalu else h264_nalu)]
                    else []
                  sps := { old := [], _new := [] }
                  vps := { old := [], _new := [] }
                  -- 0 ==> don't inject, 1 ==> inject for h264, 2 ==> inject for hevc
                  inject :=
                    wrap32 (wrap32 (1 - b2i
                        ((video_format encoder config).capabilities.get .VUI_PARAMETERS))
                      * wrap32 (1 + config.videoFormat)) }
              calls := calls1 ++ calls2 ++ [.avcodec_open2 ctx options] ++ calls3 }

/-! ## The frame loops: `encode_run` (lines 988-1063) and the sweep of
`encode_run_sync` (lines 1189-1260) -/

/-- An IDR request `idr_t`, the pair `(start frame, end frame)`. -/
abbrev idr_t := Int × Int

/-- What a loop does that a client can observe: it consumes an IDR request
(recorded with the values it then assigns to the frame counter and to the
scheduled keyframe number) or it calls `encode` (recorded with the frame as
submitted to the encoder). -/
inductive trace_e where
  | idr (event : idr_t) (frame_nr key_frame_nr : Int)
  | encode (frame : AVFrame)
deriving DecidableEq

/-- The assignments `pict_type = AV_PICTURE_TYPE_I; key_frame = 1`. -/
def mark_idr (frame : AVFrame) : AVFrame :=
  { frame with pict_type := AV_PICTURE_TYPE_I, key_frame := 1 }

/-- The assignments `pict_type = AV_PICTURE_TYPE_NONE; key_frame = 0`. -/
def clear_idr (frame : AVFrame) : AVFrame :=
  { frame with pict_type := AV_PICTURE_TYPE_NONE, key_frame := 0 }

/-- What `idr_events->peek()` and `idr_events->pop()` give in one iteration of
`encode_run`: nothing pending, an event, or a pending mark whose `pop` comes
back empty. -/
inductive idr_poll where
  | idle
  | event (e : idr_t)
  | closed
deriving DecidableEq

/-- What the surroundings answer during one iteration of the loop of
`encode_run`. -/
structure tick_t where
  /-- The test of line 1015. -/
  stop : Bool
  /-- The IDR event of lines 1019 and 1023. -/
  idr : idr_poll
  /-- The value of `images->peek()` at line 1043. -/
  img_peek : Bool
  /-- Whether `images->pop(delay)` delivers an image (line 1044). -/
  img_pop : Bool
  /-- The value of `images->running()` at line 1047. -/
  img_running : Bool
  /-- The encoder's answer to the `encode` call of line 1055. -/
  reply : reply_t

/-- The variables of `encode_run` that live across iterations. `frame` is the
frame that `session->device->frame` points to: the loop and `encode` write
through that pointer. -/
structure run_t where
  frame_nr : Int
  key_frame_nr : Int
  session : session_t
  frame : AVFrame
  packets : List packet_t

/-- One iteration of a loop: what it did, the variables after it, and
whether the loop goes on. -/
structure iter_t where
  events : List trace_e
  state : run_t
  running : Bool

/-- Lines 1039-1061 of the loop of `encode_run`: the wait for an image, the
`encode` call and the clearing of the keyframe marks. -/
def encode_run_frame (cbs : cbs_t) (channel_data : Nat) (s : run_t) (t : tick_t) : iter_t :=
  if (s.frame_nr > s.key_frame_nr ∨ t.img_peek) ∧ t.img_pop = false then
    { events := [], state := s, running := t.img_running }
  else
    let r := encode cbs s.frame_nr s.session s.frame s.packets channel_data t.reply
    { events := [.encode r.frame]
      state :=
        { s with
          frame_nr := wrap32 (s.frame_nr + 1)
          session := r.session
          frame := if r.ret ≠ 0 then r.frame else clear_idr r.frame
          packets := r.packets }
      running := if r.ret ≠ 0 then false else true }

/-- One iteration of the `while(true)` loop of `encode_run` (lines 1014-1062):
the exit test, the IDR handling of lines 1019-1037, then the frame. -/
def encode_run_iter (cbs : cbs_t) (config : config_t) (channel_data : Nat)
    (s : run_t) (t : tick_t) : iter_t :=
  if t.stop then { events := [], state := s, running := false }
  else
    match t.idr with
    | .closed => { events := [], state := { s with frame := mark_idr s.frame }, running := false }
    | .event e =>
      let r := encode_run_frame cbs channel_data
        { s with
          frame := mark_idr s.frame
          frame_nr := e.2
          key_frame_nr := wrap32 (e.2 + config.framerate) } t
      { r with events := .idr e e.2 (wrap32 (e.2 + config.framerate)) :: r.events }
    | .idle =>
      encode_run_frame cbs channel_data
        (if s.frame_nr = s.key_frame_nr then { s with frame := mark_idr s.frame } else s) t

/-- What a loop did over the iterations observed, and its variables then. -/
structure run_out where
  events : List trace_e
  state : run_t

/-- The loop of `encode_run`, over the iterations for which the surroundings'
answers are given. -/
def encode_run_loop (cbs : cbs_t) (config : config_t) (channel_data : Nat) :
    run_t → List tick_t → run_out
  | s, [] => { events := [], state := s }
  | s, t :: ts =>
    let r := encode_run_iter cbs config channel_data s t
    if r.running then
      let o := encode_run_loop cbs config channel_data r.state ts
      { events := r.events ++ o.events, state := o.state }
    else { events := r.events, state := r.state }

/-- The function `encode_run` (lines 988-1063): `frame_nr` and `key_frame_nr`
are the caller's variables, passed by reference; without a session nothing
is done. -/
def encode_run (cbs : cbs_t) (av : av_env) (video : video_cfg) (encoder : encoder_t)
    (frame_nr key_frame_nr : Int) (packets : List packet_t) (config : config_t)
    (width height : Int) (hwdevice_data : Bool) (channel_data : Nat)
    (ticks : List tick_t) : List trace_e × Int × Int :=
  match (make_session av video encoder config width height hwdevice_data).session with
  | none => ([], frame_nr, key_frame_nr)
  | some session =>
    let o := encode_run_loop cbs config channel_data
      { frame_nr := frame_nr, key_frame_nr := key_frame_nr, session := session,
        frame := session.device.frame, packets := packets } ticks
    (o.events, o.state.frame_nr, o.state.key_frame_nr)

/-- The request that `capture` raises on the IDR event before anything else
(line 1372). -/
def capture_idr : idr_t := (0, 1)

/-- The path of `capture` through `capture_async` (lines 1317-1318 and
1355-1361) up to the end of the first `encode_run`: the counters start at 1. -/
def capture_async (cbs : cbs_t) (av : av_env) (video : video_cfg) (encoder : encoder_t)
    (packets : List packet_t) (config : config_t) (width height : Int)
    (hwdevice_data : Bool) (channel_data : Nat) (ticks : List tick_t) :
    List trace_e × Int × Int :=
  encode_run cbs av video encoder 1 1 packets config width height hwdevice_data
    channel_data ticks

/-- The members of `sync_session_ctx_t` (lines 352-363) that the sweep reads
and writes; its events are answered through `sync_tick_t`. -/
structure sync_session_ctx_t where
  packets : List packet_t
  config : config_t
  frame_nr : Int
  key_frame_nr : Int
  channel_data : Nat

/-- The structure `sync_session_t` (lines 365-374): `img_tmp` says whether
the pointer is non-null, `frame` is the frame that `session.device->frame`
points to, and the deadline `next_frame` is answered through `sync_tick_t`. -/
structure sync_session_t where
  ctx : sync_session_ctx_t
  img_tmp : Bool
  frame : AVFrame
  session : session_t

/-- What the surroundings answer while one sweep handles one session. -/
structure sync_tick_t where
  /-- The value of `ctx->shutdown_event->peek()` at line 1192. -/
  shutdown : Bool
  /-- The event delivered by `ctx->idr_events`, if one is pending (lines 1208
  and 1212). -/
  idr : Option idr_t
  /-- The value of `now > pos->next_frame` at line 1227. -/
  timeout : Bool
  /-- The return value of `pos->hwdevice->convert` (line 1240). -/
  convert : Int
  /-- The encoder's answer to the `encode` call of line 1249. -/
  reply : reply_t

/-- What one sweep did with one session, and the session after it: `none`
when the sweep erases it. -/
structure sync_iter_t where
  events : List trace_e
  session : Option sync_session_t

/-- Lines 1223-1259 of the sweep of `encode_run_sync`: the image, the
deadline, `convert`, the `encode` call and the clearing of the keyframe
marks. A session whose `convert` or `encode` fails raises its shutdown event
and is met again at the same position, where line 1192 erases it. -/
def encode_run_sync_frame (cbs : cbs_t) (img_tmp : Bool) (pos : sync_session_t)
    (t : sync_tick_t) : sync_iter_t :=
  let pos1 : sync_session_t := if img_tmp then { pos with img_tmp := true } else pos
  if t.timeout = false then { events := [], session := some pos1 }
  else if pos1.img_tmp = true ∧ t.convert ≠ 0 then { events := [], session := none }
  else
    let r := encode cbs pos1.ctx.frame_nr pos1.session pos1.frame pos1.ctx.packets
      pos1.ctx.channel_data t.reply
    { events := [.encode r.frame]
      session :=
        if r.ret ≠ 0 then none
        else some
          { ctx := { pos1.ctx with
                     frame_nr := wrap32 (pos1.ctx.frame_nr + 1)
                     packets := r.packets }
            img_tmp := false
            frame := clear_idr r.frame
            session := r.session } }

/-- The body of the sweep of `encode_run_sync` for the session at `pos`
(lines 1190-1259): the shutdown test, the IDR handling of lines 1208-1221,
then the frame; `img_tmp` says whether this sweep's snapshot delivered an
image. -/
def encode_run_sync_iter (cbs : cbs_t) (img_tmp : Bool) (pos : sync_session_t)
    (t : sync_tick_t) : sync_iter_t :=
  if t.shutdown then { events := [], session := none }
  else
    match t.idr with
    | some e =>
      let r := encode_run_sync_frame cbs img_tmp
        { pos with
          frame := mark_idr pos.frame
          ctx := { pos.ctx with
                   frame_nr := e.2
                   key_frame_nr := wrap32 (e.2 + pos.ctx.config.framerate) } } t
      { r with
        events := .idr e e.2 (wrap32 (e.2 + pos.ctx.config.framerate)) :: r.events }
    | none =>
      encode_run_sync_frame cbs img_tmp
        (if pos.ctx.frame_nr = pos.ctx.key_frame_nr then
           { pos with frame := mark_idr pos.frame }
         else pos) t

/-- The successive sweeps of `encode_run_sync` as one session meets them; each
sweep comes with its `img_tmp` and the answers for this session. -/
def encode_run_sync_loop (cbs : cbs_t) :
    sync_session_t → List (Bool × sync_tick_t) → List trace_e × Option sync_session_t
  | pos, [] => ([], some pos)
  | pos, (img_tmp, t) :: ts =>
    let r := encode_run_sync_iter cbs img_tmp pos t
    match r.session with
    | none => (r.events, none)
    | some pos1 =>
      let o := encode_run_sync_loop cbs pos1 ts
      (r.events ++ o.1, o.2)

/-- The function `make_synced_session` (lines 1088-1115); `hwdevice` is
`none` when `disp->make_hwdevice` fails and otherwise says whether the
device's `data` is non-null. -/
def make_synced_session (av : av_env) (video : video_cfg) (encoder : encoder_t)
    (width height : Int) (hwdevice : Option Bool) (ctx : sync_session_ctx_t) :
    Option sync_session_t :=
  match hwdevice with
  | none => none
  | some hwdevice_data =>
    match (make_session av video encoder ctx.config width height hwdevice_data).session with
    | none => none
    | some session =>
      some { ctx := ctx, img_tmp := true, frame := session.device.frame, session := session }

/-- The path of `capture` through the sync pipeline (lines 1379-1389, 1160-1167
and the sweeps that follow): the context queued by `capture` has both
counters at 1. -/
def capture_sync (cbs : cbs_t) (av : av_env) (video : video_cfg) (encoder : encoder_t)
    (packets : List packet_t) (config : config_t) (width height : Int)
    (hwdevice : Option Bool) (channel_data : Nat) (sweeps : List (Bool × sync_tick_t)) :
    List trace_e :=
  match make_synced_session av video encoder width height hwdevice
      { packets := packets, config := config, frame_nr := 1, key_frame_nr := 1,
        channel_data := channel_data } with
  | none => []
  | some pos => (encode_run_sync_loop cbs pos sweeps).1

/-! ## Reading a trace -/

/-- The frames submitted to the encoder, in the order of the `encode` calls. -/
def frames_of : List trace_e → List AVFrame
  | [] => []
  | .idr _ _ _ :: tr => frames_of tr
  | .encode frame :: tr => frame :: frames_of tr

/-- The pts values passed to the successive `encode` calls. -/
def pts_of (tr : List trace_e) : List Int := (frames_of tr).map (fun frame => frame.pts)

/-- A frame carries the keyframe marks. -/
def is_idr (frame : AVFrame) : Prop :=
  frame.pict_type = AV_PICTURE_TYPE_I ∧ frame.key_frame = 1

/-- A frame has the keyframe marks cleared. -/
def is_plain (frame : AVFrame) : Prop :=
  frame.pict_type = AV_PICTURE_TYPE_NONE ∧ frame.key_frame = 0

instance (frame : AVFrame) : Decidable (is_idr frame) := by
  unfold is_idr; infer_instance

instance (frame : AVFrame) : Decidable (is_plain frame) := by
  unfold is_plain; infer_instance

/-- Every IDR request consumed in the trace has an end frame above each pts
in `seen` and above the pts of each `encode` call made before it. -/
def idr_ahead : List Int → List trace_e → Bool
  | _, [] => true
  | seen, .idr e _ _ :: tr => seen.all (fun p => decide (p < e.2)) && idr_ahead seen tr
  | seen, .encode frame :: tr => idr_ahead (frame.pts :: seen) tr

/-- Every IDR request consumed before the first `encode` call of the trace
has end frame 1, as the request raised by `capture` has. -/
def idr_initial : List trace_e → Bool
  | [] => true
  | .idr e _ _ :: tr => decide (e.2 = 1) && idr_initial tr
  | .encode _ :: _ => true

/-- The counters and keyframe marks of a session between two observable
actions of its loop. -/
structure sched_t where
  frame_nr : Int
  key_frame_nr : Int
  pict_type : Int
  key_frame : Int

/-- The traces that the IDR handling of lines 1019-1037 and 1208-1221,
followed by `encode(frame_nr++, ...)` and the clearing of the marks, can
produce from the counters and marks `c`. -/
def scheduled (framerate : Int) : sched_t → List trace_e → Prop
  | _, [] => True
  | _, .idr e a b :: tr =>
    a = e.2 ∧ b = wrap32 (e.2 + framerate) ∧
      scheduled framerate
        { frame_nr := a, key_frame_nr := b, pict_type := AV_PICTURE_TYPE_I, key_frame := 1 } tr
  | c, .encode frame :: tr =>
    frame.pts = c.frame_nr ∧
      frame.pict_type = (if c.frame_nr = c.key_frame_nr then AV_PICTURE_TYPE_I else c.pict_type) ∧
      frame.key_frame = (if c.frame_nr = c.key_frame_nr then 1 else c.key_frame) ∧
      scheduled framerate
        { frame_nr := wrap32 (c.frame_nr + 1), key_frame_nr := c.key_frame_nr,
          pict_type := AV_PICTURE_TYPE_NONE, key_frame := 0 } tr

/-- The counters and marks held by the variables of `encode_run`. -/
def run_t.sched (s : run_t) : sched_t :=
  { frame_nr := s.frame_nr, key_frame_nr := s.key_frame_nr,
    pict_type := s.frame.pict_type, key_frame := s.frame.key_frame }

/-- The counters and marks held by a session of `encode_run_sync`. -/
def sync_session_t.sched (pos : sync_session_t) : sched_t :=
  { frame_nr := pos.ctx.frame_nr, key_frame_nr := pos.ctx.key_frame_nr,
    pict_type := pos.frame.pict_type, key_frame := pos.frame.key_frame }

/-! ## Concrete surroundings, used to run the embedding -/

def AV_PIX_FMT_NONE : Int := -1
def AV_PIX_FMT_YUV420P : Int := 0
def AV_PIX_FMT_NV12 : Int := 23
def AV_PIX_FMT_YUV420P10 : Int := 62
def AV_PIX_FMT_P010 : Int := 158
def AV_PIX_FMT_VAAPI : Int := 46
def FF_PROFILE_H264_HIGH : Int := 100
def FF_PROFILE_HEVC_MAIN : Int := 1
def FF_PROFILE_HEVC_MAIN_10 : Int := 2

/-- A context with every modelled field zero. -/
def ctx_zero : AVCodecContext :=
  { width := 0, height := 0, time_base := (0, 0), framerate := (0, 0), profile := 0,
    max_b_frames := 0, gop_size := 0, keyint_min := 0, refs := 0, flags := 0, flags2 := 0,
    color_range := 0, color_primaries := 0, color_trc := 0, colorspace := 0, sw_pix_fmt := 0,
    pix_fmt := 0, slices := 0, thread_type := 0, thread_count := 0, rc_max_rate := 0,
    rc_buffer_size := 0, bit_rate := 0, rc_min_rate := 0, hw_frames_ctx := false }

/-- A frame with every modelled field zero. -/
def frame_zero : AVFrame :=
  { pts := 0, pict_type := 0, key_frame := 0, format := 0, width := 0, height := 0,
    hw_frames_ctx := false }

/-- A session with every modelled field zero or empty. -/
def session_zero : session_t :=
  { ctx := ctx_zero, device := { software := false, frame := frame_zero }, replacements := [],
    sps := { old := [], _new := [] }, vps := { old := [], _new := [] }, inject := 0 }

/-- Capabilities of an encoder whose SPS lacks the VUI parameters. -/
def caps_no_vui : capabilities_t :=
  { passed := true, ref_frames_restrict := true, ref_frames_autoselect := false,
    slice := true, dynamic_range := true, vui_parameters := false, nalu_prefix_5b := true }

/-- Surroundings in which every outside call of `make_session` succeeds. -/
def av_ok : av_env :=
  { ctx0 := ctx_zero
    frame0 := frame_zero
    find_encoder := fun _ => true
    make_hwdevice_ctx := true
    hwframe_ctx_init := 0
    open2 := fun _ _ => 0
    swdevice_init := fun _ _ _ _ => 0
    set_frame := fun _ => 0 }

/-- Bitstream helpers that return fixed parameter sets. -/
def cbs_fixed : cbs_t :=
  { make_sps_h264 := fun _ _ => { sps := { old := [103, 1], _new := [103, 2] } }
    make_sps_hevc := fun _ _ =>
      { vps := { old := [64, 1], _new := [64, 2] }, sps := { old := [66, 1], _new := [66, 2] } } }

/-- A `config::video` with `qp = 28`, `crf = 0` and two threads. -/
def video_qp : video_cfg :=
  { crf := 0, qp := 28, hevc_mode := 0, min_threads := 2, sw_preset := "superfast",
    sw_tune := "zerolatency", nv_preset := none, nv_rc := none, nv_coder := 0,
    amd_quality := none, amd_rc := none, encoder := "", adapter_name := "" }

/-- Capabilities with every flag clear, as the static initialisation leaves
them. -/
def caps_none : capabilities_t :=
  { passed := false, ref_frames_restrict := false, ref_frames_autoselect := false,
    slice := false, dynamic_range := false, vui_parameters := false, nalu_prefix_5b := false }

/-- The capabilities that a probe of libx264 or libx265 leaves: everything
but the five-byte NAL prefix. -/
def caps_x26x : capabilities_t :=
  { passed := true, ref_frames_restrict := true, ref_frames_autoselect := true,
    slice := true, dynamic_range := true, vui_parameters := true, nalu_prefix_5b := false }

/-- The descriptor `software` (lines 474-507) with the given capabilities. -/
def software (hevc h264 : capabilities_t) : encoder_t :=
  { name := "software"
    profile := { h264_high := FF_PROFILE_H264_HIGH, hevc_main := FF_PROFILE_HEVC_MAIN,
                 hevc_main_10 := FF_PROFILE_HEVC_MAIN_10 }
    dev_type := AV_HWDEVICE_TYPE_NONE
    dev_pix_fmt := AV_PIX_FMT_NONE
    static_pix_fmt := AV_PIX_FMT_YUV420P
    dynamic_pix_fmt := AV_PIX_FMT_YUV420P10
    hevc :=
      { options := [⟨"forced-idr", .int 1⟩, ⟨"x265-params", .str "info=0:keyint=-1"⟩,
                    ⟨"preset", .str_ref (fun v => v.sw_preset)⟩,
                    ⟨"tune", .str_ref (fun v => v.sw_tune)⟩]
        crf := some ⟨"crf", .int_ref (fun v => v.crf)⟩
        qp := some ⟨"qp", .int_ref (fun v => v.qp)⟩
        name := "libx265"
        capabilities := hevc }
    h264 :=
      { options := [⟨"preset", .str_ref (fun v => v.sw_preset)⟩,
                    ⟨"tune", .str_ref (fun v => v.sw_tune)⟩]
        crf := some ⟨"crf", .int_ref (fun v => v.crf)⟩
        qp := some ⟨"qp", .int_ref (fun v => v.qp)⟩
        name := "libx264"
        capabilities := h264 }
    flags := Int.lor H264_ONLY SYSTEM_MEMORY }

/-- The descriptor `vaapi` (lines 510-537) with the given capabilities; it
declares neither `crf` nor `qp`. -/
def vaapi (hevc h264 : capabilities_t) : encoder_t :=
  { name := "vaapi"
    profile := { h264_high := FF_PROFILE_H264_HIGH, hevc_main := FF_PROFILE_HEVC_MAIN,
                 hevc_main_10 := FF_PROFILE_HEVC_MAIN_10 }
    dev_type := AV_HWDEVICE_TYPE_VAAPI
    dev_pix_fmt := AV_PIX_FMT_VAAPI
    static_pix_fmt := AV_PIX_FMT_NV12
    dynamic_pix_fmt := AV_PIX_FMT_YUV420P10
    hevc :=
      { options := [⟨"sei", .int 0⟩, ⟨"idr_interval", .int INT_MAX⟩]
        crf := none
        qp := none
        name := "hevc_vaapi"
        capabilities := hevc }
    h264 :=
      { options := [⟨"sei", .int 0⟩, ⟨"idr_interval", .int INT_MAX⟩]
        crf := none
        qp := none
        name := "h264_vaapi"
        capabilities := h264 }
    flags := Int.lor LIMITED_GOP_SIZE SYSTEM_MEMORY }

/-- The probe configuration `config_max_ref_frames` of `validate_encoder`
(line 1475), with the bitrate, video format and dynamic range given. -/
def config_1080p60 (bitrate videoFormat dynamicRange : Int) : config_t :=
  { width := 1920, height := 1080, framerate := 60, bitrate := bitrate, slicesPerFrame := 1,
    numRefFrames := 1, encoderCscMode := 1, videoFormat := videoFormat,
    dynamicRange := dynamicRange }

/-- An encoder answer: the frame is accepted, one packet comes out, then
`EAGAIN`. -/
def reply_one : reply_t :=
  { send := 0, received := [{ data := [0, 0, 1, 0x65, 7], flags := 1 }],
    last := AVERROR_EAGAIN, last_neg := by decide }

/-- An encoder answer: the frame is accepted and no packet is ready. -/
def reply_none : reply_t :=
  { send := 0, received := [], last := AVERROR_EAGAIN, last_neg := by decide }

/-- An iteration of `encode_run` in which an image is there and the encoder
delivers one packet, with the IDR event as given. -/
def tick_of (idr : idr_poll) : tick_t :=
  { stop := false, idr := idr, img_peek := true, img_pop := true, img_running := true,
    reply := reply_one }

/-- A sweep of `encode_run_sync` in which the session is due, the snapshot
delivered an image and the encoder delivers one packet, with the IDR event
as given. -/
def sweep_of (idr : Option idr_t) : Bool × sync_tick_t :=
  (true, { shutdown := false, idr := idr, timeout := true, convert := 0, reply := reply_one })

/-- The probe configuration at two frames per second. -/
def config_fps2 : config_t := { config_1080p60 1000 0 0 with framerate := 2 }

/-- The variables of `encode_run` some way into a session: both counters at
7, no keyframe marks. -/
def run_at_7 : run_t :=
  { frame_nr := 7, key_frame_nr := 7, session := session_zero, frame := frame_zero,
    packets := [] }

/-- A session of `encode_run_sync` some way into its life: both counters at
7, no keyframe marks, two frames per second. -/
def sync_at_7 : sync_session_t :=
  { ctx := { packets := [], config := config_fps2, frame_nr := 7, key_frame_nr := 7,
             channel_data := 7 },
    img_tmp := true, frame := frame_zero, session := session_zero }

/-! ## The descriptor `nvenc` (lines 407-438) -/

def AV_PIX_FMT_D3D11 : Int := 172

/-- The enumerators of `nv::profile_h264_e` and `nv::profile_hevc_e` (lines
54-65) that the descriptor uses. -/
def nv_profile_h264_high : Int := 2
def nv_profile_hevc_main : Int := 0
def nv_profile_hevc_main_10 : Int := 1

/-- The descriptor `nvenc` (lines 407-438) with the given capabilities. The
first codec block of the initialiser is `hevc`, the second `h264` (line 313);
the `hevc` block declares neither `crf` nor `qp`. -/
def nvenc (hevc h264 : capabilities_t) : encoder_t :=
  { name := "nvenc"
    profile := { h264_high := nv_profile_h264_high, hevc_main := nv_profile_hevc_main,
                 hevc_main_10 := nv_profile_hevc_main_10 }
    dev_type := AV_HWDEVICE_TYPE_D3D11VA
    dev_pix_fmt := AV_PIX_FMT_D3D11
    static_pix_fmt := AV_PIX_FMT_NV12
    dynamic_pix_fmt := AV_PIX_FMT_P010
    hevc :=
      { options := [⟨"forced-idr", .int 1⟩, ⟨"zerolatency", .int 1⟩,
                    ⟨"preset", .opt_int_ref (fun v => v.nv_preset)⟩,
                    ⟨"rc", .opt_int_ref (fun v => v.nv_rc)⟩]
        crf := none
        qp := none
        name := "hevc_nvenc"
        capabilities := hevc }
    h264 :=
      { options := [⟨"forced-idr", .int 1⟩, ⟨"zerolatency", .int 1⟩,
                    ⟨"preset", .opt_int_ref (fun v => v.nv_preset)⟩,
                    ⟨"rc", .opt_int_ref (fun v => v.nv_rc)⟩,
                    ⟨"coder", .int_ref (fun v => v.nv_coder)⟩]
        crf := none
        qp := some ⟨"qp", .int_ref (fun v => v.qp)⟩
        name := "h264_nvenc"
        capabilities := h264 }
    flags := 0 }

/-- The bitset after `capabilities.set()`: every flag set. -/
def caps_all : capabilities_t :=
  { passed := true, ref_frames_restrict := true, ref_frames_autoselect := true,
    slice := true, dynamic_range := true, vui_parameters := true, nalu_prefix_5b := true }

/-- A `config::video` with `qp = 28`, `crf = 0` and the NVENC preset and rate
control configured. -/
def video_nv : video_cfg :=
  { crf := 0, qp := 28, hevc_mode := 0, min_threads := 1, sw_preset := "", sw_tune := "",
    nv_preset := some 1, nv_rc := some 2, nv_coder := 0, amd_quality := none,
    amd_rc := none, encoder := "", adapter_name := "" }

/-- The session configuration of an HEVC HDR stream at 1280x720 and 30 frames
per second, with the bitrate given. -/
def config_720p30_hdr (bitrate : Int) : config_t :=
  { width := 1280, height := 720, framerate := 30, bitrate := bitrate, slicesPerFrame := 1,
    numRefFrames := 1, encoderCscMode := 4, videoFormat := 1, dynamicRange := 1 }



/-! ## The producer `captureThread` (lines 564-698) -/

/-- A subscription `capture_ctx_t` (lines 379-382): the image event of the
consumer, named by a number, and the delay it asks for, in nanoseconds. -/
structure capture_ctx_t where
  images : Nat
  delay : Int
deriving DecidableEq

/-- The two locals of `captureThread` that the subscriptions act on: the
vector `capture_ctxs` and `delay`. -/
structure capture_t where
  capture_ctxs : List capture_ctx_t
  delay : Int
deriving DecidableEq

/-- The call `std::min_element(begin, end, l.delay < r.delay)` of lines 682-684:
the first element with the least delay, and nothing (the `end` iterator) on
the empty vector. -/
def min_element : List capture_ctx_t → Option capture_ctx_t
  | [] => none
  | c :: rest => some (rest.foldl (fun smallest x => if x.delay < smallest.delay then x else smallest) c)

/-- The delay `d` is the least delay among the subscriptions `l`. -/
def is_min_delay (l : List capture_ctx_t) (d : Int) : Prop :=
  (∃ x ∈ l, x.delay = d) ∧ ∀ x ∈ l, d ≤ x.delay

/-- The status `platf::capture_e` that `snapshot` returns; `other` is any
value that the `switch` of line 621 sends to `default`. -/
inductive capture_e where
  | ok
  | reinit
  | timeout
  | error
  | other
deriving DecidableEq

/-- What `captureThread` does to its subscriptions, in order: `add` and
`erase` carry the vector and the delay as they are after the subscription is
added (lines 603-605, 611-613) or erased (lines 678-686), `raise` is
`images->raise(img)` on a running subscription, and `undefined` stands for the
dereference of `std::end(capture_ctxs)` that line 684 performs when the vector
is empty. -/
inductive capture_ev where
  | add (s : capture_t)
  | erase (s : capture_t)
  | raise (images : Nat)
  | undefined
deriving DecidableEq

/-- The loop `while(capture_ctx_queue->peek())` (lines 610-614) over the
subscriptions waiting in the queue. -/
def capture_add : capture_t → List capture_ctx_t → List capture_ev × capture_t
  | s, [] => ([], s)
  | s, c :: rest =>
    let s1 : capture_t :=
      { capture_ctxs := s.capture_ctxs ++ [c], delay := min s.delay c.delay }
    let r := capture_add s1 rest
    (.add s1 :: r.1, r.2)

/-- The dispatch loop (lines 676-691). `visited` are the subscriptions before
the iterator, the second list those from the iterator on; `running` answers
`images->running()`. No state comes back once line 684 has dereferenced
`std::end`. -/
def capture_dispatch (running : Nat → Bool) :
    List capture_ctx_t → List capture_ctx_t → Int → List capture_ev × Option capture_t
  | visited, [], delay => ([], some { capture_ctxs := visited, delay := delay })
  | visited, capture_ctx :: rest, delay =>
    if running capture_ctx.images = false then
      let tmp_delay := capture_ctx.delay
      if tmp_delay = delay then
        match min_element (visited ++ rest) with
        | none => ([.undefined], none)
        | some m =>
          let r := capture_dispatch running visited rest m.delay
          (.erase { capture_ctxs := visited ++ rest, delay := m.delay } :: r.1, r.2)
      else
        let r := capture_dispatch running visited rest delay
        (.erase { capture_ctxs := visited ++ rest, delay := delay } :: r.1, r.2)
    else
      let r := capture_dispatch running (visited ++ [capture_ctx]) rest delay
      (.raise capture_ctx.images :: r.1, r.2)

/-- What one iteration of `while(capture_ctx_queue->running())` meets: the
subscriptions waiting in the queue, the status of `snapshot`, whether a
display and its images come back after a `reinit`, and the answers of
`images->running()`. -/
structure capture_sweep_t where
  queued : List capture_ctx_t
  status : capture_e
  redisplay : Bool
  running : Nat → Bool

/-- The loop `while(capture_ctx_queue->running())` (lines 609-697), one
element of the list for each iteration that the queue lets run. -/
def captureThread_loop : capture_t → List capture_sweep_t → List capture_ev
  | _, [] => []
  | s, sweep :: rest =>
    let a := capture_add s sweep.queued
    match sweep.status with
    | .reinit => if sweep.redisplay then a.1 ++ captureThread_loop a.2 rest else a.1
    | .error => a.1
    | .timeout => a.1 ++ captureThread_loop a.2 rest
    | .ok =>
      let d := capture_dispatch sweep.running [] a.2.capture_ctxs a.2.delay
      match d.2 with
      | none => a.1 ++ d.1
      | some s1 => a.1 ++ d.1 ++ captureThread_loop s1 rest
    | .other => a.1

/-- The function `captureThread` (lines 564-698). `disp` says whether the
display and its twelve images were obtained (lines 585-600), `first` is the
answer of the blocking `capture_ctx_queue->pop()` of line 602. -/
def captureThread (disp : Bool) (first : Option capture_ctx_t)
    (sweeps : List capture_sweep_t) : List capture_ev :=
  if disp = false then []
  else
    match first with
    | some capture_ctx =>
      .add { capture_ctxs := [capture_ctx], delay := capture_ctx.delay } ::
        captureThread_loop { capture_ctxs := [capture_ctx], delay := capture_ctx.delay } sweeps
    | none => captureThread_loop { capture_ctxs := [], delay := 1000000000 } sweeps

/-- The delay that `capture_async` asks for (line 1309):
`floor<nanoseconds>(1s) / config.framerate`. -/
def capture_delay (config : config_t) : Int :=
  Int.tdiv 1000000000 config.framerate

/-- Two sessions, at 60 and at 30 frames per second: the faster one is first
in the queue, the slower one arrives before the first sweep, and the faster
one has stopped by the second sweep. -/
def sweeps_60_30 : List capture_sweep_t :=
  [{ queued := [{ images := 1, delay := 33333333 }], status := .ok, redisplay := true,
     running := fun _ => true },
   { queued := [], status := .ok, redisplay := true, running := fun i => decide (i ≠ 0) }]

/-! ## `validate_config` (lines 1401-1456) -/

/-- The enumeration `platf::mem_type_e`. -/
inductive mem_type_e where
  | system
  | vaapi
  | dxgi
  | unknown
deriving DecidableEq

/-- The enumeration `platf::pix_fmt_e`. -/
inductive pix_fmt_e where
  | yuv420p
  | yuv420p10
  | nv12
  | p010
  | unknown
deriving DecidableEq

/-- The function `map_dev_type` (lines 1736-1749). The third label of the
`switch` is written `AV_PICTURE_TYPE_NONE`, whose value is 0. -/
def map_dev_type (type : Int) : mem_type_e :=
  if type = AV_HWDEVICE_TYPE_D3D11VA then .dxgi
  else if type = AV_HWDEVICE_TYPE_VAAPI then .vaapi
  else if type = AV_PICTURE_TYPE_NONE then .system
  else .unknown

/-- The function `map_pix_fmt` (lines 1751-1766). -/
def map_pix_fmt (fmt : Int) : pix_fmt_e :=
  if fmt = AV_PIX_FMT_YUV420P10 then .yuv420p10
  else if fmt = AV_PIX_FMT_YUV420P then .yuv420p
  else if fmt = AV_PIX_FMT_NV12 then .nv12
  else if fmt = AV_PIX_FMT_P010 then .p010
  else .unknown

def AV_PKT_FLAG_KEY : Int := 0x0001
def AV_CODEC_ID_H264 : Int := 27
def AV_CODEC_ID_H265 : Int := 173

/-- The enumerators of `validate_flag_e` (lines 1396-1399). -/
def validate_flag_e.VUI_PARAMS : Int := 0x01
def validate_flag_e.NALU_PREFIX_5b : Int := 0x02

/-- The call `std::search(begin(payload), end(payload), begin(n), end(n))`:
the position of the first occurrence of `n` in `payload`, and nothing (the
`end` iterator) when there is none. -/
def search : bytes → bytes → Option Nat
  | [], n => if n = [] then some 0 else none
  | b :: rest, n =>
    if n.isPrefixOf (b :: rest) then some 0 else (search rest n).map (fun i => i + 1)

/-- What one `validate_config` call meets outside `video.cpp`: the displays
that the two attempts of `reset_display` obtain (width and height, or none),
the device of `make_hwdevice` (none, or whether its `data` is set),
libavcodec, the return values of `dummy_img` and `convert`, the bitstream
helpers, the packets already waiting on the `video_packets` queue, the
encoder's answers to the successive `encode` calls of the wait loop, and
`cbs::validate_sps`. -/
structure probe_env where
  display : Nat → mem_type_e → Option (Int × Int)
  make_hwdevice : pix_fmt_e → Option Bool
  av : av_env
  dummy_img : Int
  convert : Int
  cbs : cbs_t
  packets : List packet_t
  replies : List reply_t
  validate_sps : AVPacket → Int → Bool

/-- The function `reset_display` (lines 551-562): the display of the first of
the two attempts that obtains one. -/
def reset_display (display : Nat → mem_type_e → Option (Int × Int)) (type : Int) :
    Option (Int × Int) :=
  match display 0 (map_dev_type type) with
  | some disp => some disp
  | none => display 1 (map_dev_type type)

/-- The loop `while(!packets->peek())` of `validate_config` (lines 1431-1435)
followed by `packets->pop()`: the packet popped, or none inside when `encode`
fails. Nothing comes back when the queue is still empty after the last answer
of the encoder: the loop is then still waiting. -/
def validate_config_wait (cbs : cbs_t) :
    List reply_t → session_t → AVFrame → List packet_t → Option (Option packet_t)
  | _, _, _, packet :: _ => some (some packet)
  | [], _, _, [] => none
  | reply :: rest, session, frame, [] =>
    let r := encode cbs 1 session frame [] 0 reply
    if r.ret ≠ 0 then some none
    else validate_config_wait cbs rest r.session r.frame r.packets

/-- The function `validate_config` (lines 1401-1456). Nothing comes back when
its wait loop does not end. -/
def validate_config (env : probe_env) (video : video_cfg) (encoder : encoder_t)
    (config : config_t) : Option Int :=
  match reset_display env.display encoder.dev_type with
  | none => some (-1)
  | some disp =>
    let pix_fmt :=
      if config.dynamicRange = 0 then map_pix_fmt encoder.static_pix_fmt
      else map_pix_fmt encoder.dynamic_pix_fmt
    match env.make_hwdevice pix_fmt with
    | none => some (-1)
    | some hwdevice =>
      match (make_session env.av video encoder config disp.1 disp.2 hwdevice).session with
      | none => some (-1)
      | some session =>
        if env.dummy_img ≠ 0 then some (-1)
        else if env.convert ≠ 0 then some (-1)
        else
          let frame := { session.device.frame with pict_type := AV_PICTURE_TYPE_I }
          match validate_config_wait env.cbs env.replies session frame env.packets with
          | none => none
          | some none => some (-1)
          | some (some packet) =>
            if Int.land packet.pkt.flags AV_PKT_FLAG_KEY = 0 then some (-1)
            else
              let flag0 : Int := 0
              let flag1 : Int :=
                if env.validate_sps packet.pkt
                    (if config.videoFormat ≠ 0 then AV_CODEC_ID_H265 else AV_CODEC_ID_H264)
                then Int.lor flag0 validate_flag_e.VUI_PARAMS else flag0
              let flag2 : Int :=
                if (search packet.pkt.data
                    (if config.videoFormat ≠ 0 then hevc_nalu else h264_nalu)).isSome
                then Int.lor flag1 validate_flag_e.NALU_PREFIX_5b else flag1
              some flag2
/-! ## `validate_encoder` (lines 1458-1557) and `init` (lines 1559-1627) -/

/-- The assignment `capabilities[flag] = v` on a bitset. -/
def capabilities_t.assign (c : capabilities_t) : flag_e → Bool → capabilities_t
  | .PASSED, v => { c with passed := v }
  | .REF_FRAMES_RESTRICT, v => { c with ref_frames_restrict := v }
  | .REF_FRAMES_AUTOSELECT, v => { c with ref_frames_autoselect := v }
  | .SLICE, v => { c with slice := v }
  | .DYNAMIC_RANGE, v => { c with dynamic_range := v }
  | .VUI_PARAMETERS, v => { c with vui_parameters := v }
  | .NALU_PREFIX_5b, v => { c with nalu_prefix_5b := v }

/-- The assignment `codec[flag] = v` through `operator[]` of a codec block
(lines 310-312). -/
def codec_t.assign (codec : codec_t) (flag : flag_e) (v : Bool) : codec_t :=
  { codec with capabilities := codec.capabilities.assign flag v }

/-- The local `force_hevc` of `validate_encoder` (line 1466). -/
def force_hevc (video : video_cfg) : Bool :=
  decide (video.hevc_mode ≥ 2)

/-- The local `test_hevc` of `validate_encoder` (line 1467). -/
def test_hevc (video : video_cfg) (encoder : encoder_t) : Bool :=
  force_hevc video ||
    (decide (video.hevc_mode = 0) && decide (Int.land encoder.flags H264_ONLY = 0))

/-- The probe configurations of `validate_encoder` (lines 1475-1476 and
1521-1524). -/
def config_max_ref_frames : config_t :=
  { width := 1920, height := 1080, framerate := 60, bitrate := 1000, slicesPerFrame := 1,
    numRefFrames := 1, encoderCscMode := 1, videoFormat := 0, dynamicRange := 0 }

def config_autoselect : config_t :=
  { width := 1920, height := 1080, framerate := 60, bitrate := 1000, slicesPerFrame := 1,
    numRefFrames := 0, encoderCscMode := 1, videoFormat := 0, dynamicRange := 0 }

def config_dynamic_range : config_t :=
  { width := 1920, height := 1080, framerate := 60, bitrate := 1000, slicesPerFrame := 1,
    numRefFrames := 0, encoderCscMode := 3, videoFormat := 1, dynamicRange := 1 }

def config_slice : config_t :=
  { width := 1920, height := 1080, framerate := 60, bitrate := 1000, slicesPerFrame := 2,
    numRefFrames := 1, encoderCscMode := 1, videoFormat := 0, dynamicRange := 0 }

/-- The vector `packet_deficiencies` (lines 1485-1488). -/
def packet_deficiencies : List (Int × flag_e) :=
  [(validate_flag_e.VUI_PARAMS, .VUI_PARAMETERS),
   (validate_flag_e.NALU_PREFIX_5b, .NALU_PREFIX_5b)]

/-- What each `validate_config` call of one `validate_encoder` run meets, one
field for each call in the order of the source: lines 1478, 1479, 1498, 1503,
1504, and the calls of lines 1533 and 1535 in the two rounds of the loop. -/
structure probes_t where
  max_ref_frames_h264 : probe_env
  autoselect_h264 : probe_env
  h264_slice : probe_env
  max_ref_frames_hevc : probe_env
  autoselect_hevc : probe_env
  dynamic_range_h264 : probe_env
  dynamic_range_hevc : probe_env
  slice_h264 : probe_env
  slice_hevc : probe_env

/-- Lines 1469-1472 of `validate_encoder`: every capability of both codecs is
set, then `hevc[PASSED] = test_hevc`. -/
def validate_encoder_reset (video : video_cfg) (encoder : encoder_t) : encoder_t :=
  { encoder with
    h264 := { encoder.h264 with capabilities := caps_all }
    hevc := ({ encoder.hevc with capabilities := caps_all } : codec_t).assign .PASSED
      (test_hevc video encoder) }

/-- The assignments that follow the two viability probes of a codec (lines
1490-1495 and 1511-1516): the loop over `packet_deficiencies`, then the two
reference-frame flags. -/
def validate_encoder_viable (codec : codec_t) (max_ref_frames autoselect : Int) : codec_t :=
  ((packet_deficiencies.foldl
      (fun c p => c.assign p.2
        (decide (Int.land max_ref_frames p.1 ≠ 0) && decide (Int.land autoselect p.1 ≠ 0)))
      codec).assign .REF_FRAMES_RESTRICT (decide (max_ref_frames ≥ 0))).assign
    .REF_FRAMES_AUTOSELECT (decide (autoselect ≥ 0))

/-- Lines 1485-1496 of `validate_encoder`, given the values of the two H.264
viability probes. -/
def validate_encoder_h264 (encoder : encoder_t) (max_ref_frames_h264 autoselect_h264 : Int) :
    encoder_t :=
  { encoder with
    h264 := (validate_encoder_viable encoder.h264 max_ref_frames_h264 autoselect_h264).assign
      .PASSED true }

/-- Line 1498 of `validate_encoder`, given the value of its probe: the `int`
is converted to `bool` by the assignment to `h264[SLICE]`. -/
def validate_encoder_h264_slice (encoder : encoder_t) (slice : Int) : encoder_t :=
  { encoder with h264 := encoder.h264.assign .SLICE (decide (slice ≠ 0)) }

/-- Lines 1499-1519 of `validate_encoder`: the HEVC viability probes. None
inside stands for `return false` (line 1508). -/
def validate_encoder_hevc (video : video_cfg) (probes : probes_t) (encoder : encoder_t) :
    Option (Option encoder_t) :=
  if test_hevc video encoder then
    (validate_config probes.max_ref_frames_hevc video encoder
        { config_max_ref_frames with videoFormat := 1 }).bind fun max_ref_frames_hevc =>
    (validate_config probes.autoselect_hevc video encoder
        { config_autoselect with videoFormat := 1 }).bind fun autoselect_hevc =>
    if force_hevc video ∧ max_ref_frames_hevc < 0 ∧ autoselect_hevc < 0 then some none
    else
      some (some { encoder with
        hevc := (validate_encoder_viable encoder.hevc max_ref_frames_hevc
          autoselect_hevc).assign .PASSED
            (decide (max_ref_frames_hevc ≥ 0) || decide (autoselect_hevc ≥ 0)) })
  else some (some encoder)

/-- One round of the loop over `configs` (lines 1526-1536). -/
def validate_encoder_flag (video : video_cfg) (env_h264 env_hevc : probe_env)
    (encoder : encoder_t) (flag : flag_e) (config : config_t) : Option encoder_t :=
  (validate_config env_h264 video encoder { config with videoFormat := 0 }).bind fun r =>
    let encoder1 : encoder_t := { encoder with h264 := encoder.h264.assign flag (decide (r ≥ 0)) }
    if encoder1.hevc.capabilities.get .PASSED then
      (validate_config env_hevc video encoder1 { config with videoFormat := 1 }).bind fun r1 =>
        some { encoder1 with hevc := encoder1.hevc.assign flag (decide (r1 ≥ 0)) }
    else some encoder1

/-- Lines 1538-1539 of `validate_encoder`: the override of `VUI_PARAMETERS`
by the flag `FORCE_VIDEO_HEADER_REPLACE` of `config::sunshine`. -/
def validate_encoder_replace (force_video_header_replace : Bool) (encoder : encoder_t) :
    encoder_t :=
  { encoder with
    h264 := encoder.h264.assign .VUI_PARAMETERS
      (encoder.h264.capabilities.get .VUI_PARAMETERS && !force_video_header_replace)
    hevc := encoder.hevc.assign .VUI_PARAMETERS
      (encoder.hevc.capabilities.get .VUI_PARAMETERS && !force_video_header_replace) }

/-- The function `validate_encoder` (lines 1458-1557): its return value and
the descriptor as it has left it. Nothing comes back when a probe does not
return. -/
def validate_encoder (force_video_header_replace : Bool) (video : video_cfg)
    (probes : probes_t) (encoder : encoder_t) : Option (Bool × encoder_t) :=
  let encoder0 := validate_encoder_reset video encoder
  (validate_config probes.max_ref_frames_h264 video encoder0 config_max_ref_frames).bind
    fun max_ref_frames_h264 =>
  (validate_config probes.autoselect_h264 video encoder0 config_autoselect).bind
    fun autoselect_h264 =>
  if max_ref_frames_h264 < 0 ∧ autoselect_h264 < 0 then some (false, encoder0)
  else
    let encoder1 := validate_encoder_h264 encoder0 max_ref_frames_h264 autoselect_h264
    (validate_config probes.h264_slice video encoder1 config_max_ref_frames).bind fun slice =>
    let encoder2 := validate_encoder_h264_slice encoder1 slice
    (validate_encoder_hevc video probes encoder2).bind fun hevc =>
    match hevc with
    | none => some (false, encoder2)
    | some encoder3 =>
      (validate_encoder_flag video probes.dynamic_range_h264 probes.dynamic_range_hevc
        encoder3 .DYNAMIC_RANGE config_dynamic_range).bind fun encoder4 =>
      (validate_encoder_flag video probes.slice_h264 probes.slice_hevc
        encoder4 .SLICE config_slice).bind fun encoder5 =>
      some (true, validate_encoder_replace force_video_header_replace encoder5)

/-- The result of `init`: its return value, the list `encoders` and
`config::video.hevc_mode` as it leaves them. -/
structure init_t where
  ret : Int
  encoders : List encoder_t
  hevc_mode : Int

/-- The loop of `init` (lines 1567-1578) over the encoders from `pos` on, each
with what its probes would meet: the encoders that are left. -/
def init_loop (force_video_header_replace : Bool) (video : video_cfg) :
    List (encoder_t × probes_t) → Option (List encoder_t)
  | [] => some []
  | (pos, probes) :: rest =>
    if video.encoder ≠ "" ∧ pos.name ≠ video.encoder then
      init_loop force_video_header_replace video rest
    else
      (validate_encoder force_video_header_replace video probes pos).bind fun r =>
        if r.1 = false ∨ (video.hevc_mode = 3 ∧ r.2.hevc.capabilities.get .DYNAMIC_RANGE = false)
        then init_loop force_video_header_replace video rest
        else some (r.2 :: rest.map (fun x => x.1))

/-- The function `init` (lines 1559-1627). Nothing comes back when a probe
does not return. -/
def init (force_video_header_replace : Bool) (video : video_cfg)
    (encoders : List (encoder_t × probes_t)) : Option init_t :=
  (init_loop force_video_header_replace video encoders).bind fun left =>
    match left with
    | [] => some { ret := -1, encoders := [], hevc_mode := video.hevc_mode }
    | encoder :: rest =>
      some
        { ret := 0
          encoders := encoder :: rest
          hevc_mode :=
            if video.hevc_mode = 0 then
              (if encoder.hevc.capabilities.get .PASSED then
                 (if encoder.hevc.capabilities.get .DYNAMIC_RANGE then 3 else 2)
               else 1)
            else video.hevc_mode }

/-! ## Concrete probe environments -/

/-- A world in which a probe gets through: a 1920x1080 display at the first
attempt, a device without `data`, libavcodec accepting everything, and an
encoder that delivers one keyframe packet with the payload `data`, on which
`cbs::validate_sps` answers `sps`. -/
def probe_ok (data : bytes) (sps : Bool) : probe_env :=
  { display := fun _ _ => some (1920, 1080)
    make_hwdevice := fun _ => some false
    av := av_ok
    dummy_img := 0
    convert := 0
    cbs := cbs_fixed
    packets := []
    replies := [{ send := 0, received := [{ data := data, flags := 1 }],
                  last := AVERROR_EAGAIN, last_neg := by decide }]
    validate_sps := fun _ _ => sps }

/-- A world in which a probe fails at once: no display is obtained. -/
def probe_fail : probe_env :=
  { probe_ok [] false with display := fun _ _ => none }

/-- Every probe of a `validate_encoder` run meets the same world. -/
def probes_all (env : probe_env) : probes_t :=
  { max_ref_frames_h264 := env, autoselect_h264 := env, h264_slice := env,
    max_ref_frames_hevc := env, autoselect_hevc := env, dynamic_range_h264 := env,
    dynamic_range_hevc := env, slice_h264 := env, slice_hevc := env }

/-- Every H.264 probe gets through and both HEVC viability probes fail. -/
def probes_no_hevc : probes_t :=
  { probes_all (probe_ok h264_nalu true) with
    max_ref_frames_hevc := probe_fail, autoselect_hevc := probe_fail }

/-- The configuration `video_qp` with `hevc_mode` as given. -/
def video_hevc (hevc_mode : Int) : video_cfg :=
  { video_qp with hevc_mode := hevc_mode }

/-- The descriptor that `validate_encoder` leaves, or the one given when it
does not return. -/
def validated (force_video_header_replace : Bool) (video : video_cfg) (probes : probes_t)
    (encoder : encoder_t) : encoder_t :=
  ((validate_encoder force_video_header_replace video probes encoder).getD (false, encoder)).2

/-- Every probe gets through, on a keyframe packet that holds the H.264
five-byte NAL prefix and whose parameter sets `cbs::validate_sps` accepts. -/
def probes_ok : probes_t :=
  probes_all (probe_ok h264_nalu true)

/-- An answer of the encoder that ends the wait loop of `validate_config`: the
frame is refused, or a packet is delivered, or the drain ends with an error
other than `EAGAIN` and `EOF`. -/
def reply_t.ends (reply : reply_t) : Bool :=
  decide (reply.send < 0) || !reply.received.isEmpty ||
    !(decide (reply.last = AVERROR_EAGAIN) || decide (reply.last = AVERROR_EOF))

/-- A world in which the wait loop of `validate_config` ends: a packet is
already waiting, or one of the encoder's answers ends the loop. -/
def probe_env.ends (env : probe_env) : Bool :=
  !env.packets.isEmpty || env.replies.any reply_t.ends

/-- A world in which the wait loop of every probe ends. -/
def probes_t.ends (probes : probes_t) : Bool :=
  probes.max_ref_frames_h264.ends && probes.autoselect_h264.ends && probes.h264_slice.ends &&
    probes.max_ref_frames_hevc.ends && probes.autoselect_hevc.ends &&
    probes.dynamic_range_h264.ends && probes.dynamic_range_hevc.ends &&
    probes.slice_h264.ends && probes.slice_hevc.ends

/-- An encoder that the loop of `init` is to stop at, in the words of the
specification: it matches the pinned name when `config::video.encoder` is not
empty, `validate_encoder` returns `true` for it, and when `hevc_mode = 3` it
is left with the HEVC capability `DYNAMIC_RANGE`. -/
def init_keeps (force_video_header_replace : Bool) (video : video_cfg)
    (p : encoder_t × probes_t) : Bool :=
  (decide (video.encoder = "") || decide (p.1.name = video.encoder)) &&
    (match validate_encoder force_video_header_replace video p.2 p.1 with
     | some (true, e) => decide (video.hevc_mode ≠ 3) || e.hevc.capabilities.get .DYNAMIC_RANGE
     | _ => false)

/-- The list `encoders` of a Linux build (lines 540-549), each descriptor
with the world its probes meet: `vaapi` finds no display, `software` gets
through. -/
def encoders_linux : List (encoder_t × probes_t) :=
  [(vaapi caps_none caps_none, probes_all probe_fail),
   (software caps_none caps_none, probes_ok)]



/-- One sweep of `captureThread` in which `snapshot` succeeds and every
subscription has stopped. -/
def sweeps_all_stopped : List capture_sweep_t :=
  [{ queued := [], status := .ok, redisplay := true, running := fun _ => false }]

/-- The first H.264 viability probe fails, every other probe gets through. -/
def probes_one_fails : probes_t :=
  { probes_ok with max_ref_frames_h264 := probe_fail }

/-! ## `swdevice_t::init` (lines 185-223) -/

/-- The arithmetic of `float` that `swdevice_t::init` uses, on a carrier `F`:
the conversion of an `int`, the division, the multiplication, `std::fminf`,
and the conversion back to `int`. -/
structure float_t (F : Type) where
  of_int : Int → F
  div : F → F → F
  mul : F → F → F
  fminf : F → F → F
  to_int : F → Int

/-- The members that `swdevice_t::init` assigns, with the size that it passes
to `sws_getContext` as the output size. -/
structure swdevice_t where
  out_width : Int
  out_height : Int
  offsetUV : Int
  offsetY : Int
deriving DecidableEq

/-- The function `swdevice_t::init` (lines 185-223): its return value and the
members assigned, none when `prefill` fails. `prefill` is the return value of
`prefill()`, `sws_getContext` says whether a scaler context comes back for
the input and output sizes. -/
def swdevice_t.init {F : Type} (fl : float_t F) (prefill : Int)
    (sws_getContext : Int → Int → Int → Int → Bool) (in_width in_height : Int)
    (frame : AVFrame) : Int × Option swdevice_t :=
  if prefill ≠ 0 then (-1, none)
  else
    let out_width := frame.width
    let out_height := frame.height
    -- Ensure aspect ratio is maintained
    let scalar := fl.fminf (fl.div (fl.of_int out_width) (fl.of_int in_width))
      (fl.div (fl.of_int out_height) (fl.of_int in_height))
    let out_width1 := fl.to_int (fl.mul (fl.of_int in_width) scalar)
    let out_height1 := fl.to_int (fl.mul (fl.of_int in_height) scalar)
    let offsetW := Int.tdiv (wrap32 (frame.width - out_width1)) 2
    let offsetH := Int.tdiv (wrap32 (frame.height - out_height1)) 2
    let offsetUV :=
      Int.tdiv (wrap32 (offsetW + Int.tdiv (wrap32 (offsetH * frame.width)) 2)) 2
    let offsetY := wrap32 (offsetW + wrap32 (offsetH * frame.width))
    (if sws_getContext in_width in_height out_width1 out_height1 then 0 else -1,
     some { out_width := out_width1, out_height := out_height1, offsetUV := offsetUV,
            offsetY := offsetY })

/-- The arithmetic of `float` taken as exact: the rationals, with the
conversion to `int` truncating toward zero. -/
def float_exact : float_t ℚ :=
  { of_int := fun n => (n : ℚ)
    div := fun a b => a / b
    mul := fun a b => a * b
    fminf := fun a b => min a b
    to_int := fun q => Int.tdiv q.num q.den }

/-- A frame of the size given. -/
def frame_of_size (width height : Int) : AVFrame :=
  { frame_zero with width := width, height := height }

/-! ## One sweep of `encode_run_sync` over all sessions (lines 1189-1260) -/

/-- The loop over `synced_sessions` of one pass of `encode_run_sync` (lines
1189-1260): what the body does with the session at each position, in order,
each session coming with the answers for it; `img_tmp` says whether the
snapshot of this pass delivered an image. Each context has its own output
queue. A session that the body erases leaves no session behind, and the loop
goes on with the next position. -/
def encode_run_sync_sweep (cbs : cbs_t) (img_tmp : Bool) :
    List (sync_session_t × sync_tick_t) → List sync_iter_t
  | [] => []
  | (pos, t) :: rest =>
    encode_run_sync_iter cbs img_tmp pos t :: encode_run_sync_sweep cbs img_tmp rest

/-- The vector `synced_sessions` after the sweep: the sessions not erased. -/
def synced_sessions_left (r : List sync_iter_t) : List sync_session_t :=
  r.filterMap (fun x => x.session)

/-- What a client can tell of a session after a sweep: the frame counter, the
scheduled keyframe number and the keyframe marks of its frame, when the
session is still there. -/
def sync_iter_t.counters (r : sync_iter_t) : Option (Int × Int × Int × Int) :=
  r.session.map (fun s => (s.ctx.frame_nr, s.ctx.key_frame_nr, s.frame.pict_type,
    s.frame.key_frame))

/-- A second session, with its counters at 3, at sixty frames per second. -/
def sync_at_3 : sync_session_t :=
  { ctx := { packets := [], config := config_1080p60 1000 0 0, frame_nr := 3,
             key_frame_nr := 60, channel_data := 3 },
    img_tmp := true, frame := frame_zero, session := session_zero }

/-! # Facts about the embedding -/

/-! ## Machine integers: facts -/

theorem wrap32_eq (x : Int) (h1 : -2147483648 ≤ x) (h2 : x ≤ 2147483647) : wrap32 x = x := by
  unfold wrap32; omega

theorem lt_wrap32_succ (x : Int) (h : x < INT_MAX) : x < wrap32 (x + 1) := by
  unfold wrap32 INT_MAX at *; omega

/-! ## `make_session`: the stages -/

theorem hwframe_ctx_ok (init : Int) (ctx : AVCodecContext) :
    (hwframe_ctx init ctx).1 = 0 ↔ ¬ init < 0 := by
  unfold hwframe_ctx
  split
  · simp; omega
  · simp; omega

theorem hwframe_ctx_snd (init : Int) (ctx : AVCodecContext) (h : ¬ init < 0) :
    (hwframe_ctx init ctx).2 = { ctx with hw_frames_ctx := true } := by
  unfold hwframe_ctx
  simp [h]

theorem make_session_slices_some (av : av_env) (video : video_cfg) (encoder : encoder_t)
    (config : config_t) (ctx ctx1 : AVCodecContext) (calls : List call_e)
    (h : make_session_slices av video encoder config ctx = (some ctx1, calls)) :
    ctx1.refs = ctx.refs ∧ ctx1.rc_max_rate = ctx.rc_max_rate ∧
      ctx1.rc_buffer_size = ctx.rc_buffer_size ∧ ctx1.bit_rate = ctx.bit_rate ∧
      ctx1.rc_min_rate = ctx.rc_min_rate := by
  unfold make_session_slices at h
  by_cases hhw : encoder.dev_type ≠ AV_HWDEVICE_TYPE_NONE
  · by_cases hmk : av.make_hwdevice_ctx = false
    · simp [hhw, hmk] at h
    · by_cases hin : av.hwframe_ctx_init < 0
      · have := (hwframe_ctx_ok av.hwframe_ctx_init { ctx with pix_fmt := encoder.dev_pix_fmt }).not.mpr (not_not.mpr hin)
        simp [hhw, hmk, this] at h
      · have h0 := (hwframe_ctx_ok av.hwframe_ctx_init { ctx with pix_fmt := encoder.dev_pix_fmt }).mpr hin
        have h2 := hwframe_ctx_snd av.hwframe_ctx_init { ctx with pix_fmt := encoder.dev_pix_fmt } hin
        simp [hhw, hmk, h0, h2] at h
        obtain ⟨h1, h3⟩ := h
        subst h1 h3
        simp
  · simp [hhw] at h
    obtain ⟨h1, h3⟩ := h
    subst h1 h3
    simp

theorem make_session_slices_calls (av : av_env) (video : video_cfg) (encoder : encoder_t)
    (config : config_t) (ctx : AVCodecContext) :
    ∀ c o, call_e.avcodec_open2 c o ∉
      (make_session_slices av video encoder config ctx).2 := by
  intro c o
  unfold make_session_slices
  by_cases hhw : encoder.dev_type ≠ AV_HWDEVICE_TYPE_NONE
  · by_cases hmk : av.make_hwdevice_ctx = false
    · simp [hhw, hmk]
    · by_cases hin : av.hwframe_ctx_init < 0
      · have := (hwframe_ctx_ok av.hwframe_ctx_init
          { ctx with pix_fmt := encoder.dev_pix_fmt }).not.mpr (not_not.mpr hin)
        simp [hhw, hmk, this]
      · have h0 := (hwframe_ctx_ok av.hwframe_ctx_init
          { ctx with pix_fmt := encoder.dev_pix_fmt }).mpr hin
        simp [hhw, hmk, h0]
  · simp [hhw]

theorem make_session_device_calls (av : av_env) (encoder : encoder_t) (config : config_t)
    (width height : Int) (hwdevice_data : Bool) (ctx : AVCodecContext) :
    ∀ c o, call_e.avcodec_open2 c o ∉
      (make_session_device av encoder config width height hwdevice_data ctx).2 := by
  intro c o
  unfold make_session_device
  by_cases h1 : hwdevice_data = false
  · by_cases h2 : av.swdevice_init width height (make_session_frame av encoder ctx)
        (sw_fmt encoder config) ≠ 0
    · simp [h1, h2]
    · by_cases h3 : av.set_frame (make_session_frame av encoder ctx) ≠ 0
      · simp [h1, h2, h3]
      · simp [h1, h2, h3]
  · by_cases h3 : av.set_frame (make_session_frame av encoder ctx) ≠ 0
    · simp [h1, h3]
    · simp [h1, h3]

theorem rate_control_cbr (video : video_cfg) (video_format : codec_t) (config : config_t) :
    rate_control video video_format config = .cbr ↔ config.bitrate > 500 := by
  unfold rate_control
  split
  · simp [*]
  · split
    · simp [*]
    · split <;> simp [*]

theorem rate_control_unsupported (video : video_cfg) (video_format : codec_t)
    (config : config_t) :
    rate_control video video_format config = .unsupported ↔
      config.bitrate ≤ 500 ∧ video_format.qp = none ∧
        (video_format.crf = none ∨ video.crf = 0) := by
  unfold rate_control
  split
  · simp; omega
  · rename_i hb
    split
    · rename_i hc
      simp only [false_iff, reduceCtorEq]
      rintro ⟨_, _, h | h⟩
      · simp [h] at hc
      · exact hc.2 h
    · rename_i hc
      split
      · rename_i hq
        simp only [false_iff, reduceCtorEq]
        rintro ⟨_, h, _⟩
        simp [h] at hq
      · rename_i hq
        simp only [true_iff]
        refine ⟨by omega, by simpa using hq, ?_⟩
        by_cases h : video_format.crf = none
        · exact Or.inl h
        · right
          by_contra h0
          apply hc
          exact ⟨by cases hx : video_format.crf <;> simp_all, h0⟩

theorem make_session_rc_cbr (video : video_cfg) (encoder : encoder_t) (config : config_t)
    (ctx : AVCodecContext) (options : AVDictionary) (h : config.bitrate > 500) :
    make_session_rc video encoder config ctx options =
      some ({ ctx with
              rc_max_rate := wrap32 (config.bitrate * 1000)
              rc_buffer_size := Int.tdiv (wrap32 (config.bitrate * 1000)) config.framerate
              bit_rate := wrap32 (config.bitrate * 1000)
              rc_min_rate := wrap32 (config.bitrate * 1000) }, options) := by
  unfold make_session_rc
  rw [(rate_control_cbr video (video_format encoder config) config).mpr h]

theorem rate_control_crf (video : video_cfg) (video_format : codec_t) (config : config_t) :
    rate_control video video_format config = .crf ↔
      config.bitrate ≤ 500 ∧ (video_format.crf.isSome ∧ video.crf ≠ 0) := by
  unfold rate_control
  by_cases hb : config.bitrate > 500
  · rw [if_pos hb]; simp; omega
  · rw [if_neg hb]
    by_cases hc : video_format.crf.isSome ∧ video.crf ≠ 0
    · rw [if_pos hc]; simp only [true_iff]; exact ⟨by omega, hc⟩
    · rw [if_neg hc]
      by_cases hq : video_format.qp.isSome
      · rw [if_pos hq]; simp only [false_iff, reduceCtorEq]; exact fun h => hc h.2
      · rw [if_neg hq]; simp only [false_iff, reduceCtorEq]; exact fun h => hc h.2

theorem rate_control_qp (video : video_cfg) (video_format : codec_t) (config : config_t) :
    rate_control video video_format config = .qp ↔
      config.bitrate ≤ 500 ∧ ¬ (video_format.crf.isSome ∧ video.crf ≠ 0) ∧
        video_format.qp.isSome := by
  unfold rate_control
  by_cases hb : config.bitrate > 500
  · rw [if_pos hb]; simp; omega
  · rw [if_neg hb]
    by_cases hc : video_format.crf.isSome ∧ video.crf ≠ 0
    · rw [if_pos hc]; simp only [false_iff, reduceCtorEq]; exact fun h => h.2.1 hc
    · rw [if_neg hc]
      by_cases hq : video_format.qp.isSome
      · rw [if_pos hq]; simp only [true_iff]; exact ⟨by omega, hc, hq⟩
      · rw [if_neg hq]; simp only [false_iff, reduceCtorEq]; exact fun h => hq h.2.2

theorem make_session_rc_quality (video : video_cfg) (encoder : encoder_t) (config : config_t)
    (ctx : AVCodecContext) (options : AVDictionary) (h : config.bitrate ≤ 500) :
    make_session_rc video encoder config ctx options =
      if (video_format encoder config).crf.isSome ∧ video.crf ≠ 0 then
        (video_format encoder config).crf.map (fun o => (ctx, handle_option video options o))
      else (video_format encoder config).qp.map (fun o => (ctx, handle_option video options o)) := by
  unfold make_session_rc
  cases hrc : rate_control video (video_format encoder config) config with
  | cbr =>
    have := (rate_control_cbr _ _ _).mp hrc
    omega
  | crf =>
    have hc := ((rate_control_crf _ _ _).mp hrc).2
    rw [if_pos hc]
    cases hx : (video_format encoder config).crf <;> simp
  | qp =>
    have hc := ((rate_control_qp _ _ _).mp hrc).2
    rw [if_neg hc.1]
    cases hx : (video_format encoder config).qp <;> simp
  | unsupported =>
    have hc := ((rate_control_unsupported _ _ _).mp hrc).2
    have hn : ¬ ((video_format encoder config).crf.isSome ∧ video.crf ≠ 0) := by
      rintro ⟨h1, h2⟩
      rcases hc.2 with h3 | h3
      · simp [h3] at h1
      · exact h2 h3
    rw [if_neg hn, hc.1]
    simp

theorem make_session_some (av : av_env) (video : video_cfg) (encoder : encoder_t)
    (config : config_t) (width height : Int) (hwdevice_data : Bool) (s : session_t)
    (h : (make_session av video encoder config width height hwdevice_data).session = some s) :
    ∃ ctx1 calls2 options,
      make_session_slices av video encoder config (make_session_ctx av.ctx0 encoder config)
        = (some ctx1, calls2) ∧
      make_session_rc video encoder config ctx1
        ((video_format encoder config).options.foldl (handle_option video) [])
        = some (s.ctx, options) ∧
      s.inject = wrap32 (wrap32 (1 - b2i
          ((video_format encoder config).capabilities.get .VUI_PARAMETERS))
        * wrap32 (1 + config.videoFormat)) ∧
      s.replacements =
        (if (video_format encoder config).capabilities.get .NALU_PREFIX_5b = false
         then [((if config.videoFormat ≠ 0 then hevc_nalu else h264_nalu).drop 1,
                if config.videoFormat ≠ 0 then hevc_nalu else h264_nalu)]
         else []) := by
  unfold make_session at h
  simp only [] at h
  split at h
  · simp at h
  split at h
  · simp at h
  split at h
  · simp at h
  split at h
  · simp at h
  rename_i x ctx1 calls2 hs
  split at h
  · simp at h
  rename_i y ctx options hrc
  split at h
  · simp at h
  split at h
  · simp at h
  simp only [Option.some.injEq] at h
  subst h
  exact ⟨ctx1, calls2, options, hs, hrc, rfl, rfl⟩

theorem make_session_open2 (av : av_env) (video : video_cfg) (encoder : encoder_t)
    (config : config_t) (width height : Int) (hwdevice_data : Bool) (c : AVCodecContext)
    (o : AVDictionary)
    (h : call_e.avcodec_open2 c o ∈
      (make_session av video encoder config width height hwdevice_data).calls) :
    ∃ ctx1 calls2,
      make_session_slices av video encoder config (make_session_ctx av.ctx0 encoder config)
        = (some ctx1, calls2) ∧
      make_session_rc video encoder config ctx1
        ((video_format encoder config).options.foldl (handle_option video) [])
        = some (c, o) := by
  unfold make_session at h
  simp only [] at h
  split at h
  · simp at h
  split at h
  · simp at h
  split at h
  · simp at h
  split at h
  · rename_i x calls2 hs
    exfalso
    have hno := make_session_slices_calls av video encoder config
      (make_session_ctx av.ctx0 encoder config)
    rw [hs] at hno
    simp at h
    exact hno c o h
  rename_i x ctx1 calls2 hs
  have hno := make_session_slices_calls av video encoder config
    (make_session_ctx av.ctx0 encoder config)
  rw [hs] at hno
  split at h
  · simp at h
    exact absurd h (hno c o)
  rename_i y ctx options hrc
  have hd := make_session_device_calls av encoder config width height hwdevice_data ctx c o
  split at h
  · simp at h
    rcases h with h | h
    · exact absurd h (hno c o)
    · exact ⟨ctx1, calls2, hs, by rw [hrc, h.1, h.2]⟩
  split at h
  · rename_i z calls3 hdev
    rw [hdev] at hd
    simp at h
    rcases h with h | h | h
    · exact absurd h (hno c o)
    · exact ⟨ctx1, calls2, hs, by rw [hrc, h.1, h.2]⟩
    · exact absurd h hd
  · rename_i z dev calls3 hdev
    rw [hdev] at hd
    simp at h
    rcases h with h | h | h
    · exact absurd h (hno c o)
    · exact ⟨ctx1, calls2, hs, by rw [hrc, h.1, h.2]⟩
    · exact absurd h hd

/-! ## `encode`: the replacement table -/

theorem encode_loop_armed_off (cbs : cbs_t) (channel_data : Nat) (session : session_t)
    (h : session.inject = 0) (received : List AVPacket) (packets : List packet_t) :
    encode_loop cbs channel_data session packets received =
      (session, packets ++ received.map (fun x =>
        { pkt := x, replacements := session.replacements, channel_data := channel_data })) := by
  induction received generalizing packets with
  | nil => simp [encode_loop]
  | cons p ps ih =>
    unfold encode_loop
    simp only [h, ne_eq, not_true_eq_false, if_false]
    rw [ih]
    simp

theorem encode_loop_armed (cbs : cbs_t) (channel_data : Nat) (session : session_t)
    (h : session.inject ≠ 0) (p : AVPacket) (ps : List AVPacket) (packets : List packet_t) :
    ∃ session1 : session_t,
      session1.inject = 0 ∧
      session1.replacements = session.replacements ++ injected cbs session p ∧
      encode_loop cbs channel_data session packets (p :: ps) =
        (session1, packets ++ (p :: ps).map (fun x =>
          { pkt := x, replacements := session1.replacements, channel_data := channel_data })) := by
  unfold encode_loop
  simp only [h, ne_eq, not_false_eq_true, if_true]
  by_cases h1 : session.inject = 1
  · simp only [h1, if_true]
    refine ⟨{ session with
              sps := (cbs.make_sps_h264 session.ctx p).sps
              inject := 0
              replacements := session.replacements ++
                [((cbs.make_sps_h264 session.ctx p).sps.old,
                  (cbs.make_sps_h264 session.ctx p).sps._new)] }, rfl, ?_, ?_⟩
    · simp [injected, h1]
    · rw [encode_loop_armed_off cbs channel_data _ rfl]
      simp
  · simp only [h1, if_false]
    refine ⟨{ session with
              sps := (cbs.make_sps_hevc session.ctx p).sps
              vps := (cbs.make_sps_hevc session.ctx p).vps
              inject := 0
              replacements := (session.replacements ++
                [((cbs.make_sps_hevc session.ctx p).vps.old,
                  (cbs.make_sps_hevc session.ctx p).vps._new)]) ++
                [((cbs.make_sps_hevc session.ctx p).sps.old,
                  (cbs.make_sps_hevc session.ctx p).sps._new)] }, rfl, ?_, ?_⟩
    · simp [injected, h1]
    · rw [encode_loop_armed_off cbs channel_data _ rfl]
      simp

theorem encode_frame (cbs : cbs_t) (frame_nr : Int) (session : session_t) (frame : AVFrame)
    (packets : List packet_t) (channel_data : Nat) (reply : reply_t) :
    (encode cbs frame_nr session frame packets channel_data reply).frame =
      { frame with pts := frame_nr } := by
  unfold encode
  split
  · rfl
  · split <;> rfl

theorem encode_session (cbs : cbs_t) (frame_nr : Int) (session : session_t) (frame : AVFrame)
    (packets : List packet_t) (channel_data : Nat) (reply : reply_t) :
    (encode cbs frame_nr session frame packets channel_data reply).session =
      if reply.send < 0 then session
      else (encode_loop cbs channel_data session packets reply.received).1 := by
  unfold encode
  split
  · rfl
  · split <;> rfl

theorem encode_packets (cbs : cbs_t) (frame_nr : Int) (session : session_t) (frame : AVFrame)
    (packets : List packet_t) (channel_data : Nat) (reply : reply_t) :
    (encode cbs frame_nr session frame packets channel_data reply).packets =
      if reply.send < 0 then packets
      else (encode_loop cbs channel_data session packets reply.received).2 := by
  unfold encode
  split
  · rfl
  · split <;> rfl

theorem encode_calls_armed_off (cbs : cbs_t) (channel_data : Nat) (session : session_t)
    (h : session.inject = 0) (calls : List (Int × reply_t)) (frame : AVFrame)
    (packets : List packet_t) :
    encode_calls cbs frame channel_data session packets calls =
      (session, packets ++ (all_received calls).map (fun x =>
        { pkt := x, replacements := session.replacements, channel_data := channel_data })) := by
  induction calls generalizing packets frame with
  | nil => simp [encode_calls, all_received]
  | cons c cs ih =>
    obtain ⟨n, reply⟩ := c
    unfold encode_calls all_received
    simp only [encode_session, encode_packets, encode_frame]
    by_cases hs : reply.send < 0
    · simp only [hs, if_true]
      rw [ih]
      simp
    · simp only [hs, if_false]
      rw [encode_loop_armed_off cbs channel_data session h]
      simp only []
      rw [ih]
      simp

theorem encode_calls_armed (cbs : cbs_t) (channel_data : Nat) (session : session_t)
    (h : session.inject ≠ 0) (calls : List (Int × reply_t)) (frame : AVFrame)
    (packets : List packet_t) :
    match first_received calls with
    | none => encode_calls cbs frame channel_data session packets calls = (session, packets)
    | some p =>
      (encode_calls cbs frame channel_data session packets calls).1.replacements =
          session.replacements ++ injected cbs session p ∧
        (encode_calls cbs frame channel_data session packets calls).1.inject = 0 ∧
        (encode_calls cbs frame channel_data session packets calls).2 =
          packets ++ (all_received calls).map (fun x =>
            { pkt := x, replacements := session.replacements ++ injected cbs session p,
              channel_data := channel_data }) := by
  induction calls generalizing packets frame with
  | nil => simp [encode_calls, first_received]
  | cons c cs ih =>
    obtain ⟨n, reply⟩ := c
    unfold encode_calls first_received all_received
    simp only [encode_session, encode_packets, encode_frame]
    by_cases hs : reply.send < 0
    · simp only [hs, if_true]
      have := ih { frame with pts := n } packets
      cases hf : first_received cs with
      | none => rw [hf] at this; simpa using this
      | some p => rw [hf] at this; simpa using this
    · simp only [hs, if_false]
      cases hr : reply.received with
      | nil =>
        simp only [encode_loop]
        have := ih { frame with pts := n } packets
        cases hf : first_received cs with
        | none => rw [hf] at this; simpa using this
        | some p => rw [hf] at this; simpa using this
      | cons p ps =>
        obtain ⟨s1, h0, hrep, hl⟩ := encode_loop_armed cbs channel_data session h p ps packets
        simp only [hl]
        rw [encode_calls_armed_off cbs channel_data s1 h0]
        simp [hrep]
        exact h0

theorem encode_calls_grows (cbs : cbs_t) (channel_data : Nat) (session : session_t)
    (calls : List (Int × reply_t)) (frame : AVFrame) (packets : List packet_t) :
    ∀ e ∈ session.replacements,
      e ∈ (encode_calls cbs frame channel_data session packets calls).1.replacements := by
  intro e he
  by_cases h : session.inject = 0
  · rw [encode_calls_armed_off cbs channel_data session h]
    exact he
  · have := encode_calls_armed cbs channel_data session h calls frame packets
    cases hf : first_received calls with
    | none => rw [hf] at this; simp only [] at this; rw [this]; exact he
    | some p =>
      rw [hf] at this
      simp only [] at this
      rw [this.1]
      exact List.mem_append_left _ he

/-! ## Claims on `encode` and `make_session` -/

/-- C2: on a session armed with `inject ≠ 0`, whatever the sequence of `encode`
calls and of encoder answers, the replacement table gains its entries while
the first received packet is processed, and only then: the SPS pair for
`inject = 1`, the VPS pair and the SPS pair for `inject = 2`. Every packet
pushed, the first one included, comes with the table already extended;
`inject` is 0 afterwards and the table does not change again. Until a packet
is received the session and the queue are untouched. -/
theorem encode_injects_once (cbs : cbs_t) (frame : AVFrame) (channel_data : Nat)
    (session : session_t) (packets : List packet_t) (calls : List (Int × reply_t))
    (h : session.inject ≠ 0) :
    (session.inject = 1 → ∀ p, injected cbs session p =
        [((cbs.make_sps_h264 session.ctx p).sps.old,
          (cbs.make_sps_h264 session.ctx p).sps._new)]) ∧
    (session.inject = 2 → ∀ p, injected cbs session p =
        [((cbs.make_sps_hevc session.ctx p).vps.old,
          (cbs.make_sps_hevc session.ctx p).vps._new),
         ((cbs.make_sps_hevc session.ctx p).sps.old,
          (cbs.make_sps_hevc session.ctx p).sps._new)]) ∧
    match first_received calls with
    | none =>
      (encode_calls cbs frame channel_data session packets calls).1.replacements =
          session.replacements ∧
        (encode_calls cbs frame channel_data session packets calls).1.inject =
          session.inject ∧
        (encode_calls cbs frame channel_data session packets calls).2 = packets
    | some p =>
      (encode_calls cbs frame channel_data session packets calls).1.replacements =
          session.replacements ++ injected cbs session p ∧
        (encode_calls cbs frame channel_data session packets calls).1.inject = 0 ∧
        (encode_calls cbs frame channel_data session packets calls).2 =
          packets ++ (all_received calls).map (fun x =>
            { pkt := x, replacements := session.replacements ++ injected cbs session p,
              channel_data := channel_data }) := by
  refine ⟨fun h1 p => by simp [injected, h1], fun h2 p => by simp [injected, h2], ?_⟩
  have := encode_calls_armed cbs channel_data session h calls frame packets
  cases hf : first_received calls with
  | none => rw [hf] at this; simp only [] at this ⊢; rw [this]; exact ⟨rfl, rfl, rfl⟩
  | some p => rw [hf] at this; exact this

theorem encode_injects_once_witness :
    ({ session_zero with inject := 2 } : session_t).inject ≠ 0 ∧
    (encode_calls cbs_fixed frame_zero 7 { session_zero with inject := 2 } []
        [(1, reply_none), (2, reply_one), (3, reply_one)]).1.replacements =
      [([64, 1], [64, 2]), ([66, 1], [66, 2])] ∧
    (encode_calls cbs_fixed frame_zero 7 { session_zero with inject := 2 } []
        [(1, reply_none), (2, reply_one), (3, reply_one)]).1.inject = 0 ∧
    (encode_calls cbs_fixed frame_zero 7 { session_zero with inject := 2 } []
        [(1, reply_none), (2, reply_one), (3, reply_one)]).2 =
      [{ pkt := { data := [0, 0, 1, 0x65, 7], flags := 1 },
         replacements := [([64, 1], [64, 2]), ([66, 1], [66, 2])], channel_data := 7 },
       { pkt := { data := [0, 0, 1, 0x65, 7], flags := 1 },
         replacements := [([64, 1], [64, 2]), ([66, 1], [66, 2])], channel_data := 7 }] :=
  ⟨by decide,
   (encode_injects_once cbs_fixed frame_zero 7 { session_zero with inject := 2 } []
      [(1, reply_none), (2, reply_one), (3, reply_one)] (by decide)).2.2⟩

/-- C3, as stated, fails: the session that `make_session` builds for libx264
(no `NALU_PREFIX_5b`) has one entry, from the four bytes `00 00 01 65` to the
five bytes `00 00 00 01 65`; the table holds no entry from `00 00 01` to
`00 00 00 01`. -/
theorem nalu_entry_is_not_the_bare_start_code :
    ((software caps_none caps_x26x).h264.capabilities.get .NALU_PREFIX_5b = false) ∧
    ((make_session av_ok video_qp (software caps_none caps_x26x) (config_1080p60 1000 0 0)
        1920 1080 false).session.map (fun s => s.replacements)) =
      some [([0, 0, 1, 0x65], [0, 0, 0, 1, 0x65])] ∧
    ¬ (∀ s, (make_session av_ok video_qp (software caps_none caps_x26x)
          (config_1080p60 1000 0 0) 1920 1080 false).session = some s →
        (([0, 0, 1], [0, 0, 0, 1]) : replace_t) ∈ s.replacements) := by
  refine ⟨by decide, by decide, ?_⟩
  intro h
  have := h ((make_session av_ok video_qp (software caps_none caps_x26x)
    (config_1080p60 1000 0 0) 1920 1080 false).session.getD session_zero) rfl
  revert this
  decide

/-- C3, amended: a session built for a codec without `NALU_PREFIX_5b` starts
with exactly one entry, from `00 00 01 T` (the three-byte start code and the
NAL header byte `T`, `0x65` for H.264 and `0x28` for HEVC) to `00 00 00 01 T`,
and the table still contains that entry after every sequence of `encode`
calls; with the capability present the table starts empty. -/
theorem make_session_seeds_nalu_entry (av : av_env) (video : video_cfg) (encoder : encoder_t)
    (config : config_t) (width height : Int) (hwdevice_data : Bool) (s : session_t)
    (h : (make_session av video encoder config width height hwdevice_data).session = some s) :
    ((video_format encoder config).capabilities.get .NALU_PREFIX_5b = false →
      s.replacements =
        [([0, 0, 1, if config.videoFormat = 0 then 0x65 else 0x28],
          [0, 0, 0, 1, if config.videoFormat = 0 then 0x65 else 0x28])] ∧
      ∀ (cbs : cbs_t) (frame : AVFrame) (channel_data : Nat) (packets : List packet_t)
        (calls : List (Int × reply_t)),
        (([0, 0, 1, if config.videoFormat = 0 then 0x65 else 0x28],
          [0, 0, 0, 1, if config.videoFormat = 0 then 0x65 else 0x28]) : replace_t) ∈
          (encode_calls cbs frame channel_data s packets calls).1.replacements) ∧
    ((video_format encoder config).capabilities.get .NALU_PREFIX_5b = true →
      s.replacements = []) := by
  obtain ⟨ctx1, calls2, options, -, -, -, hrep⟩ :=
    make_session_some av video encoder config width height hwdevice_data s h
  have hseed : (video_format encoder config).capabilities.get .NALU_PREFIX_5b = false →
      s.replacements =
        [([0, 0, 1, if config.videoFormat = 0 then 0x65 else 0x28],
          [0, 0, 0, 1, if config.videoFormat = 0 then 0x65 else 0x28])] := by
    intro hn
    rw [hrep, if_pos hn]
    by_cases hv : config.videoFormat = 0
    · simp [hv, h264_nalu]
    · simp [hv, hevc_nalu]
  refine ⟨fun hn => ⟨hseed hn, ?_⟩, ?_⟩
  · intro cbs frame channel_data packets calls
    apply encode_calls_grows
    rw [hseed hn]
    exact List.mem_singleton.mpr rfl
  · intro hp
    rw [hrep]
    simp [hp]

theorem make_session_seeds_nalu_entry_witness :
    (make_session av_ok video_qp (software caps_x26x caps_none) (config_1080p60 1000 1 0)
        1920 1080 false).session =
      some ((make_session av_ok video_qp (software caps_x26x caps_none)
        (config_1080p60 1000 1 0) 1920 1080 false).session.getD session_zero) ∧
    ((make_session av_ok video_qp (software caps_x26x caps_none)
        (config_1080p60 1000 1 0) 1920 1080 false).session.getD session_zero).replacements =
      [([0, 0, 1, 0x28], [0, 0, 0, 1, 0x28])] :=
  ⟨rfl,
   ((make_session_seeds_nalu_entry av_ok video_qp (software caps_x26x caps_none)
      (config_1080p60 1000 1 0) 1920 1080 false _ rfl).1 (by decide)).1⟩

/-- C4: for `videoFormat` 0 or 1 the session returned by `make_session` has
`inject = (1 - VUI_PARAMETERS) * (1 + videoFormat)`: 0 when the chosen codec
has `VUI_PARAMETERS`, 1 when it lacks it and the format is H.264, 2 when it
lacks it and the format is HEVC. -/
theorem make_session_inject (av : av_env) (video : video_cfg) (encoder : encoder_t)
    (config : config_t) (width height : Int) (hwdevice_data : Bool) (s : session_t)
    (hvf : config.videoFormat = 0 ∨ config.videoFormat = 1)
    (h : (make_session av video encoder config width height hwdevice_data).session = some s) :
    s.inject =
        (1 - b2i ((if config.videoFormat = 0 then encoder.h264 else encoder.hevc).capabilities.get
          .VUI_PARAMETERS)) * (1 + config.videoFormat) ∧
      ((if config.videoFormat = 0 then encoder.h264 else encoder.hevc).capabilities.get
          .VUI_PARAMETERS = true → s.inject = 0) ∧
      ((if config.videoFormat = 0 then encoder.h264 else encoder.hevc).capabilities.get
          .VUI_PARAMETERS = false → config.videoFormat = 0 → s.inject = 1) ∧
      ((if config.videoFormat = 0 then encoder.h264 else encoder.hevc).capabilities.get
          .VUI_PARAMETERS = false → config.videoFormat = 1 → s.inject = 2) := by
  obtain ⟨ctx1, calls2, options, -, -, hinj, -⟩ :=
    make_session_some av video encoder config width height hwdevice_data s h
  unfold video_format at hinj
  rw [hinj]
  cases hb : (if config.videoFormat = 0 then encoder.h264 else encoder.hevc).capabilities.get
      .VUI_PARAMETERS <;> rcases hvf with hv | hv <;> simp [hv, b2i, wrap32]

theorem make_session_inject_witness :
    ((config_1080p60 1000 1 0).videoFormat = 0 ∨ (config_1080p60 1000 1 0).videoFormat = 1) ∧
    (make_session av_ok video_qp (vaapi caps_no_vui caps_no_vui) (config_1080p60 1000 1 0)
        1920 1080 true).session =
      some ((make_session av_ok video_qp (vaapi caps_no_vui caps_no_vui)
        (config_1080p60 1000 1 0) 1920 1080 true).session.getD session_zero) ∧
    ((make_session av_ok video_qp (vaapi caps_no_vui caps_no_vui)
        (config_1080p60 1000 1 0) 1920 1080 true).session.getD session_zero).inject = 2 :=
  ⟨by decide, rfl,
   (make_session_inject av_ok video_qp (vaapi caps_no_vui caps_no_vui)
      (config_1080p60 1000 1 0) 1920 1080 true _ (by decide) rfl).2.2.2 (by decide) (by decide)⟩

/-- C5: the context of a session returned by `make_session` has, for
`numRefFrames = 0`, `refs = 0` when the codec has `REF_FRAMES_AUTOSELECT` and 16
otherwise, and for `numRefFrames ≠ 0`, `refs = numRefFrames` when the codec has
`REF_FRAMES_RESTRICT` and 0 otherwise. -/
theorem make_session_refs (av : av_env) (video : video_cfg) (encoder : encoder_t)
    (config : config_t) (width height : Int) (hwdevice_data : Bool) (s : session_t)
    (h : (make_session av video encoder config width height hwdevice_data).session = some s) :
    s.ctx.refs =
      if config.numRefFrames = 0 then
        (if (if config.videoFormat = 0 then encoder.h264 else encoder.hevc).capabilities.get
            .REF_FRAMES_AUTOSELECT = true then 0 else 16)
      else
        (if (if config.videoFormat = 0 then encoder.h264 else encoder.hevc).capabilities.get
            .REF_FRAMES_RESTRICT = true then config.numRefFrames else 0) := by
  obtain ⟨ctx1, calls2, options, hs, hrc, -, -⟩ :=
    make_session_some av video encoder config width height hwdevice_data s h
  have h1 := (make_session_slices_some av video encoder config _ ctx1 calls2 hs).1
  have h2 : s.ctx.refs = ctx1.refs := by
    by_cases hb : config.bitrate > 500
    · rw [make_session_rc_cbr video encoder config ctx1 _ hb] at hrc
      simp only [Option.some.injEq, Prod.mk.injEq] at hrc
      rw [← hrc.1]
    · rw [make_session_rc_quality video encoder config ctx1 _ (by omega)] at hrc
      split at hrc
      · cases hx : (video_format encoder config).crf with
        | none => simp [hx] at hrc
        | some o => simp [hx] at hrc; rw [hrc.1]
      · cases hx : (video_format encoder config).qp with
        | none => simp [hx] at hrc
        | some o => simp [hx] at hrc; rw [hrc.1]
  rw [h2, h1]
  rfl

theorem make_session_refs_witness :
    (make_session av_ok video_qp (vaapi caps_no_vui caps_no_vui) (config_1080p60 1000 0 0)
        1920 1080 true).session =
      some ((make_session av_ok video_qp (vaapi caps_no_vui caps_no_vui)
        (config_1080p60 1000 0 0) 1920 1080 true).session.getD session_zero) ∧
    ((make_session av_ok video_qp (vaapi caps_no_vui caps_no_vui)
        (config_1080p60 1000 0 0) 1920 1080 true).session.getD session_zero).ctx.refs = 1 :=
  ⟨rfl,
   make_session_refs av_ok video_qp (vaapi caps_no_vui caps_no_vui)
      (config_1080p60 1000 0 0) 1920 1080 true _ rfl⟩

/-- C8: `make_session` returns no session when the codec selected by
`videoFormat` (0 is H.264, anything else HEVC) lacks `PASSED`, or when
`dynamicRange` is non-zero and that codec lacks `DYNAMIC_RANGE`; it then has
made no call outside `video.cpp`, so no encoder context has been allocated. -/
theorem make_session_rejects (av : av_env) (video : video_cfg) (encoder : encoder_t)
    (config : config_t) (width height : Int) (hwdevice_data : Bool)
    (h : (if config.videoFormat = 0 then encoder.h264 else encoder.hevc).capabilities.get
          .PASSED = false ∨
        (config.dynamicRange ≠ 0 ∧
          (if config.videoFormat = 0 then encoder.h264 else encoder.hevc).capabilities.get
            .DYNAMIC_RANGE = false)) :
    (make_session av video encoder config width height hwdevice_data).session = none ∧
      (make_session av video encoder config width height hwdevice_data).calls = [] ∧
      call_e.avcodec_alloc_context3 ∉
        (make_session av video encoder config width height hwdevice_data).calls := by
  unfold make_session video_format
  by_cases hp : (if config.videoFormat = 0 then encoder.h264 else encoder.hevc).capabilities.get
      .PASSED = false
  · simp [hp]
  · rcases h with h | h
    · exact absurd h hp
    · simp [hp, h]

theorem make_session_rejects_witness :
    ((if (config_1080p60 1000 1 1).videoFormat = 0 then (software caps_none caps_x26x).h264
        else (software caps_none caps_x26x).hevc).capabilities.get .PASSED = false ∨
      ((config_1080p60 1000 1 1).dynamicRange ≠ 0 ∧
        (if (config_1080p60 1000 1 1).videoFormat = 0 then (software caps_none caps_x26x).h264
          else (software caps_none caps_x26x).hevc).capabilities.get .DYNAMIC_RANGE = false)) ∧
    ((make_session av_ok video_qp (software caps_none caps_x26x) (config_1080p60 1000 1 1)
        1920 1080 false).session = none ∧
      (make_session av_ok video_qp (software caps_none caps_x26x) (config_1080p60 1000 1 1)
        1920 1080 false).calls = [] ∧
      call_e.avcodec_alloc_context3 ∉
        (make_session av_ok video_qp (software caps_none caps_x26x) (config_1080p60 1000 1 1)
          1920 1080 false).calls) :=
  ⟨by decide,
   make_session_rejects av_ok video_qp (software caps_none caps_x26x)
     (config_1080p60 1000 1 1) 1920 1080 false (by decide)⟩

theorem make_session_rc_quality_some (video : video_cfg) (encoder : encoder_t)
    (config : config_t) (ctx c : AVCodecContext) (options o : AVDictionary)
    (hb : config.bitrate ≤ 500)
    (h : make_session_rc video encoder config ctx options = some (c, o)) :
    c = ctx ∧
      (∀ x, (video_format encoder config).crf = some x → video.crf ≠ 0 →
        o = handle_option video options x) ∧
      (∀ x, ((video_format encoder config).crf = none ∨ video.crf = 0) →
        (video_format encoder config).qp = some x → o = handle_option video options x) := by
  rw [make_session_rc_quality video encoder config ctx options hb] at h
  split at h
  · rename_i hc
    cases hx : (video_format encoder config).crf with
    | none => simp [hx] at h
    | some y =>
      simp [hx] at h
      refine ⟨h.1.symm, ?_, ?_⟩
      · intro x hx' _
        cases hx'
        exact h.2.symm
      · intro x hor _
        rcases hor with h1 | h1
        · cases h1
        · exact absurd h1 hc.2
  · rename_i hc
    cases hq : (video_format encoder config).qp with
    | none => simp [hq] at h
    | some y =>
      simp [hq] at h
      refine ⟨h.1.symm, ?_, ?_⟩
      · intro x hx' hne
        exact absurd ⟨by simp [hx'], hne⟩ hc
      · intro x _ hx'
        cases hx'
        exact h.2.symm

theorem make_session_ctx_rates (ctx0 : AVCodecContext) (encoder : encoder_t)
    (config : config_t) :
    (make_session_ctx ctx0 encoder config).rc_max_rate = ctx0.rc_max_rate ∧
      (make_session_ctx ctx0 encoder config).rc_buffer_size = ctx0.rc_buffer_size ∧
      (make_session_ctx ctx0 encoder config).bit_rate = ctx0.bit_rate ∧
      (make_session_ctx ctx0 encoder config).rc_min_rate = ctx0.rc_min_rate :=
  ⟨rfl, rfl, rfl, rfl⟩

/-- C6: the rate-control chain of `make_session` takes the constant-bitrate
branch exactly when `bitrate > 500` (501 does, 500 does not). A session built
on that branch, for a positive frame rate and `bitrate * 1000` within the
range of `int`, has `rc_max_rate = rc_min_rate = bit_rate = bitrate * 1000`
and `rc_buffer_size = (bitrate * 1000) / framerate` (truncating division), and
the options passed to `avcodec_open2` are the fixed ones only: neither the CRF
nor the QP option is applied. -/
theorem make_session_cbr (av : av_env) (video : video_cfg) (encoder : encoder_t)
    (config : config_t) (width height : Int) (hwdevice_data : Bool) (s : session_t)
    (h : (make_session av video encoder config width height hwdevice_data).session = some s) :
    (rate_control video (video_format encoder config) config = .cbr ↔ config.bitrate > 500) ∧
    (config.bitrate = 501 → rate_control video (video_format encoder config) config = .cbr) ∧
    (config.bitrate = 500 → rate_control video (video_format encoder config) config ≠ .cbr) ∧
    (config.bitrate > 500 → 0 < config.framerate → config.bitrate * 1000 ≤ 2147483647 →
      s.ctx.rc_max_rate = config.bitrate * 1000 ∧
      s.ctx.rc_min_rate = config.bitrate * 1000 ∧
      s.ctx.bit_rate = config.bitrate * 1000 ∧
      s.ctx.rc_buffer_size = Int.tdiv (config.bitrate * 1000) config.framerate ∧
      s.ctx.rc_buffer_size = config.bitrate * 1000 / config.framerate ∧
      ∀ c o, call_e.avcodec_open2 c o ∈
          (make_session av video encoder config width height hwdevice_data).calls →
        o = (video_format encoder config).options.foldl (handle_option video) []) := by
  have hiff := rate_control_cbr video (video_format encoder config) config
  refine ⟨hiff, fun h1 => hiff.mpr (by omega), fun h0 hc => ?_, ?_⟩
  · have := hiff.mp hc
    omega
  · intro hb hfr hmax
    obtain ⟨ctx1, calls2, options, hs, hrc, -, -⟩ :=
      make_session_some av video encoder config width height hwdevice_data s h
    rw [make_session_rc_cbr video encoder config ctx1 _ hb] at hrc
    simp only [Option.some.injEq, Prod.mk.injEq] at hrc
    have hw : wrap32 (config.bitrate * 1000) = config.bitrate * 1000 :=
      wrap32_eq _ (by omega) hmax
    have hbuf : Int.tdiv (wrap32 (config.bitrate * 1000)) config.framerate =
        Int.tdiv (config.bitrate * 1000) config.framerate := by rw [hw]
    rw [← hrc.1]
    refine ⟨hw, hw, hw, hbuf, ?_, ?_⟩
    · exact hbuf.trans (Int.tdiv_eq_ediv (by omega) (by omega))
    · intro c o hmem
      obtain ⟨ctx1', calls2', hs', hrc'⟩ :=
        make_session_open2 av video encoder config width height hwdevice_data c o hmem
      rw [make_session_rc_cbr video encoder config ctx1' _ hb] at hrc'
      simp only [Option.some.injEq, Prod.mk.injEq] at hrc'
      exact hrc'.2.symm

theorem make_session_cbr_witness :
    (make_session av_ok video_qp (software caps_none caps_x26x) (config_1080p60 501 0 0)
        1920 1080 false).session =
      some ((make_session av_ok video_qp (software caps_none caps_x26x)
        (config_1080p60 501 0 0) 1920 1080 false).session.getD session_zero) ∧
    ((make_session av_ok video_qp (software caps_none caps_x26x)
        (config_1080p60 501 0 0) 1920 1080 false).session.getD session_zero).ctx.bit_rate
      = 501000 ∧
    ((make_session av_ok video_qp (software caps_none caps_x26x)
        (config_1080p60 501 0 0) 1920 1080 false).session.getD session_zero).ctx.rc_buffer_size
      = 8350 :=
  ⟨rfl,
   ((make_session_cbr av_ok video_qp (software caps_none caps_x26x)
      (config_1080p60 501 0 0) 1920 1080 false _ rfl).2.2.2
        (by decide) (by decide) (by decide)).2.2.1,
   ((make_session_cbr av_ok video_qp (software caps_none caps_x26x)
      (config_1080p60 501 0 0) 1920 1080 false _ rfl).2.2.2
        (by decide) (by decide) (by decide)).2.2.2.1⟩

/-- C7: for `bitrate ≤ 500` the rate-control step of `make_session` leaves the
context as it is and applies the codec's CRF option when the descriptor
declares one and the configured `crf` is non-zero, otherwise the QP option
when the descriptor declares one, and otherwise fails: it fails exactly when
the descriptor has no QP option and has no CRF option or `crf = 0`, and then
`make_session` returns no session and never calls `avcodec_open2`. Every
context passed to `avcodec_open2`, and the context of every session returned,
has the four bitrate fields as `avcodec_alloc_context3` left them. -/
theorem make_session_quality (av : av_env) (video : video_cfg) (encoder : encoder_t)
    (config : config_t) (width height : Int) (hwdevice_data : Bool)
    (hb : config.bitrate ≤ 500) :
    (∀ ctx options, make_session_rc video encoder config ctx options =
      if (video_format encoder config).crf.isSome ∧ video.crf ≠ 0 then
        (video_format encoder config).crf.map (fun o => (ctx, handle_option video options o))
      else
        (video_format encoder config).qp.map (fun o => (ctx, handle_option video options o))) ∧
    (∀ ctx options, make_session_rc video encoder config ctx options = none ↔
      ((video_format encoder config).qp = none ∧
        ((video_format encoder config).crf = none ∨ video.crf = 0))) ∧
    (((video_format encoder config).qp = none ∧
        ((video_format encoder config).crf = none ∨ video.crf = 0)) →
      (make_session av video encoder config width height hwdevice_data).session = none ∧
      ∀ c o, call_e.avcodec_open2 c o ∉
        (make_session av video encoder config width height hwdevice_data).calls) ∧
    (∀ c o, call_e.avcodec_open2 c o ∈
        (make_session av video encoder config width height hwdevice_data).calls →
      (∀ x, (video_format encoder config).crf = some x → video.crf ≠ 0 →
        o = handle_option video
          ((video_format encoder config).options.foldl (handle_option video) []) x) ∧
      (∀ x, ((video_format encoder config).crf = none ∨ video.crf = 0) →
        (video_format encoder config).qp = some x →
        o = handle_option video
          ((video_format encoder config).options.foldl (handle_option video) []) x) ∧
      c.rc_max_rate = av.ctx0.rc_max_rate ∧ c.rc_buffer_size = av.ctx0.rc_buffer_size ∧
      c.bit_rate = av.ctx0.bit_rate ∧ c.rc_min_rate = av.ctx0.rc_min_rate) ∧
    (∀ s, (make_session av video encoder config width height hwdevice_data).session = some s →
      s.ctx.rc_max_rate = av.ctx0.rc_max_rate ∧ s.ctx.rc_buffer_size = av.ctx0.rc_buffer_size ∧
      s.ctx.bit_rate = av.ctx0.bit_rate ∧ s.ctx.rc_min_rate = av.ctx0.rc_min_rate) := by
  have hnone : ∀ ctx options, make_session_rc video encoder config ctx options = none ↔
      ((video_format encoder config).qp = none ∧
        ((video_format encoder config).crf = none ∨ video.crf = 0)) := by
    intro ctx options
    rw [make_session_rc_quality video encoder config ctx options hb]
    constructor
    · intro h
      split at h
      · rename_i hc
        cases hx : (video_format encoder config).crf with
        | none => simp [hx] at hc
        | some y => simp [hx] at h
      · rename_i hc
        cases hq : (video_format encoder config).qp with
        | none =>
          refine ⟨rfl, ?_⟩
          by_cases h0 : video.crf = 0
          · exact Or.inr h0
          · left
            cases hx : (video_format encoder config).crf with
            | none => rfl
            | some y => exact absurd ⟨by simp [hx], h0⟩ hc
        | some y => simp [hq] at h
    · rintro ⟨hq, hc⟩
      have hn : ¬ ((video_format encoder config).crf.isSome ∧ video.crf ≠ 0) := by
        rintro ⟨h1, h2⟩
        rcases hc with h3 | h3
        · simp [h3] at h1
        · exact h2 h3
      rw [if_neg hn, hq]
      rfl
  have hrates : ∀ ctx1 calls2 c o,
      make_session_slices av video encoder config (make_session_ctx av.ctx0 encoder config)
        = (some ctx1, calls2) →
      make_session_rc video encoder config ctx1
        ((video_format encoder config).options.foldl (handle_option video) []) = some (c, o) →
      c.rc_max_rate = av.ctx0.rc_max_rate ∧ c.rc_buffer_size = av.ctx0.rc_buffer_size ∧
      c.bit_rate = av.ctx0.bit_rate ∧ c.rc_min_rate = av.ctx0.rc_min_rate := by
    intro ctx1 calls2 c o hs hrc
    have h1 := make_session_slices_some av video encoder config _ ctx1 calls2 hs
    have h2 := (make_session_rc_quality_some video encoder config ctx1 c _ o hb hrc).1
    have h3 := make_session_ctx_rates av.ctx0 encoder config
    rw [h2, h1.2.1, h1.2.2.1, h1.2.2.2.1, h1.2.2.2.2]
    exact h3
  refine ⟨fun ctx options => make_session_rc_quality video encoder config ctx options hb,
    hnone, ?_, ?_, ?_⟩
  · intro hfail
    have hno : ∀ c o, call_e.avcodec_open2 c o ∉
        (make_session av video encoder config width height hwdevice_data).calls := by
      intro c o hmem
      obtain ⟨ctx1, calls2, -, hrc⟩ :=
        make_session_open2 av video encoder config width height hwdevice_data c o hmem
      rw [(hnone ctx1 _).mpr hfail] at hrc
      cases hrc
    refine ⟨?_, hno⟩
    cases hsess : (make_session av video encoder config width height hwdevice_data).session with
    | none => rfl
    | some s =>
      obtain ⟨ctx1, calls2, options, -, hrc, -, -⟩ :=
        make_session_some av video encoder config width height hwdevice_data s hsess
      rw [(hnone ctx1 _).mpr hfail] at hrc
      cases hrc
  · intro c o hmem
    obtain ⟨ctx1, calls2, hs, hrc⟩ :=
      make_session_open2 av video encoder config width height hwdevice_data c o hmem
    have h2 := make_session_rc_quality_some video encoder config ctx1 c _ o hb hrc
    exact ⟨h2.2.1, h2.2.2, hrates ctx1 calls2 c o hs hrc⟩
  · intro s hsess
    obtain ⟨ctx1, calls2, options, hs, hrc, -, -⟩ :=
      make_session_some av video encoder config width height hwdevice_data s hsess
    exact hrates ctx1 calls2 s.ctx options hs hrc

theorem make_session_quality_witness :
    (config_1080p60 500 0 0).bitrate ≤ 500 ∧
    (make_session av_ok video_qp (vaapi caps_no_vui caps_no_vui) (config_1080p60 500 0 0)
        1920 1080 true).session = none ∧
    (make_session_rc video_qp (software caps_none caps_x26x) (config_1080p60 500 0 0)
        ctx_zero []).map (fun r => r.2) = some [("qp", .int 28)] :=
  ⟨by decide,
   ((make_session_quality av_ok video_qp (vaapi caps_no_vui caps_no_vui)
      (config_1080p60 500 0 0) 1920 1080 true (by decide)).2.2.1 ⟨rfl, Or.inl rfl⟩).1,
   by
    rw [(make_session_quality av_ok video_qp (software caps_none caps_x26x)
      (config_1080p60 500 0 0) 1920 1080 false (by decide)).1 ctx_zero []]
    decide⟩

/-! ## Traces of the IDR schedule -/

theorem scheduled_mark (framerate : Int) (c : sched_t) (tr : List trace_e)
    (hk : c.frame_nr = c.key_frame_nr)
    (h : scheduled framerate
      { frame_nr := c.frame_nr, key_frame_nr := c.key_frame_nr,
        pict_type := AV_PICTURE_TYPE_I, key_frame := 1 } tr) :
    scheduled framerate c tr := by
  cases tr with
  | nil => trivial
  | cons ev tr =>
    cases ev with
    | idr e a b => exact h
    | encode f =>
      simp only [scheduled] at h ⊢
      simp only [hk, if_true] at h ⊢
      exact h

/-- The first frame of a scheduled trace carries the keyframe marks when the
marks are set or the frame counter stands at the scheduled keyframe. -/
theorem scheduled_first (framerate : Int) (tr : List trace_e) (c : sched_t)
    (harm : (c.pict_type = AV_PICTURE_TYPE_I ∧ c.key_frame = 1) ∨
      c.frame_nr = c.key_frame_nr)
    (h : scheduled framerate c tr) :
    ∀ f, (frames_of tr).head? = some f → is_idr f := by
  induction tr generalizing c with
  | nil => intro f hf; simp [frames_of] at hf
  | cons ev tr ih =>
    cases ev with
    | idr e a b =>
      intro f hf
      simp only [scheduled] at h
      simp only [frames_of] at hf
      exact ih _ (Or.inl ⟨rfl, rfl⟩) h.2.2 f hf
    | encode g =>
      intro f hf
      simp only [scheduled] at h
      simp only [frames_of, List.head?_cons, Option.some.injEq] at hf
      subst hf
      unfold is_idr
      rcases harm with hm | hk
      · by_cases hk : c.frame_nr = c.key_frame_nr
        · simp only [hk, if_true] at h
          exact ⟨h.2.1, h.2.2.1⟩
        · simp only [hk, if_false] at h
          exact ⟨h.2.1.trans hm.1, h.2.2.1.trans hm.2⟩
      · simp only [hk, if_true] at h
        exact ⟨h.2.1, h.2.2.1⟩

/-- The first pts of a scheduled trace is the frame counter it starts from
when every IDR request consumed before it has end frame 1 and the counter
starts at 1. -/
theorem scheduled_first_pts (framerate : Int) (tr : List trace_e) (c : sched_t)
    (h1 : c.frame_nr = 1) (h : scheduled framerate c tr) (hi : idr_initial tr = true) :
    ∀ p, (pts_of tr).head? = some p → p = 1 := by
  induction tr generalizing c with
  | nil => intro p hp; simp [pts_of, frames_of] at hp
  | cons ev tr ih =>
    cases ev with
    | idr e a b =>
      intro p hp
      simp only [scheduled] at h
      simp only [idr_initial, Bool.and_eq_true, decide_eq_true_eq] at hi
      simp only [pts_of, frames_of] at hp
      exact ih _ (h.1.trans hi.1) h.2.2 hi.2 p hp
    | encode g =>
      intro p hp
      simp only [scheduled] at h
      simp only [pts_of, frames_of, List.map_cons, List.head?_cons, Option.some.injEq] at hp
      rw [← hp, h.1, h1]

/-- The pts of a scheduled trace increase strictly, and stay above the pts
seen so far, when every IDR request consumed has its end frame above the pts
of the earlier calls and no pts is `INT_MAX`. -/
theorem scheduled_increasing (framerate : Int) (tr : List trace_e) (c : sched_t)
    (seen : List Int) (hseen : ∀ p ∈ seen, p < c.frame_nr)
    (h : scheduled framerate c tr) (ha : idr_ahead seen tr = true)
    (hmax : ∀ p ∈ pts_of tr, p < INT_MAX) :
    List.Pairwise (· < ·) (pts_of tr) ∧ ∀ p ∈ seen, ∀ q ∈ pts_of tr, p < q := by
  induction tr generalizing c seen with
  | nil => simp [pts_of, frames_of]
  | cons ev tr ih =>
    cases ev with
    | idr e a b =>
      simp only [scheduled] at h
      simp only [idr_ahead, Bool.and_eq_true, List.all_eq_true, decide_eq_true_eq] at ha
      have hm : ∀ p ∈ pts_of tr, p < INT_MAX := by
        intro p hp; exact hmax p (by simpa [pts_of, frames_of] using hp)
      have := ih { frame_nr := a, key_frame_nr := b, pict_type := AV_PICTURE_TYPE_I,
                   key_frame := 1 } seen
        (by intro p hp; rw [h.1]; exact ha.1 p hp) h.2.2 ha.2 hm
      simpa [pts_of, frames_of] using this
    | encode g =>
      simp only [scheduled] at h
      simp only [idr_ahead] at ha
      have hg : g.pts < INT_MAX := hmax g.pts (by simp [pts_of, frames_of])
      have hm : ∀ p ∈ pts_of tr, p < INT_MAX := by
        intro p hp
        exact hmax p (by simp only [pts_of, frames_of, List.map_cons, List.mem_cons]; right; exact hp)
      have hnext : g.pts < wrap32 (c.frame_nr + 1) := by
        rw [← h.1]; exact lt_wrap32_succ g.pts hg
      have := ih { frame_nr := wrap32 (c.frame_nr + 1), key_frame_nr := c.key_frame_nr,
                   pict_type := AV_PICTURE_TYPE_NONE, key_frame := 0 } (g.pts :: seen)
        (by
          intro p hp
          rcases List.mem_cons.mp hp with hp | hp
          · rw [hp]; exact hnext
          · have := hseen p hp
            rw [← h.1] at this
            exact lt_trans this hnext)
        h.2.2.2 ha hm
      obtain ⟨hpw, hall⟩ := this
      constructor
      · simp only [pts_of, frames_of, List.map_cons, List.pairwise_cons]
        exact ⟨fun q hq => hall g.pts (List.mem_cons_self _ _) q hq, hpw⟩
      · intro p hp q hq
        simp only [pts_of, frames_of, List.map_cons, List.mem_cons] at hq
        rcases hq with hq | hq
        · rw [hq, h.1]; exact hseen p hp
        · exact hall p (List.mem_cons_of_mem _ hp) q hq

/-- After an IDR request with end frame `E` and with no further request, the
`i`-th frame of a scheduled trace has pts `E + i`; it carries the keyframe
marks for `i = 0` and `i = framerate` and has them cleared in between. The
statement is for a trace that starts `k` frames after the request. -/
theorem scheduled_after_idr (framerate E : Int) (tr : List trace_e) (c : sched_t) (k : Nat)
    (hE : -2147483648 ≤ E) (hEf : E + framerate ≤ 2147483647)
    (hno : ∀ ev ∈ tr, ∃ f, ev = trace_e.encode f)
    (hc1 : c.frame_nr = E + k) (hc2 : c.key_frame_nr = E + framerate)
    (hm0 : k = 0 → c.pict_type = AV_PICTURE_TYPE_I ∧ c.key_frame = 1)
    (hm1 : 0 < k → c.pict_type = AV_PICTURE_TYPE_NONE ∧ c.key_frame = 0)
    (h : scheduled framerate c tr) :
    ∀ (i : Nat) (f : AVFrame), (frames_of tr)[i]? = some f → ((k + i : Nat) : Int) ≤ framerate →
      f.pts = E + ((k + i : Nat) : Int) ∧
      ((k + i = 0 ∨ ((k + i : Nat) : Int) = framerate) → is_idr f) ∧
      ((0 < k + i ∧ ((k + i : Nat) : Int) < framerate) → is_plain f) := by
  induction tr generalizing c k with
  | nil => intro i f hf; simp [frames_of] at hf
  | cons ev tr ih =>
    cases ev with
    | idr e a b =>
      obtain ⟨f, hf⟩ := hno _ (List.mem_cons_self _ _)
      cases hf
    | encode g =>
      intro i f hf hle
      simp only [scheduled] at h
      obtain ⟨hpts, hpt, hkf, hrest⟩ := h
      cases i with
      | zero =>
        simp only [frames_of, List.getElem?_cons_zero, Option.some.injEq] at hf
        subst hf
        simp only [Nat.add_zero] at hle ⊢
        refine ⟨by rw [hpts, hc1], ?_, ?_⟩
        · intro hor
          unfold is_idr
          by_cases hk : c.frame_nr = c.key_frame_nr
          · rw [if_pos hk] at hpt hkf
            exact ⟨hpt, hkf⟩
          · rw [if_neg hk] at hpt hkf
            rcases hor with h0 | h0
            · exact ⟨hpt.trans (hm0 h0).1, hkf.trans (hm0 h0).2⟩
            · exfalso; apply hk; rw [hc1, hc2, h0]
        · intro hlt
          unfold is_plain
          have hk : ¬ c.frame_nr = c.key_frame_nr := by rw [hc1, hc2]; omega
          rw [if_neg hk] at hpt hkf
          exact ⟨hpt.trans (hm1 hlt.1).1, hkf.trans (hm1 hlt.1).2⟩
      | succ j =>
        simp only [frames_of, List.getElem?_cons_succ] at hf
        have hw : wrap32 (c.frame_nr + 1) = E + ((k + 1 : Nat) : Int) := by
          rw [hc1, wrap32_eq] <;> push_cast <;> omega
        have := ih { frame_nr := wrap32 (c.frame_nr + 1), key_frame_nr := c.key_frame_nr,
                     pict_type := AV_PICTURE_TYPE_NONE, key_frame := 0 } (k + 1)
          (fun ev hev => hno ev (List.mem_cons_of_mem _ hev)) hw hc2
          (by intro h0; omega) (by intro _; exact ⟨rfl, rfl⟩) hrest j f hf
          (by have : k + 1 + j = k + (j + 1) := by omega
              rw [this]; exact hle)
        have he : k + 1 + j = k + (j + 1) := by omega
        rw [he] at this
        exact this

/-! ## The loops produce scheduled traces -/

theorem encode_run_frame_scheduled (cbs : cbs_t) (framerate : Int) (channel_data : Nat)
    (s : run_t) (t : tick_t) (rest : List trace_e)
    (harm : s.frame_nr = s.key_frame_nr →
      s.frame.pict_type = AV_PICTURE_TYPE_I ∧ s.frame.key_frame = 1)
    (hrun : (encode_run_frame cbs channel_data s t).running = true →
      scheduled framerate (encode_run_frame cbs channel_data s t).state.sched rest)
    (hend : (encode_run_frame cbs channel_data s t).running = false → rest = []) :
    scheduled framerate s.sched ((encode_run_frame cbs channel_data s t).events ++ rest) := by
  unfold encode_run_frame at hrun hend ⊢
  by_cases hskip : (s.frame_nr > s.key_frame_nr ∨ t.img_peek) ∧ t.img_pop = false
  · simp only [hskip, and_self, if_true] at hrun hend ⊢
    cases hr : t.img_running with
    | true => exact hrun hr
    | false => rw [hend hr]; trivial
  · simp only [hskip, if_false] at hrun hend ⊢
    simp only [encode_frame] at hrun hend ⊢
    simp only [List.singleton_append, scheduled, run_t.sched]
    refine ⟨trivial, ?_, ?_, ?_⟩
    · by_cases hk : s.frame_nr = s.key_frame_nr
      · rw [if_pos hk]; exact (harm hk).1
      · rw [if_neg hk]
    · by_cases hk : s.frame_nr = s.key_frame_nr
      · rw [if_pos hk]; exact (harm hk).2
      · rw [if_neg hk]
    · show scheduled framerate _ rest
      by_cases hret : (encode cbs s.frame_nr s.session s.frame s.packets channel_data
          t.reply).ret ≠ 0
      · rw [if_pos hret] at hend
        rw [hend rfl]
        trivial
      · rw [if_neg hret] at hrun
        have := hrun rfl
        rw [if_neg hret] at this
        exact this

theorem encode_run_iter_scheduled (cbs : cbs_t) (config : config_t) (channel_data : Nat)
    (s : run_t) (t : tick_t) (rest : List trace_e)
    (hrun : (encode_run_iter cbs config channel_data s t).running = true →
      scheduled config.framerate (encode_run_iter cbs config channel_data s t).state.sched rest)
    (hend : (encode_run_iter cbs config channel_data s t).running = false → rest = []) :
    scheduled config.framerate s.sched
      ((encode_run_iter cbs config channel_data s t).events ++ rest) := by
  unfold encode_run_iter at hrun hend ⊢
  cases hstop : t.stop with
  | true =>
    simp only [hstop, if_true] at hend ⊢
    rw [hend trivial]
    trivial
  | false =>
    simp only [hstop, Bool.false_eq_true, if_false] at hrun hend ⊢
    cases hidr : t.idr with
    | closed =>
      simp only [hidr] at hend ⊢
      rw [hend trivial]
      trivial
    | event e =>
      simp only [hidr] at hrun hend ⊢
      simp only [List.cons_append, scheduled]
      refine ⟨trivial, trivial, ?_⟩
      exact encode_run_frame_scheduled cbs config.framerate channel_data _ t rest
        (fun _ => ⟨rfl, rfl⟩) hrun hend
    | idle =>
      simp only [hidr] at hrun hend ⊢
      by_cases hk : s.frame_nr = s.key_frame_nr
      · rw [if_pos hk] at hrun hend ⊢
        apply scheduled_mark config.framerate s.sched _ hk
        exact encode_run_frame_scheduled cbs config.framerate channel_data _ t rest
          (fun _ => ⟨rfl, rfl⟩) hrun hend
      · rw [if_neg hk] at hrun hend ⊢
        exact encode_run_frame_scheduled cbs config.framerate channel_data _ t rest
          (fun h => absurd h hk) hrun hend

theorem encode_run_loop_scheduled (cbs : cbs_t) (config : config_t) (channel_data : Nat)
    (ticks : List tick_t) (s : run_t) :
    scheduled config.framerate s.sched
      (encode_run_loop cbs config channel_data s ticks).events := by
  induction ticks generalizing s with
  | nil => simp [encode_run_loop, scheduled]
  | cons t ts ih =>
    unfold encode_run_loop
    simp only []
    cases hr : (encode_run_iter cbs config channel_data s t).running with
    | true =>
      simp only [if_true]
      exact encode_run_iter_scheduled cbs config channel_data s t _
        (fun _ => ih _) (fun h => by rw [hr] at h; cases h)
    | false =>
      simp only [Bool.false_eq_true, if_false]
      have := encode_run_iter_scheduled cbs config channel_data s t []
        (fun h => by rw [hr] at h; cases h) (fun _ => rfl)
      simpa using this

theorem encode_run_sync_frame_scheduled (cbs : cbs_t) (framerate : Int) (img_tmp : Bool)
    (pos : sync_session_t) (t : sync_tick_t) (rest : List trace_e)
    (harm : pos.ctx.frame_nr = pos.ctx.key_frame_nr →
      pos.frame.pict_type = AV_PICTURE_TYPE_I ∧ pos.frame.key_frame = 1)
    (hrun : ∀ pos1, (encode_run_sync_frame cbs img_tmp pos t).session = some pos1 →
      scheduled framerate pos1.sched rest)
    (hend : (encode_run_sync_frame cbs img_tmp pos t).session = none → rest = []) :
    scheduled framerate pos.sched
      ((encode_run_sync_frame cbs img_tmp pos t).events ++ rest) := by
  unfold encode_run_sync_frame at hrun hend ⊢
  simp only [] at hrun hend ⊢
  cases hto : t.timeout with
  | false =>
    simp only [hto, if_true] at hrun hend ⊢
    have := hrun _ rfl
    cases img_tmp <;> simpa [sync_session_t.sched] using this
  | true =>
    simp only [hto, Bool.true_eq_false, if_false] at hrun hend ⊢
    by_cases hcv : (if img_tmp = true then { pos with img_tmp := true } else pos).img_tmp = true ∧
        t.convert ≠ 0
    · rw [if_pos hcv] at hend ⊢
      rw [hend rfl]
      trivial
    · rw [if_neg hcv] at hrun hend ⊢
      simp only [encode_frame] at hrun hend ⊢
      have hctx : (if img_tmp = true then { pos with img_tmp := true } else pos).ctx = pos.ctx := by
        cases img_tmp <;> rfl
      have hfrm : (if img_tmp = true then { pos with img_tmp := true } else pos).frame
          = pos.frame := by
        cases img_tmp <;> rfl
      simp only [hctx, hfrm] at hrun hend ⊢
      simp only [List.singleton_append, scheduled, sync_session_t.sched]
      refine ⟨trivial, ?_, ?_, ?_⟩
      · by_cases hk : pos.ctx.frame_nr = pos.ctx.key_frame_nr
        · rw [if_pos hk]; exact (harm hk).1
        · rw [if_neg hk]
      · by_cases hk : pos.ctx.frame_nr = pos.ctx.key_frame_nr
        · rw [if_pos hk]; exact (harm hk).2
        · rw [if_neg hk]
      · show scheduled framerate _ rest
        by_cases hret : (encode cbs pos.ctx.frame_nr
            (if img_tmp = true then { pos with img_tmp := true } else pos).session pos.frame
            pos.ctx.packets pos.ctx.channel_data t.reply).ret ≠ 0
        · rw [if_pos hret] at hend
          rw [hend rfl]
          trivial
        · rw [if_neg hret] at hrun
          exact hrun _ rfl

theorem encode_run_sync_frame_config (cbs : cbs_t) (img_tmp : Bool)
    (pos pos1 : sync_session_t) (t : sync_tick_t)
    (h : (encode_run_sync_frame cbs img_tmp pos t).session = some pos1) :
    pos1.ctx.config = pos.ctx.config := by
  unfold encode_run_sync_frame at h
  cases img_tmp <;>
  · simp only [↓reduceIte, Bool.false_eq_true] at h
    cases hto : t.timeout with
    | false =>
      simp only [hto, ↓reduceIte, Option.some.injEq] at h
      rw [← h]
    | true =>
      simp only [hto, Bool.true_eq_false, ↓reduceIte] at h
      split at h
      · cases h
      · simp only [] at h
        split at h
        · cases h
        · simp only [Option.some.injEq] at h
          rw [← h]

theorem encode_run_sync_iter_config (cbs : cbs_t) (img_tmp : Bool)
    (pos pos1 : sync_session_t) (t : sync_tick_t)
    (h : (encode_run_sync_iter cbs img_tmp pos t).session = some pos1) :
    pos1.ctx.config = pos.ctx.config := by
  unfold encode_run_sync_iter at h
  cases hsd : t.shutdown with
  | true => simp [hsd] at h
  | false =>
    simp only [hsd, Bool.false_eq_true, if_false] at h
    cases hidr : t.idr with
    | some e =>
      simp only [hidr] at h
      have := encode_run_sync_frame_config cbs img_tmp _ pos1 t h
      exact this
    | none =>
      simp only [hidr] at h
      have := encode_run_sync_frame_config cbs img_tmp _ pos1 t h
      rw [this]
      split <;> rfl

theorem encode_run_sync_iter_scheduled (cbs : cbs_t) (img_tmp : Bool)
    (pos : sync_session_t) (t : sync_tick_t) (rest : List trace_e)
    (hrun : ∀ pos1, (encode_run_sync_iter cbs img_tmp pos t).session = some pos1 →
      scheduled pos.ctx.config.framerate pos1.sched rest)
    (hend : (encode_run_sync_iter cbs img_tmp pos t).session = none → rest = []) :
    scheduled pos.ctx.config.framerate pos.sched
      ((encode_run_sync_iter cbs img_tmp pos t).events ++ rest) := by
  unfold encode_run_sync_iter at hrun hend ⊢
  cases hsd : t.shutdown with
  | true =>
    simp only [hsd, if_true] at hend ⊢
    rw [hend trivial]
    trivial
  | false =>
    simp only [hsd, Bool.false_eq_true, if_false] at hrun hend ⊢
    cases hidr : t.idr with
    | some e =>
      simp only [hidr] at hrun hend ⊢
      simp only [List.cons_append, scheduled]
      refine ⟨trivial, trivial, ?_⟩
      exact encode_run_sync_frame_scheduled cbs pos.ctx.config.framerate img_tmp _ t rest
        (fun _ => ⟨rfl, rfl⟩) hrun hend
    | none =>
      simp only [hidr] at hrun hend ⊢
      by_cases hk : pos.ctx.frame_nr = pos.ctx.key_frame_nr
      · rw [if_pos hk] at hrun hend ⊢
        apply scheduled_mark pos.ctx.config.framerate pos.sched _ hk
        exact encode_run_sync_frame_scheduled cbs pos.ctx.config.framerate img_tmp _ t rest
          (fun _ => ⟨rfl, rfl⟩) hrun hend
      · rw [if_neg hk] at hrun hend ⊢
        exact encode_run_sync_frame_scheduled cbs pos.ctx.config.framerate img_tmp _ t rest
          (fun h => absurd h hk) hrun hend

theorem encode_run_sync_loop_scheduled (cbs : cbs_t) (sweeps : List (Bool × sync_tick_t))
    (pos : sync_session_t) :
    scheduled pos.ctx.config.framerate pos.sched (encode_run_sync_loop cbs pos sweeps).1 := by
  induction sweeps generalizing pos with
  | nil => simp [encode_run_sync_loop, scheduled]
  | cons w ws ih =>
    obtain ⟨img_tmp, t⟩ := w
    unfold encode_run_sync_loop
    simp only []
    cases hr : (encode_run_sync_iter cbs img_tmp pos t).session with
    | some pos1 =>
      simp only []
      apply encode_run_sync_iter_scheduled cbs img_tmp pos t
      · intro pos2 h2
        rw [hr] at h2
        cases h2
        have := ih pos1
        rw [encode_run_sync_iter_config cbs img_tmp pos pos1 t hr] at this
        exact this
      · intro h2; rw [hr] at h2; cases h2
    | none =>
      simp only []
      have := encode_run_sync_iter_scheduled cbs img_tmp pos t []
        (fun pos1 h => by rw [hr] at h; cases h) (fun _ => rfl)
      simpa using this

/-! ## Where the IDR records of a trace come from -/

theorem encode_run_frame_events (cbs : cbs_t) (channel_data : Nat) (s : run_t) (t : tick_t) :
    ∀ ev ∈ (encode_run_frame cbs channel_data s t).events, ∃ f, ev = trace_e.encode f := by
  intro ev hev
  unfold encode_run_frame at hev
  split at hev
  · simp at hev
  · simp only [List.mem_singleton] at hev
    exact ⟨_, hev⟩

theorem encode_run_loop_idle (cbs : cbs_t) (config : config_t) (channel_data : Nat)
    (ticks : List tick_t) (s : run_t) (hidle : ∀ t ∈ ticks, t.idr = idr_poll.idle) :
    ∀ ev ∈ (encode_run_loop cbs config channel_data s ticks).events,
      ∃ f, ev = trace_e.encode f := by
  induction ticks generalizing s with
  | nil => intro ev hev; simp [encode_run_loop] at hev
  | cons t ts ih =>
    intro ev hev
    have hit : ∀ ev ∈ (encode_run_iter cbs config channel_data s t).events,
        ∃ f, ev = trace_e.encode f := by
      intro ev hev
      unfold encode_run_iter at hev
      rw [hidle t (List.mem_cons_self _ _)] at hev
      split at hev
      · simp at hev
      · exact encode_run_frame_events cbs channel_data _ t ev hev
    unfold encode_run_loop at hev
    simp only [] at hev
    split at hev
    · simp only [List.mem_append] at hev
      rcases hev with h | h
      · exact hit ev h
      · exact ih _ (fun t ht => hidle t (List.mem_cons_of_mem _ ht)) ev h
    · exact hit ev hev

theorem encode_run_loop_event (cbs : cbs_t) (config : config_t) (channel_data : Nat)
    (t : tick_t) (ts : List tick_t) (s : run_t) (e : idr_t)
    (hstop : t.stop = false) (hidr : t.idr = idr_poll.event e) :
    ∃ rest, (encode_run_loop cbs config channel_data s (t :: ts)).events =
        trace_e.idr e e.2 (wrap32 (e.2 + config.framerate)) :: rest ∧
      ((∀ x ∈ ts, x.idr = idr_poll.idle) → ∀ ev ∈ rest, ∃ f, ev = trace_e.encode f) := by
  have hit : encode_run_iter cbs config channel_data s t =
      { encode_run_frame cbs channel_data
          { s with frame := mark_idr s.frame, frame_nr := e.2,
                   key_frame_nr := wrap32 (e.2 + config.framerate) } t with
        events := trace_e.idr e e.2 (wrap32 (e.2 + config.framerate)) ::
          (encode_run_frame cbs channel_data
            { s with frame := mark_idr s.frame, frame_nr := e.2,
                     key_frame_nr := wrap32 (e.2 + config.framerate) } t).events } := by
    unfold encode_run_iter
    simp only [hstop, Bool.false_eq_true, if_false, hidr]
  unfold encode_run_loop
  simp only [hit]
  split
  · refine ⟨_, rfl, ?_⟩
    intro hidle ev hev
    rcases List.mem_append.mp hev with h | h
    · exact encode_run_frame_events cbs channel_data _ t ev h
    · exact encode_run_loop_idle cbs config channel_data ts _ hidle ev h
  · refine ⟨_, rfl, ?_⟩
    intro _ ev hev
    exact encode_run_frame_events cbs channel_data _ t ev hev

theorem encode_run_loop_stop (cbs : cbs_t) (config : config_t) (channel_data : Nat)
    (t : tick_t) (ts : List tick_t) (s : run_t) (hstop : t.stop = true) :
    (encode_run_loop cbs config channel_data s (t :: ts)).events = [] := by
  unfold encode_run_loop encode_run_iter
  simp [hstop]

theorem encode_run_sync_frame_events (cbs : cbs_t) (img_tmp : Bool) (pos : sync_session_t)
    (t : sync_tick_t) :
    ∀ ev ∈ (encode_run_sync_frame cbs img_tmp pos t).events, ∃ f, ev = trace_e.encode f := by
  intro ev hev
  unfold encode_run_sync_frame at hev
  cases img_tmp <;> cases hto : t.timeout <;>
    simp only [hto, ↓reduceIte, Bool.false_eq_true, Bool.true_eq_false] at hev
  · simp at hev
  · split at hev
    · simp at hev
    · exact ⟨_, List.mem_singleton.mp hev⟩
  · simp at hev
  · split at hev
    · simp at hev
    · exact ⟨_, List.mem_singleton.mp hev⟩

theorem encode_run_sync_loop_idle (cbs : cbs_t) (sweeps : List (Bool × sync_tick_t))
    (pos : sync_session_t) (hidle : ∀ w ∈ sweeps, w.2.idr = none) :
    ∀ ev ∈ (encode_run_sync_loop cbs pos sweeps).1, ∃ f, ev = trace_e.encode f := by
  induction sweeps generalizing pos with
  | nil => intro ev hev; simp [encode_run_sync_loop] at hev
  | cons w ws ih =>
    obtain ⟨img_tmp, t⟩ := w
    intro ev hev
    have hi : t.idr = none := hidle (img_tmp, t) (List.mem_cons_self _ _)
    have hit : ∀ ev ∈ (encode_run_sync_iter cbs img_tmp pos t).events,
        ∃ f, ev = trace_e.encode f := by
      intro ev hev
      unfold encode_run_sync_iter at hev
      rw [hi] at hev
      split at hev
      · simp at hev
      · exact encode_run_sync_frame_events cbs img_tmp _ t ev hev
    unfold encode_run_sync_loop at hev
    simp only [] at hev
    split at hev
    · exact hit ev hev
    · simp only [List.mem_append] at hev
      rcases hev with h | h
      · exact hit ev h
      · exact ih _ (fun w hw => hidle w (List.mem_cons_of_mem _ hw)) ev h

theorem encode_run_sync_loop_event (cbs : cbs_t) (img_tmp : Bool) (t : sync_tick_t)
    (ws : List (Bool × sync_tick_t)) (pos : sync_session_t) (e : idr_t)
    (hsd : t.shutdown = false) (hidr : t.idr = some e) :
    ∃ rest, (encode_run_sync_loop cbs pos ((img_tmp, t) :: ws)).1 =
        trace_e.idr e e.2 (wrap32 (e.2 + pos.ctx.config.framerate)) :: rest ∧
      ((∀ w ∈ ws, w.2.idr = none) → ∀ ev ∈ rest, ∃ f, ev = trace_e.encode f) := by
  have hit : encode_run_sync_iter cbs img_tmp pos t =
      { encode_run_sync_frame cbs img_tmp
          { pos with
            frame := mark_idr pos.frame
            ctx := { pos.ctx with
                     frame_nr := e.2
                     key_frame_nr := wrap32 (e.2 + pos.ctx.config.framerate) } } t with
        events := trace_e.idr e e.2 (wrap32 (e.2 + pos.ctx.config.framerate)) ::
          (encode_run_sync_frame cbs img_tmp
            { pos with
              frame := mark_idr pos.frame
              ctx := { pos.ctx with
                       frame_nr := e.2
                       key_frame_nr := wrap32 (e.2 + pos.ctx.config.framerate) } } t).events } := by
    unfold encode_run_sync_iter
    simp only [hsd, Bool.false_eq_true, if_false, hidr]
  unfold encode_run_sync_loop
  simp only [hit]
  split
  · refine ⟨_, rfl, ?_⟩
    intro _ ev hev
    exact encode_run_sync_frame_events cbs img_tmp _ t ev hev
  · refine ⟨_, rfl, ?_⟩
    intro hidle ev hev
    rcases List.mem_append.mp hev with h | h
    · exact encode_run_sync_frame_events cbs img_tmp _ t ev h
    · exact encode_run_sync_loop_idle cbs ws _ hidle ev h

theorem encode_run_sync_loop_shutdown (cbs : cbs_t) (img_tmp : Bool) (t : sync_tick_t)
    (ws : List (Bool × sync_tick_t)) (pos : sync_session_t) (hsd : t.shutdown = true) :
    (encode_run_sync_loop cbs pos ((img_tmp, t) :: ws)).1 = [] := by
  unfold encode_run_sync_loop encode_run_sync_iter
  simp [hsd]

/-! ## Sessions started through `capture` -/

theorem capture_async_trace (cbs : cbs_t) (av : av_env) (video : video_cfg)
    (encoder : encoder_t) (packets : List packet_t) (config : config_t) (width height : Int)
    (hwdevice_data : Bool) (channel_data : Nat) (ticks : List tick_t) :
    (capture_async cbs av video encoder packets config width height hwdevice_data
        channel_data ticks).1 = [] ∨
    ∃ s : run_t, s.frame_nr = 1 ∧ s.key_frame_nr = 1 ∧
      (capture_async cbs av video encoder packets config width height hwdevice_data
        channel_data ticks).1 = (encode_run_loop cbs config channel_data s ticks).events := by
  unfold capture_async encode_run
  cases (make_session av video encoder config width height hwdevice_data).session with
  | none => exact Or.inl rfl
  | some session => exact Or.inr ⟨_, rfl, rfl, rfl⟩

theorem capture_sync_trace (cbs : cbs_t) (av : av_env) (video : video_cfg)
    (encoder : encoder_t) (packets : List packet_t) (config : config_t) (width height : Int)
    (hwdevice : Option Bool) (channel_data : Nat) (sweeps : List (Bool × sync_tick_t)) :
    capture_sync cbs av video encoder packets config width height hwdevice channel_data
        sweeps = [] ∨
    ∃ pos : sync_session_t, pos.ctx.frame_nr = 1 ∧ pos.ctx.key_frame_nr = 1 ∧
      pos.ctx.config = config ∧
      capture_sync cbs av video encoder packets config width height hwdevice channel_data
        sweeps = (encode_run_sync_loop cbs pos sweeps).1 := by
  unfold capture_sync make_synced_session
  cases hwdevice with
  | none => exact Or.inl rfl
  | some hwdevice_data =>
    simp only []
    cases (make_session av video encoder config width height hwdevice_data).session with
    | none => exact Or.inl rfl
    | some session => exact Or.inr ⟨_, rfl, rfl, rfl, rfl⟩

/-- C10: in a session started through `capture`, whose first look at the IDR
event finds the request `(0, 1)` that `capture` raised, the first frame
submitted to `encode` carries the keyframe marks, on the async and on the
sync pipeline, and the trace begins with the consumption of that request:
it is consumed before the first `encode` call. -/
theorem capture_first_frame_is_idr (cbs : cbs_t) (av : av_env) (video : video_cfg)
    (encoder : encoder_t) (packets : List packet_t) (config : config_t) (width height : Int)
    (hwdevice_data : Bool) (channel_data : Nat) (t : tick_t) (ts : List tick_t)
    (hwdevice : Option Bool) (w : Bool × sync_tick_t) (ws : List (Bool × sync_tick_t))
    (ht : t.idr = idr_poll.event capture_idr) (hw : w.2.idr = some capture_idr) :
    (∀ f, (frames_of (capture_async cbs av video encoder packets config width height
          hwdevice_data channel_data (t :: ts)).1).head? = some f →
        is_idr f ∧
        (capture_async cbs av video encoder packets config width height hwdevice_data
          channel_data (t :: ts)).1.head? =
          some (trace_e.idr capture_idr 1 (wrap32 (1 + config.framerate)))) ∧
    (∀ f, (frames_of (capture_sync cbs av video encoder packets config width height
          hwdevice channel_data (w :: ws))).head? = some f →
        is_idr f ∧
        (capture_sync cbs av video encoder packets config width height hwdevice
          channel_data (w :: ws)).head? =
          some (trace_e.idr capture_idr 1 (wrap32 (1 + config.framerate)))) := by
  constructor
  · intro f hf
    rcases capture_async_trace cbs av video encoder packets config width height hwdevice_data
      channel_data (t :: ts) with h | ⟨s, h1, h2, h⟩
    · rw [h] at hf; simp [frames_of] at hf
    · rw [h] at hf ⊢
      refine ⟨scheduled_first config.framerate _ s.sched (Or.inr (h1.trans h2.symm))
        (encode_run_loop_scheduled cbs config channel_data (t :: ts) s) f hf, ?_⟩
      cases hstop : t.stop with
      | true =>
        rw [encode_run_loop_stop cbs config channel_data t ts s hstop] at hf
        simp [frames_of] at hf
      | false =>
        obtain ⟨rest, hev, -⟩ :=
          encode_run_loop_event cbs config channel_data t ts s capture_idr hstop ht
        rw [hev]
        rfl
  · intro f hf
    obtain ⟨img_tmp, u⟩ := w
    rcases capture_sync_trace cbs av video encoder packets config width height hwdevice
      channel_data ((img_tmp, u) :: ws) with h | ⟨pos, h1, h2, hc, h⟩
    · rw [h] at hf; simp [frames_of] at hf
    · rw [h] at hf ⊢
      refine ⟨scheduled_first pos.ctx.config.framerate _ pos.sched
        (Or.inr (h1.trans h2.symm))
        (encode_run_sync_loop_scheduled cbs ((img_tmp, u) :: ws) pos) f hf, ?_⟩
      cases hsd : u.shutdown with
      | true =>
        rw [encode_run_sync_loop_shutdown cbs img_tmp u ws pos hsd] at hf
        simp [frames_of] at hf
      | false =>
        obtain ⟨rest, hev, -⟩ :=
          encode_run_sync_loop_event cbs img_tmp u ws pos capture_idr hsd hw
        rw [hev, hc]
        rfl

theorem capture_first_frame_is_idr_witness :
    ((tick_of (.event capture_idr)).idr = idr_poll.event capture_idr ∧
      (sweep_of (some capture_idr)).2.idr = some capture_idr) ∧
    (is_idr ((frames_of (capture_async cbs_fixed av_ok video_qp (software caps_none caps_x26x)
        [] (config_1080p60 1000 0 0) 1920 1080 false 7
        [tick_of (.event capture_idr), tick_of .idle]).1).head?.getD frame_zero) ∧
     is_idr ((frames_of (capture_sync cbs_fixed av_ok video_qp (software caps_none caps_x26x)
        [] (config_1080p60 1000 0 0) 1920 1080 (some false) 7
        [sweep_of (some capture_idr), sweep_of none])).head?.getD frame_zero)) :=
  ⟨⟨rfl, rfl⟩,
   ((capture_first_frame_is_idr cbs_fixed av_ok video_qp (software caps_none caps_x26x) []
      (config_1080p60 1000 0 0) 1920 1080 false 7 (tick_of (.event capture_idr))
      [tick_of .idle] (some false) (sweep_of (some capture_idr)) [sweep_of none] rfl rfl).1
      _ rfl).1,
   ((capture_first_frame_is_idr cbs_fixed av_ok video_qp (software caps_none caps_x26x) []
      (config_1080p60 1000 0 0) 1920 1080 false 7 (tick_of (.event capture_idr))
      [tick_of .idle] (some false) (sweep_of (some capture_idr)) [sweep_of none] rfl rfl).2
      _ rfl).1⟩

/-- C1, as stated, fails: a session started through `capture` that later
receives the IDR request `(1, 2)`, after three frames, passes the pts values
1, 2, 3, 2 to `encode`, on the async and on the sync pipeline: the pts of
successive calls are not strictly increasing. -/
theorem capture_pts_go_back :
    (pts_of (capture_async cbs_fixed av_ok video_qp (software caps_none caps_x26x) []
        (config_1080p60 1000 0 0) 1920 1080 false 7
        [tick_of (.event capture_idr), tick_of .idle, tick_of .idle,
         tick_of (.event (1, 2))]).1 = [1, 2, 3, 2] ∧
      ¬ List.Chain' (· < ·)
        (pts_of (capture_async cbs_fixed av_ok video_qp (software caps_none caps_x26x) []
          (config_1080p60 1000 0 0) 1920 1080 false 7
          [tick_of (.event capture_idr), tick_of .idle, tick_of .idle,
           tick_of (.event (1, 2))]).1)) ∧
    (pts_of (capture_sync cbs_fixed av_ok video_qp (software caps_none caps_x26x) []
        (config_1080p60 1000 0 0) 1920 1080 (some false) 7
        [sweep_of (some capture_idr), sweep_of none, sweep_of none,
         sweep_of (some (1, 2))]) = [1, 2, 3, 2] ∧
      ¬ List.Chain' (· < ·)
        (pts_of (capture_sync cbs_fixed av_ok video_qp (software caps_none caps_x26x) []
          (config_1080p60 1000 0 0) 1920 1080 (some false) 7
          [sweep_of (some capture_idr), sweep_of none, sweep_of none,
           sweep_of (some (1, 2))]))) := by
  have h1 : pts_of (capture_async cbs_fixed av_ok video_qp (software caps_none caps_x26x) []
      (config_1080p60 1000 0 0) 1920 1080 false 7
      [tick_of (.event capture_idr), tick_of .idle, tick_of .idle,
       tick_of (.event (1, 2))]).1 = [1, 2, 3, 2] := by decide
  have h2 : pts_of (capture_sync cbs_fixed av_ok video_qp (software caps_none caps_x26x) []
      (config_1080p60 1000 0 0) 1920 1080 (some false) 7
      [sweep_of (some capture_idr), sweep_of none, sweep_of none,
       sweep_of (some (1, 2))]) = [1, 2, 3, 2] := by decide
  rw [h1, h2]
  simp

/-- C1, amended: in a session started through `capture` the pts values passed
to successive `encode` calls are strictly increasing provided every IDR
request consumed has an end frame greater than the pts of each `encode` call
made before it, and no pts is `INT_MAX`; the first pts is 1 provided every
request consumed before the first `encode` call has end frame 1, as the
initial request `(0, 1)` has. Both hold on the async and on the sync
pipeline. -/
theorem capture_pts_increasing (cbs : cbs_t) (av : av_env) (video : video_cfg)
    (encoder : encoder_t) (packets : List packet_t) (config : config_t) (width height : Int)
    (hwdevice_data : Bool) (channel_data : Nat) (ticks : List tick_t)
    (hwdevice : Option Bool) (sweeps : List (Bool × sync_tick_t))
    (ha : idr_ahead [] (capture_async cbs av video encoder packets config width height
      hwdevice_data channel_data ticks).1 = true)
    (hm : ∀ p ∈ pts_of (capture_async cbs av video encoder packets config width height
      hwdevice_data channel_data ticks).1, p < INT_MAX)
    (hs : idr_ahead [] (capture_sync cbs av video encoder packets config width height
      hwdevice channel_data sweeps) = true)
    (hn : ∀ p ∈ pts_of (capture_sync cbs av video encoder packets config width height
      hwdevice channel_data sweeps), p < INT_MAX) :
    (List.Pairwise (· < ·) (pts_of (capture_async cbs av video encoder packets config width
        height hwdevice_data channel_data ticks).1) ∧
      (idr_initial (capture_async cbs av video encoder packets config width height
          hwdevice_data channel_data ticks).1 = true →
        ∀ p, (pts_of (capture_async cbs av video encoder packets config width height
          hwdevice_data channel_data ticks).1).head? = some p → p = 1)) ∧
    (List.Pairwise (· < ·) (pts_of (capture_sync cbs av video encoder packets config width
        height hwdevice channel_data sweeps)) ∧
      (idr_initial (capture_sync cbs av video encoder packets config width height
          hwdevice channel_data sweeps) = true →
        ∀ p, (pts_of (capture_sync cbs av video encoder packets config width height
          hwdevice channel_data sweeps)).head? = some p → p = 1)) := by
  constructor
  · rcases capture_async_trace cbs av video encoder packets config width height hwdevice_data
      channel_data ticks with h | ⟨s, h1, h2, h⟩
    · rw [h]; simp [pts_of, frames_of]
    · rw [h] at ha hm ⊢
      have hsch := encode_run_loop_scheduled cbs config channel_data ticks s
      exact ⟨(scheduled_increasing config.framerate _ s.sched [] (by simp) hsch ha hm).1,
        fun hi => scheduled_first_pts config.framerate _ s.sched h1 hsch hi⟩
  · rcases capture_sync_trace cbs av video encoder packets config width height hwdevice
      channel_data sweeps with h | ⟨pos, h1, h2, hc, h⟩
    · rw [h]; simp [pts_of, frames_of]
    · rw [h] at hs hn ⊢
      have hsch := encode_run_sync_loop_scheduled cbs sweeps pos
      exact ⟨(scheduled_increasing pos.ctx.config.framerate _ pos.sched [] (by simp)
          hsch hs hn).1,
        fun hi => scheduled_first_pts pos.ctx.config.framerate _ pos.sched h1 hsch hi⟩

theorem capture_pts_increasing_witness :
    (idr_ahead [] (capture_async cbs_fixed av_ok video_qp (software caps_none caps_x26x) []
        (config_1080p60 1000 0 0) 1920 1080 false 7
        [tick_of (.event capture_idr), tick_of .idle, tick_of (.event (2, 9)),
         tick_of .idle]).1 = true ∧
      (∀ p ∈ pts_of (capture_async cbs_fixed av_ok video_qp (software caps_none caps_x26x) []
        (config_1080p60 1000 0 0) 1920 1080 false 7
        [tick_of (.event capture_idr), tick_of .idle, tick_of (.event (2, 9)),
         tick_of .idle]).1, p < INT_MAX) ∧
      idr_ahead [] (capture_sync cbs_fixed av_ok video_qp (software caps_none caps_x26x) []
        (config_1080p60 1000 0 0) 1920 1080 (some false) 7
        [sweep_of (some capture_idr), sweep_of none, sweep_of (some (2, 9)),
         sweep_of none]) = true ∧
      (∀ p ∈ pts_of (capture_sync cbs_fixed av_ok video_qp (software caps_none caps_x26x) []
        (config_1080p60 1000 0 0) 1920 1080 (some false) 7
        [sweep_of (some capture_idr), sweep_of none, sweep_of (some (2, 9)),
         sweep_of none]), p < INT_MAX)) ∧
    List.Pairwise (· < ·)
      (pts_of (capture_async cbs_fixed av_ok video_qp (software caps_none caps_x26x) []
        (config_1080p60 1000 0 0) 1920 1080 false 7
        [tick_of (.event capture_idr), tick_of .idle, tick_of (.event (2, 9)),
         tick_of .idle]).1) ∧
    List.Pairwise (· < ·)
      (pts_of (capture_sync cbs_fixed av_ok video_qp (software caps_none caps_x26x) []
        (config_1080p60 1000 0 0) 1920 1080 (some false) 7
        [sweep_of (some capture_idr), sweep_of none, sweep_of (some (2, 9)),
         sweep_of none])) :=
  ⟨⟨by decide, by decide, by decide, by decide⟩,
   (capture_pts_increasing cbs_fixed av_ok video_qp (software caps_none caps_x26x) []
      (config_1080p60 1000 0 0) 1920 1080 false 7
      [tick_of (.event capture_idr), tick_of .idle, tick_of (.event (2, 9)), tick_of .idle]
      (some false)
      [sweep_of (some capture_idr), sweep_of none, sweep_of (some (2, 9)), sweep_of none]
      (by decide) (by decide) (by decide) (by decide)).1.1,
   (capture_pts_increasing cbs_fixed av_ok video_qp (software caps_none caps_x26x) []
      (config_1080p60 1000 0 0) 1920 1080 false 7
      [tick_of (.event capture_idr), tick_of .idle, tick_of (.event (2, 9)), tick_of .idle]
      (some false)
      [sweep_of (some capture_idr), sweep_of none, sweep_of (some (2, 9)), sweep_of none]
      (by decide) (by decide) (by decide) (by decide)).2.1⟩

/-- C9: in `encode_run` and in the sweep of `encode_run_sync`, when an IDR
request with end frame `E` is consumed and no further request arrives, the
frame counter becomes `E` and the scheduled keyframe number `E + framerate`
(for a positive frame rate and `E + framerate` within the range of `int`); the frame encoded next has
pts `E` and carries the keyframe marks, the frames with pts `E + 1` up to
`E + framerate - 1` are encoded with the marks cleared, and the frame with
pts `E + framerate` carries the marks again. -/
theorem idr_reschedules_keyframe (cbs : cbs_t) (config : config_t) (channel_data : Nat)
    (s : run_t) (t : tick_t) (ts : List tick_t) (a E : Int)
    (pos : sync_session_t) (img_tmp : Bool) (u : sync_tick_t)
    (ws : List (Bool × sync_tick_t)) (b F : Int)
    (hfr : 0 < config.framerate)
    (hE : -2147483648 ≤ E) (hEf : E + config.framerate ≤ 2147483647)
    (hstop : t.stop = false) (hidr : t.idr = idr_poll.event (a, E))
    (hidle : ∀ x ∈ ts, x.idr = idr_poll.idle)
    (hfr' : 0 < pos.ctx.config.framerate)
    (hF : -2147483648 ≤ F) (hFf : F + pos.ctx.config.framerate ≤ 2147483647)
    (hsd : u.shutdown = false) (hidr' : u.idr = some (b, F))
    (hidle' : ∀ w ∈ ws, w.2.idr = none) :
    ((encode_run_loop cbs config channel_data s (t :: ts)).events.head? =
        some (trace_e.idr (a, E) E (E + config.framerate)) ∧
      ∀ (i : Nat) (f : AVFrame),
        (frames_of (encode_run_loop cbs config channel_data s (t :: ts)).events)[i]? = some f →
        (i : Int) ≤ config.framerate →
        f.pts = E + i ∧
        ((i = 0 ∨ (i : Int) = config.framerate) → is_idr f) ∧
        ((0 < i ∧ (i : Int) < config.framerate) → is_plain f)) ∧
    ((encode_run_sync_loop cbs pos ((img_tmp, u) :: ws)).1.head? =
        some (trace_e.idr (b, F) F (F + pos.ctx.config.framerate)) ∧
      ∀ (i : Nat) (f : AVFrame),
        (frames_of (encode_run_sync_loop cbs pos ((img_tmp, u) :: ws)).1)[i]? = some f →
        (i : Int) ≤ pos.ctx.config.framerate →
        f.pts = F + i ∧
        ((i = 0 ∨ (i : Int) = pos.ctx.config.framerate) → is_idr f) ∧
        ((0 < i ∧ (i : Int) < pos.ctx.config.framerate) → is_plain f)) := by
  constructor
  · obtain ⟨rest, hev, hrest⟩ :=
      encode_run_loop_event cbs config channel_data t ts s (a, E) hstop hidr
    have hsch := encode_run_loop_scheduled cbs config channel_data (t :: ts) s
    rw [hev] at hsch ⊢
    simp only [scheduled] at hsch
    have hw : wrap32 (E + config.framerate) = E + config.framerate :=
      wrap32_eq _ (by omega) hEf
    rw [hw] at hsch ⊢
    refine ⟨rfl, ?_⟩
    intro i f hf hle
    have := scheduled_after_idr config.framerate E rest _ 0 hE hEf (hrest hidle)
      (by simp) rfl (fun _ => ⟨rfl, rfl⟩) (fun h => absurd h (lt_irrefl 0)) hsch.2.2 i f
      (by simpa [frames_of] using hf) (by simpa using hle)
    simpa using this
  · obtain ⟨rest, hev, hrest⟩ :=
      encode_run_sync_loop_event cbs img_tmp u ws pos (b, F) hsd hidr'
    have hsch := encode_run_sync_loop_scheduled cbs ((img_tmp, u) :: ws) pos
    rw [hev] at hsch ⊢
    simp only [scheduled] at hsch
    have hw : wrap32 (F + pos.ctx.config.framerate) = F + pos.ctx.config.framerate :=
      wrap32_eq _ (by omega) hFf
    rw [hw] at hsch ⊢
    refine ⟨rfl, ?_⟩
    intro i f hf hle
    have := scheduled_after_idr pos.ctx.config.framerate F rest _ 0 hF hFf (hrest hidle')
      (by simp) rfl (fun _ => ⟨rfl, rfl⟩) (fun h => absurd h (lt_irrefl 0)) hsch.2.2 i f
      (by simpa [frames_of] using hf) (by simpa using hle)
    simpa using this

theorem idr_reschedules_keyframe_witness :
    ((0 : Int) < config_fps2.framerate ∧
      (tick_of (.event (3, 100))).stop = false ∧
      (∀ x ∈ [tick_of .idle, tick_of .idle, tick_of .idle], x.idr = idr_poll.idle) ∧
      (sweep_of (some (3, 100))).2.shutdown = false ∧
      (∀ w ∈ [sweep_of none, sweep_of none, sweep_of none], w.2.idr = none)) ∧
    (frames_of (encode_run_loop cbs_fixed config_fps2 7 run_at_7
        (tick_of (.event (3, 100)) ::
          [tick_of .idle, tick_of .idle, tick_of .idle])).events).map
        (fun f => (f.pts, f.pict_type, f.key_frame)) =
      [(100, 1, 1), (101, 0, 0), (102, 1, 1), (103, 0, 0)] ∧
    ((encode_run_loop cbs_fixed config_fps2 7 run_at_7
        (tick_of (.event (3, 100)) ::
          [tick_of .idle, tick_of .idle, tick_of .idle])).events.head? =
        some (trace_e.idr (3, 100) 100 102) ∧
      (encode_run_sync_loop cbs_fixed sync_at_7
        (((sweep_of (some (3, 100))).1, (sweep_of (some (3, 100))).2) ::
          [sweep_of none, sweep_of none, sweep_of none])).1.head? =
        some (trace_e.idr (3, 100) 100 102)) :=
  ⟨⟨by decide, rfl, by decide, rfl, by decide⟩, by decide,
   (idr_reschedules_keyframe cbs_fixed config_fps2 7 run_at_7
      (tick_of (.event (3, 100))) [tick_of .idle, tick_of .idle, tick_of .idle] 3 100
      sync_at_7 (sweep_of (some (3, 100))).1 (sweep_of (some (3, 100))).2
      [sweep_of none, sweep_of none, sweep_of none] 3 100
      (by decide) (by decide) (by decide) rfl rfl (by decide)
      (by decide) (by decide) (by decide) rfl rfl (by decide)).1.1,
   (idr_reschedules_keyframe cbs_fixed config_fps2 7 run_at_7
      (tick_of (.event (3, 100))) [tick_of .idle, tick_of .idle, tick_of .idle] 3 100
      sync_at_7 (sweep_of (some (3, 100))).1 (sweep_of (some (3, 100))).2
      [sweep_of none, sweep_of none, sweep_of none] 3 100
      (by decide) (by decide) (by decide) rfl rfl (by decide)
      (by decide) (by decide) (by decide) rfl rfl (by decide)).2.1⟩

/-! ## Claims on the return value of `encode` and on `nvenc` -/

theorem encode_loop_pushes (cbs : cbs_t) (channel_data : Nat) (received : List AVPacket)
    (session : session_t) (packets : List packet_t) :
    ∃ pushed : List packet_t,
      (encode_loop cbs channel_data session packets received).2 = packets ++ pushed ∧
      pushed.map (fun x => x.pkt) = received := by
  by_cases h : session.inject = 0
  · rw [encode_loop_armed_off cbs channel_data session h]
    exact ⟨_, rfl, by simp [Function.comp_def]⟩
  · cases received with
    | nil => exact ⟨[], by simp [encode_loop], rfl⟩
    | cons p ps =>
      obtain ⟨s1, -, -, hl⟩ := encode_loop_armed cbs channel_data session h p ps packets
      rw [hl]
      exact ⟨_, rfl, by simp [Function.comp_def]⟩

/-- C20: `encode` returns 0 exactly when the frame is accepted and the drain
ends with `EAGAIN` or `EOF`. When the frame is refused it returns a non-zero
value and the queue is untouched. When the drain ends with another error it
returns that negative code. Whenever the frame is accepted, the queue has
gained exactly the packets received before the end of the drain, in the
order received. -/
theorem encode_returns (cbs : cbs_t) (frame_nr : Int) (session : session_t) (frame : AVFrame)
    (packets : List packet_t) (channel_data : Nat) (reply : reply_t) :
    ((encode cbs frame_nr session frame packets channel_data reply).ret = 0 ↔
      (0 ≤ reply.send ∧ (reply.last = AVERROR_EAGAIN ∨ reply.last = AVERROR_EOF))) ∧
    (reply.send < 0 →
      (encode cbs frame_nr session frame packets channel_data reply).ret ≠ 0 ∧
      (encode cbs frame_nr session frame packets channel_data reply).packets = packets) ∧
    (0 ≤ reply.send → ¬ (reply.last = AVERROR_EAGAIN ∨ reply.last = AVERROR_EOF) →
      (encode cbs frame_nr session frame packets channel_data reply).ret = reply.last ∧
      (encode cbs frame_nr session frame packets channel_data reply).ret < 0) ∧
    (0 ≤ reply.send →
      ∃ pushed : List packet_t,
        (encode cbs frame_nr session frame packets channel_data reply).packets
          = packets ++ pushed ∧
        pushed.map (fun x => x.pkt) = reply.received) := by
  have hneg := reply.last_neg
  refine ⟨?_, ?_, ?_, ?_⟩
  · unfold encode
    by_cases hs : reply.send < 0
    · simp only [hs, if_true]
      constructor
      · intro h; simp at h
      · intro h; omega
    · simp only [hs, if_false]
      by_cases he : reply.last = AVERROR_EAGAIN ∨ reply.last = AVERROR_EOF
      · simp only [he, if_true, true_iff]
        exact ⟨by omega, trivial⟩
      · simp only [he, if_false, and_false, iff_false]
        omega
  · intro hs
    unfold encode
    simp only [hs, if_true]
    exact ⟨by decide, trivial⟩
  · intro hs he
    unfold encode
    have hs' : ¬ reply.send < 0 := by omega
    simp only [hs', if_false, he]
    exact ⟨trivial, hneg⟩
  · intro hs
    have hs' : ¬ reply.send < 0 := by omega
    rw [encode_packets]
    simp only [hs', if_false]
    exact encode_loop_pushes cbs channel_data reply.received session packets

theorem make_session_slices_fmt (av : av_env) (video : video_cfg) (encoder : encoder_t)
    (config : config_t) (ctx ctx1 : AVCodecContext) (calls : List call_e)
    (h : make_session_slices av video encoder config ctx = (some ctx1, calls)) :
    ctx1.sw_pix_fmt = ctx.sw_pix_fmt ∧ ctx1.profile = ctx.profile := by
  unfold make_session_slices at h
  by_cases hhw : encoder.dev_type ≠ AV_HWDEVICE_TYPE_NONE
  · by_cases hmk : av.make_hwdevice_ctx = false
    · simp [hhw, hmk] at h
    · by_cases hin : av.hwframe_ctx_init < 0
      · have := (hwframe_ctx_ok av.hwframe_ctx_init
          { ctx with pix_fmt := encoder.dev_pix_fmt }).not.mpr (not_not.mpr hin)
        simp [hhw, hmk, this] at h
      · have h0 := (hwframe_ctx_ok av.hwframe_ctx_init
          { ctx with pix_fmt := encoder.dev_pix_fmt }).mpr hin
        have h2 := hwframe_ctx_snd av.hwframe_ctx_init
          { ctx with pix_fmt := encoder.dev_pix_fmt } hin
        simp [hhw, hmk, h0, h2] at h
        obtain ⟨h1, h3⟩ := h
        subst h1 h3
        simp
  · simp [hhw] at h
    obtain ⟨h1, h3⟩ := h
    subst h1 h3
    simp

theorem make_session_some_open2 (av : av_env) (video : video_cfg) (encoder : encoder_t)
    (config : config_t) (width height : Int) (hwdevice_data : Bool) (s : session_t)
    (h : (make_session av video encoder config width height hwdevice_data).session = some s) :
    ∃ options, call_e.avcodec_open2 s.ctx options ∈
      (make_session av video encoder config width height hwdevice_data).calls := by
  unfold make_session at h ⊢
  simp only [] at h ⊢
  split at h
  · simp at h
  split at h
  · simp at h
  split at h
  · simp at h
  split at h
  · simp at h
  split at h
  · simp at h
  rename_i y ctx options hrc
  split at h
  · simp at h
  split at h
  · simp at h
  simp only [Option.some.injEq] at h
  subst h
  refine ⟨options, ?_⟩
  simp_all
  split <;> simp_all

theorem nvenc_hevc_options (video : video_cfg) (hevc h264 : capabilities_t) :
    (⟨"forced-idr", .int 1⟩ : String × dict_value) ∈
        (nvenc hevc h264).hevc.options.foldl (handle_option video) [] ∧
      (∀ x, video.nv_rc = some x → (⟨"rc", .int x⟩ : String × dict_value) ∈
        (nvenc hevc h264).hevc.options.foldl (handle_option video) []) ∧
      (∀ x, video.nv_preset = some x → (⟨"preset", .int x⟩ : String × dict_value) ∈
        (nvenc hevc h264).hevc.options.foldl (handle_option video) []) := by
  refine ⟨?_, ?_, ?_⟩
  · cases hp : video.nv_preset <;> cases hr : video.nv_rc <;>
      simp [nvenc, handle_option, hp, hr]
  · intro x hx
    cases hp : video.nv_preset <;> simp [nvenc, handle_option, hp, hx]
  · intro x hx
    cases hr : video.nv_rc <;> simp [nvenc, handle_option, hr, hx]
/-- C19, as stated: for the `nvenc` descriptor with every HEVC capability set,
`make_session` with `videoFormat = 1`, `dynamicRange = 1`, 1280x720 at 30
frames per second, `bitrate = 0` and the configured `qp = 28` builds no
session, because the rate-control chain ends in its error branch: the HEVC
block of the descriptor declares neither `crf` nor `qp`. -/
theorem nvenc_hevc_qp_builds_no_session :
    video_nv.qp = 28 ∧
    (nvenc caps_all caps_all).hevc.qp.isSome = false ∧
    (nvenc caps_all caps_all).hevc.crf.isSome = false ∧
    rate_control video_nv (video_format (nvenc caps_all caps_all) (config_720p30_hdr 0))
      (config_720p30_hdr 0) = .unsupported ∧
    (make_session av_ok video_nv (nvenc caps_all caps_all) (config_720p30_hdr 0)
      1280 720 true).session.isSome = false := by
  refine ⟨rfl, rfl, rfl, by decide, rfl⟩

/-- C19, amended: for the `nvenc` descriptor and an HEVC HDR configuration,
`make_session` builds no session and never calls `avcodec_open2` when
`bitrate ≤ 500`, whatever `qp` is configured. Every session it does build has
`bitrate > 500`, the constant-bitrate fields set, `sw_pix_fmt = P010`, the
descriptor's HEVC main-10 profile, and was opened with an option dictionary
holding `forced-idr = 1` and the configured `rc` and `preset`. -/
theorem nvenc_hevc_hdr_session (av : av_env) (video : video_cfg) (hevc h264 : capabilities_t)
    (config : config_t) (width height : Int) (hwdevice_data : Bool)
    (hvf : config.videoFormat ≠ 0) (hdr : config.dynamicRange ≠ 0) :
    (config.bitrate ≤ 500 →
      (make_session av video (nvenc hevc h264) config width height hwdevice_data).session
        = none ∧
      ∀ c o, call_e.avcodec_open2 c o ∉
        (make_session av video (nvenc hevc h264) config width height hwdevice_data).calls) ∧
    (∀ s, (make_session av video (nvenc hevc h264) config width height hwdevice_data).session
        = some s →
      500 < config.bitrate ∧
      s.ctx.sw_pix_fmt = AV_PIX_FMT_P010 ∧
      s.ctx.profile = nv_profile_hevc_main_10 ∧
      s.ctx.bit_rate = wrap32 (config.bitrate * 1000) ∧
      s.ctx.rc_max_rate = wrap32 (config.bitrate * 1000) ∧
      s.ctx.rc_min_rate = wrap32 (config.bitrate * 1000) ∧
      ∃ options, call_e.avcodec_open2 s.ctx options ∈
          (make_session av video (nvenc hevc h264) config width height hwdevice_data).calls ∧
        (⟨"forced-idr", .int 1⟩ : String × dict_value) ∈ options ∧
        (∀ x, video.nv_rc = some x → (⟨"rc", .int x⟩ : String × dict_value) ∈ options) ∧
        (∀ x, video.nv_preset = some x →
          (⟨"preset", .int x⟩ : String × dict_value) ∈ options)) := by
  have hfmt : video_format (nvenc hevc h264) config = (nvenc hevc h264).hevc := by
    unfold video_format
    rw [if_neg hvf]
  have hnone : config.bitrate ≤ 500 → ∀ ctx options,
      make_session_rc video (nvenc hevc h264) config ctx options = none := by
    intro hb ctx options
    rw [make_session_rc_quality video (nvenc hevc h264) config ctx options hb, hfmt]
    simp [nvenc]
  refine ⟨fun hb => ⟨?_, ?_⟩, ?_⟩
  · cases hs : (make_session av video (nvenc hevc h264) config width height
        hwdevice_data).session with
    | none => rfl
    | some s =>
      obtain ⟨ctx1, calls2, options, -, hrc, -, -⟩ :=
        make_session_some av video (nvenc hevc h264) config width height hwdevice_data s hs
      rw [hnone hb] at hrc
      exact absurd hrc (by simp)
  · intro c o hmem
    obtain ⟨ctx1, calls2, -, hrc⟩ :=
      make_session_open2 av video (nvenc hevc h264) config width height hwdevice_data c o hmem
    rw [hnone hb] at hrc
    exact absurd hrc (by simp)
  · intro s hs
    obtain ⟨ctx1, calls2, options, hsl, hrc, -, -⟩ :=
      make_session_some av video (nvenc hevc h264) config width height hwdevice_data s hs
    have hb : 500 < config.bitrate := by
      by_contra hle
      rw [hnone (by omega)] at hrc
      exact absurd hrc (by simp)
    obtain ⟨hsw, hpr⟩ := make_session_slices_fmt av video (nvenc hevc h264) config _ ctx1
      calls2 hsl
    rw [make_session_rc_cbr video (nvenc hevc h264) config ctx1 _ hb] at hrc
    simp only [Option.some.injEq, Prod.mk.injEq] at hrc
    obtain ⟨o, hmem⟩ :=
      make_session_some_open2 av video (nvenc hevc h264) config width height hwdevice_data s hs
    obtain ⟨ctx1', calls2', hsl', hrc'⟩ :=
      make_session_open2 av video (nvenc hevc h264) config width height hwdevice_data _ o hmem
    rw [make_session_rc_cbr video (nvenc hevc h264) config ctx1' _ hb] at hrc'
    simp only [Option.some.injEq, Prod.mk.injEq] at hrc'
    have ho : o = (nvenc hevc h264).hevc.options.foldl (handle_option video) [] := by
      rw [← hrc'.2, hfmt]
    refine ⟨hb, ?_, ?_, ?_, ?_, ?_, o, hmem, ?_⟩
    · rw [← hrc.1]
      show ctx1.sw_pix_fmt = _
      rw [hsw]
      simp [make_session_ctx, sw_fmt, hdr, nvenc]
    · rw [← hrc.1]
      show ctx1.profile = _
      rw [hpr]
      simp [make_session_ctx, hvf, hdr, nvenc]
    · rw [← hrc.1]
    · rw [← hrc.1]
    · rw [← hrc.1]
    · rw [ho]
      exact nvenc_hevc_options video hevc h264

theorem nvenc_hevc_hdr_session_witness :
    (make_session av_ok video_nv (nvenc caps_all caps_all) (config_720p30_hdr 0)
        1280 720 true).session = none ∧
    (make_session av_ok video_nv (nvenc caps_all caps_all) (config_720p30_hdr 1000)
        1280 720 true).session =
      some ((make_session av_ok video_nv (nvenc caps_all caps_all) (config_720p30_hdr 1000)
        1280 720 true).session.getD session_zero) ∧
    ((make_session av_ok video_nv (nvenc caps_all caps_all) (config_720p30_hdr 1000)
        1280 720 true).session.getD session_zero).ctx.sw_pix_fmt = AV_PIX_FMT_P010 ∧
    ((make_session av_ok video_nv (nvenc caps_all caps_all) (config_720p30_hdr 1000)
        1280 720 true).session.getD session_zero).ctx.profile = nv_profile_hevc_main_10 :=
  ⟨((nvenc_hevc_hdr_session av_ok video_nv caps_all caps_all (config_720p30_hdr 0)
      1280 720 true (by decide) (by decide)).1 (by decide)).1,
   rfl,
   ((nvenc_hevc_hdr_session av_ok video_nv caps_all caps_all (config_720p30_hdr 1000)
      1280 720 true (by decide) (by decide)).2 _ rfl).2.1,
   ((nvenc_hevc_hdr_session av_ok video_nv caps_all caps_all (config_720p30_hdr 1000)
      1280 720 true (by decide) (by decide)).2 _ rfl).2.2.1⟩

/-! ## Claims on `captureThread` -/

theorem min_element_fold (rest : List capture_ctx_t) (c : capture_ctx_t) :
    rest.foldl (fun smallest x => if x.delay < smallest.delay then x else smallest) c
        ∈ c :: rest ∧
      ∀ x ∈ c :: rest,
        (rest.foldl (fun smallest x => if x.delay < smallest.delay then x else smallest)
          c).delay ≤ x.delay := by
  induction rest generalizing c with
  | nil => simp
  | cons y ys ih =>
    simp only [List.foldl_cons]
    obtain ⟨hm, hle⟩ := ih (if y.delay < c.delay then y else c)
    constructor
    · rcases List.mem_cons.mp hm with h | h
      · rw [h]
        split <;> simp
      · simp [h]
    · intro x hx
      have hc := hle _ (List.mem_cons_self _ _)
      have hi : (if y.delay < c.delay then y else c).delay ≤ y.delay ∧
          (if y.delay < c.delay then y else c).delay ≤ c.delay := by
        split <;> constructor <;> omega
      rcases List.mem_cons.mp hx with h | h
      · subst h
        exact le_trans hc hi.2
      · rcases List.mem_cons.mp h with h | h
        · subst h
          exact le_trans hc hi.1
        · exact hle x (List.mem_cons_of_mem _ h)

theorem min_element_some (l : List capture_ctx_t) (m : capture_ctx_t)
    (h : min_element l = some m) : is_min_delay l m.delay := by
  cases l with
  | nil => simp [min_element] at h
  | cons c rest =>
    simp only [min_element, Option.some.injEq] at h
    subst h
    obtain ⟨hm, hle⟩ := min_element_fold rest c
    exact ⟨⟨_, hm, rfl⟩, hle⟩

theorem min_element_none (l : List capture_ctx_t) : min_element l = none ↔ l = [] := by
  cases l <;> simp [min_element]
theorem capture_add_min (q : List capture_ctx_t) (s : capture_t)
    (h : is_min_delay s.capture_ctxs s.delay) :
    (∀ t, (capture_ev.add t ∈ (capture_add s q).1 ∨ capture_ev.erase t ∈ (capture_add s q).1) →
      is_min_delay t.capture_ctxs t.delay) ∧
    is_min_delay (capture_add s q).2.capture_ctxs (capture_add s q).2.delay := by
  induction q generalizing s with
  | nil => simp [capture_add, h]
  | cons c rest ih =>
    have h1 : is_min_delay (s.capture_ctxs ++ [c]) (min s.delay c.delay) := by
      obtain ⟨⟨x, hx, hxd⟩, hle⟩ := h
      constructor
      · by_cases hc : s.delay ≤ c.delay
        · exact ⟨x, by simp [hx], by rw [hxd]; exact (min_eq_left hc).symm⟩
        · exact ⟨c, by simp, (min_eq_right (by omega)).symm⟩
      · intro y hy
        rcases List.mem_append.mp hy with hy | hy
        · exact le_trans (min_le_left _ _) (hle y hy)
        · simp only [List.mem_singleton] at hy
          subst hy
          exact min_le_right _ _
    obtain ⟨ht, hs⟩ := ih { capture_ctxs := s.capture_ctxs ++ [c], delay := min s.delay c.delay } h1
    simp only [capture_add]
    refine ⟨?_, hs⟩
    intro t hmem
    rcases hmem with hmem | hmem
    · rcases List.mem_cons.mp hmem with e | e
      · simp only [capture_ev.add.injEq] at e
        subst e
        exact h1
      · exact ht t (Or.inl e)
    · rcases List.mem_cons.mp hmem with e | e
      · simp at e
      · exact ht t (Or.inr e)

theorem capture_dispatch_min (running : Nat → Bool) (pending visited : List capture_ctx_t)
    (delay : Int) (h : is_min_delay (visited ++ pending) delay) :
    (∀ t, (capture_ev.add t ∈ (capture_dispatch running visited pending delay).1 ∨
        capture_ev.erase t ∈ (capture_dispatch running visited pending delay).1) →
      is_min_delay t.capture_ctxs t.delay) ∧
    (∀ s1, (capture_dispatch running visited pending delay).2 = some s1 →
      is_min_delay s1.capture_ctxs s1.delay) := by
  induction pending generalizing visited delay with
  | nil =>
    simp only [capture_dispatch]
    refine ⟨fun t ht => by simp at ht, ?_⟩
    intro s1 hs1
    simp only [Option.some.injEq] at hs1
    subst hs1
    simpa using h
  | cons c rest ih =>
    unfold capture_dispatch
    by_cases hr : running c.images = false
    · rw [if_pos hr]
      by_cases hd : c.delay = delay
      · simp only [hd, if_true]
        cases hm : min_element (visited ++ rest) with
        | none =>
          refine ⟨fun t ht => by simp at ht, fun s1 hs1 => by simp at hs1⟩
        | some m =>
          have h1 := min_element_some _ m hm
          obtain ⟨ht, hs⟩ := ih visited m.delay h1
          refine ⟨?_, hs⟩
          intro t hmem
          rcases hmem with hmem | hmem
          · rcases List.mem_cons.mp hmem with e | e
            · simp at e
            · exact ht t (Or.inl e)
          · rcases List.mem_cons.mp hmem with e | e
            · simp only [capture_ev.erase.injEq] at e
              subst e
              exact h1
            · exact ht t (Or.inr e)
      · simp only [hd, if_false]
        have h1 : is_min_delay (visited ++ rest) delay := by
          obtain ⟨⟨x, hx, hxd⟩, hle⟩ := h
          constructor
          · refine ⟨x, ?_, hxd⟩
            rcases List.mem_append.mp hx with hx | hx
            · exact List.mem_append_left _ hx
            · rcases List.mem_cons.mp hx with e | e
              · subst e
                exact absurd hxd hd
              · exact List.mem_append_right _ e
          · intro y hy
            apply hle
            rcases List.mem_append.mp hy with hy | hy
            · exact List.mem_append_left _ hy
            · exact List.mem_append_right _ (List.mem_cons_of_mem _ hy)
        obtain ⟨ht, hs⟩ := ih visited delay h1
        refine ⟨?_, hs⟩
        intro t hmem
        rcases hmem with hmem | hmem
        · rcases List.mem_cons.mp hmem with e | e
          · simp at e
          · exact ht t (Or.inl e)
        · rcases List.mem_cons.mp hmem with e | e
          · simp only [capture_ev.erase.injEq] at e
            subst e
            exact h1
          · exact ht t (Or.inr e)
    · rw [if_neg hr]
      have h1 : is_min_delay ((visited ++ [c]) ++ rest) delay := by
        simpa using h
      obtain ⟨ht, hs⟩ := ih (visited ++ [c]) delay h1
      refine ⟨?_, hs⟩
      intro t hmem
      rcases hmem with hmem | hmem
      · rcases List.mem_cons.mp hmem with e | e
        · simp at e
        · exact ht t (Or.inl e)
      · rcases List.mem_cons.mp hmem with e | e
        · simp at e
        · exact ht t (Or.inr e)

theorem captureThread_loop_min (sweeps : List capture_sweep_t) (s : capture_t)
    (h : is_min_delay s.capture_ctxs s.delay) :
    ∀ t, (capture_ev.add t ∈ captureThread_loop s sweeps ∨
        capture_ev.erase t ∈ captureThread_loop s sweeps) →
      is_min_delay t.capture_ctxs t.delay := by
  induction sweeps generalizing s with
  | nil => intro t ht; simp [captureThread_loop] at ht
  | cons w rest ih =>
    obtain ⟨ha, hs⟩ := capture_add_min w.queued s h
    obtain ⟨hd, hs1⟩ := capture_dispatch_min w.running (capture_add s w.queued).2.capture_ctxs []
      (capture_add s w.queued).2.delay (by simpa using hs)
    intro t ht
    unfold captureThread_loop at ht
    cases hst : w.status <;> simp only [hst] at ht
    · -- ok
      cases hd2 : (capture_dispatch w.running [] (capture_add s w.queued).2.capture_ctxs
          (capture_add s w.queued).2.delay).2 with
      | none =>
        simp only [hd2, List.mem_append] at ht
        rcases ht with (ht | ht) | (ht | ht)
        · exact ha t (Or.inl ht)
        · exact hd t (Or.inl ht)
        · exact ha t (Or.inr ht)
        · exact hd t (Or.inr ht)
      | some s1 =>
        have := ih s1 (hs1 s1 hd2)
        simp only [hd2, List.mem_append] at ht
        rcases ht with ((ht | ht) | ht) | ((ht | ht) | ht)
        · exact ha t (Or.inl ht)
        · exact hd t (Or.inl ht)
        · exact this t (Or.inl ht)
        · exact ha t (Or.inr ht)
        · exact hd t (Or.inr ht)
        · exact this t (Or.inr ht)
    · -- reinit
      by_cases hre : w.redisplay = true
      · simp only [hre, if_true, List.mem_append] at ht
        rcases ht with (ht | ht) | (ht | ht)
        · exact ha t (Or.inl ht)
        · exact ih _ hs t (Or.inl ht)
        · exact ha t (Or.inr ht)
        · exact ih _ hs t (Or.inr ht)
      · simp only [hre] at ht
        exact ha t ht
    · -- timeout
      simp only [List.mem_append] at ht
      rcases ht with (ht | ht) | (ht | ht)
      · exact ha t (Or.inl ht)
      · exact ih _ hs t (Or.inl ht)
      · exact ha t (Or.inr ht)
      · exact ih _ hs t (Or.inr ht)
    · exact ha t ht
    · exact ha t ht

/-- C11: in `captureThread`, after every subscription added from the queue and
after every erasure of a stopped subscription that leaves the delay defined,
at least one subscription is held and `delay` is the least of the delays of
the subscriptions held: some held subscription has that delay and none has a
smaller one. The first `pop` delivers nothing only when the queue has been
stopped, and the loop is then not entered. -/
theorem captureThread_delay_is_min (disp : Bool) (first : Option capture_ctx_t)
    (sweeps : List capture_sweep_t) (hfirst : first = none → sweeps = []) :
    ∀ t, (capture_ev.add t ∈ captureThread disp first sweeps ∨
        capture_ev.erase t ∈ captureThread disp first sweeps) →
      t.capture_ctxs ≠ [] ∧
      (∃ x ∈ t.capture_ctxs, x.delay = t.delay) ∧
      ∀ x ∈ t.capture_ctxs, t.delay ≤ x.delay := by
  intro t ht
  have key : is_min_delay t.capture_ctxs t.delay := by
    unfold captureThread at ht
    cases disp with
    | false => simp at ht
    | true =>
      cases first with
      | none =>
        rw [hfirst rfl] at ht
        simp [captureThread_loop] at ht
      | some c =>
        have h0 : is_min_delay [c] c.delay := ⟨⟨c, by simp, rfl⟩, by simp⟩
        have hl := captureThread_loop_min sweeps { capture_ctxs := [c], delay := c.delay } h0
        simp only [Bool.true_eq_false, if_false, List.mem_cons] at ht
        rcases ht with (e | ht) | (e | ht)
        · simp only [capture_ev.add.injEq] at e
          subst e
          exact h0
        · exact hl t (Or.inl ht)
        · simp at e
        · exact hl t (Or.inr ht)
  obtain ⟨⟨x, hx, hxd⟩, hle⟩ := key
  exact ⟨List.ne_nil_of_mem hx, ⟨x, hx, hxd⟩, hle⟩

theorem captureThread_delay_is_min_witness :
    capture_delay (config_1080p60 1000 0 0) = 16666666 ∧
    captureThread true (some { images := 0, delay := 16666666 }) sweeps_60_30 =
      [.add { capture_ctxs := [{ images := 0, delay := 16666666 }], delay := 16666666 },
       .add { capture_ctxs := [{ images := 0, delay := 16666666 },
                               { images := 1, delay := 33333333 }], delay := 16666666 },
       .raise 0, .raise 1,
       .erase { capture_ctxs := [{ images := 1, delay := 33333333 }], delay := 33333333 },
       .raise 1] ∧
    (∃ x ∈ [({ images := 1, delay := 33333333 } : capture_ctx_t)], x.delay = 33333333) :=
  ⟨by decide, by decide,
   ((captureThread_delay_is_min true (some { images := 0, delay := 16666666 }) sweeps_60_30
      (by intro h; cases h)
      { capture_ctxs := [{ images := 1, delay := 33333333 }], delay := 33333333 }
      (Or.inr (by decide))).2.1)⟩

/-! ## Claims on `validate_encoder` and `init` -/

theorem capabilities_get_assign (c : capabilities_t) (f g : flag_e) (v : Bool) :
    (c.assign f v).get g = if g = f then v else c.get g := by
  cases f <;> cases g <;> rfl

theorem codec_get_assign (codec : codec_t) (f g : flag_e) (v : Bool) :
    (codec.assign f v).capabilities.get g = if g = f then v else codec.capabilities.get g := by
  unfold codec_t.assign
  exact capabilities_get_assign codec.capabilities f g v

theorem validate_encoder_viable_get (codec : codec_t) (max_ref_frames autoselect : Int)
    (g : flag_e) :
    (validate_encoder_viable codec max_ref_frames autoselect).capabilities.get g =
      match g with
      | .VUI_PARAMETERS =>
        decide (Int.land max_ref_frames validate_flag_e.VUI_PARAMS ≠ 0) &&
          decide (Int.land autoselect validate_flag_e.VUI_PARAMS ≠ 0)
      | .NALU_PREFIX_5b =>
        decide (Int.land max_ref_frames validate_flag_e.NALU_PREFIX_5b ≠ 0) &&
          decide (Int.land autoselect validate_flag_e.NALU_PREFIX_5b ≠ 0)
      | .REF_FRAMES_RESTRICT => decide (max_ref_frames ≥ 0)
      | .REF_FRAMES_AUTOSELECT => decide (autoselect ≥ 0)
      | .PASSED => codec.capabilities.get .PASSED
      | .SLICE => codec.capabilities.get .SLICE
      | .DYNAMIC_RANGE => codec.capabilities.get .DYNAMIC_RANGE := by
  cases g <;> rfl

theorem validate_encoder_flag_some (video : video_cfg) (env_h264 env_hevc : probe_env)
    (encoder e : encoder_t) (flag : flag_e) (config : config_t)
    (h : validate_encoder_flag video env_h264 env_hevc encoder flag config = some e) :
    ∃ r, validate_config env_h264 video encoder { config with videoFormat := 0 } = some r ∧
      e.h264 = encoder.h264.assign flag (decide (r ≥ 0)) ∧
      e.flags = encoder.flags ∧
      (encoder.hevc.capabilities.get .PASSED = false → e.hevc = encoder.hevc) ∧
      (encoder.hevc.capabilities.get .PASSED = true →
        ∃ r1, validate_config env_hevc video
            { encoder with h264 := encoder.h264.assign flag (decide (r ≥ 0)) }
            { config with videoFormat := 1 } = some r1 ∧
          e.hevc = encoder.hevc.assign flag (decide (r1 ≥ 0))) := by
  unfold validate_encoder_flag at h
  simp only [Option.bind_eq_some] at h
  obtain ⟨r, hr, h⟩ := h
  refine ⟨r, hr, ?_⟩
  cases hp : encoder.hevc.capabilities.get .PASSED
  · simp only [hp, Bool.false_eq_true, if_false, Option.some.injEq] at h
    subst h
    simp
  · simp only [hp, if_true, Option.bind_eq_some, Option.some.injEq] at h
    obtain ⟨r1, hr1, h⟩ := h
    subst h
    exact ⟨rfl, rfl, by simp, fun _ => ⟨r1, hr1, rfl⟩⟩
theorem validate_encoder_hevc_some (video : video_cfg) (probes : probes_t)
    (encoder e : encoder_t)
    (h : validate_encoder_hevc video probes encoder = some (some e)) :
    e.h264 = encoder.h264 ∧ e.flags = encoder.flags ∧
    (test_hevc video encoder = false → e.hevc = encoder.hevc) ∧
    (test_hevc video encoder = true →
      ∃ max_ref_frames_hevc autoselect_hevc,
        validate_config probes.max_ref_frames_hevc video encoder
          { config_max_ref_frames with videoFormat := 1 } = some max_ref_frames_hevc ∧
        validate_config probes.autoselect_hevc video encoder
          { config_autoselect with videoFormat := 1 } = some autoselect_hevc ∧
        ¬ (force_hevc video = true ∧ max_ref_frames_hevc < 0 ∧ autoselect_hevc < 0) ∧
        e.hevc = (validate_encoder_viable encoder.hevc max_ref_frames_hevc
          autoselect_hevc).assign .PASSED
            (decide (max_ref_frames_hevc ≥ 0) || decide (autoselect_hevc ≥ 0))) := by
  unfold validate_encoder_hevc at h
  cases ht : test_hevc video encoder
  · simp only [ht, Bool.false_eq_true, if_false, Option.some.injEq] at h
    subst h
    simp
  · simp only [ht, if_true, Option.bind_eq_some] at h
    obtain ⟨a, ha, b, hb, h⟩ := h
    by_cases hf : force_hevc video = true ∧ a < 0 ∧ b < 0
    · rw [if_pos hf] at h
      simp at h
    · rw [if_neg hf] at h
      simp only [Option.some.injEq] at h
      subst h
      exact ⟨rfl, rfl, by simp, fun _ => ⟨a, b, ha, hb, hf, rfl⟩⟩

theorem validate_encoder_hevc_none (video : video_cfg) (probes : probes_t)
    (encoder : encoder_t)
    (h : validate_encoder_hevc video probes encoder = some none) :
    force_hevc video = true ∧
      ∃ max_ref_frames_hevc autoselect_hevc,
        validate_config probes.max_ref_frames_hevc video encoder
          { config_max_ref_frames with videoFormat := 1 } = some max_ref_frames_hevc ∧
        validate_config probes.autoselect_hevc video encoder
          { config_autoselect with videoFormat := 1 } = some autoselect_hevc ∧
        max_ref_frames_hevc < 0 ∧ autoselect_hevc < 0 := by
  unfold validate_encoder_hevc at h
  cases ht : test_hevc video encoder
  · simp [ht] at h
  · simp only [ht, if_true, Option.bind_eq_some] at h
    obtain ⟨a, ha, b, hb, h⟩ := h
    by_cases hf : force_hevc video = true ∧ a < 0 ∧ b < 0
    · exact ⟨hf.1, a, b, ha, hb, hf.2.1, hf.2.2⟩
    · rw [if_neg hf] at h
      simp at h

/-- What a run of `validate_encoder` that returns `true` has gone through. -/
theorem validate_encoder_true (force_video_header_replace : Bool) (video : video_cfg)
    (probes : probes_t) (encoder e : encoder_t)
    (h : validate_encoder force_video_header_replace video probes encoder = some (true, e)) :
    ∃ max_ref_frames_h264 autoselect_h264 slice encoder3 encoder4 encoder5,
      validate_config probes.max_ref_frames_h264 video (validate_encoder_reset video encoder)
        config_max_ref_frames = some max_ref_frames_h264 ∧
      validate_config probes.autoselect_h264 video (validate_encoder_reset video encoder)
        config_autoselect = some autoselect_h264 ∧
      ¬ (max_ref_frames_h264 < 0 ∧ autoselect_h264 < 0) ∧
      validate_config probes.h264_slice video
        (validate_encoder_h264 (validate_encoder_reset video encoder) max_ref_frames_h264
          autoselect_h264) config_max_ref_frames = some slice ∧
      validate_encoder_hevc video probes
        (validate_encoder_h264_slice
          (validate_encoder_h264 (validate_encoder_reset video encoder) max_ref_frames_h264
            autoselect_h264) slice) = some (some encoder3) ∧
      validate_encoder_flag video probes.dynamic_range_h264 probes.dynamic_range_hevc
        encoder3 .DYNAMIC_RANGE config_dynamic_range = some encoder4 ∧
      validate_encoder_flag video probes.slice_h264 probes.slice_hevc
        encoder4 .SLICE config_slice = some encoder5 ∧
      e = validate_encoder_replace force_video_header_replace encoder5 := by
  unfold validate_encoder at h
  simp only [Option.bind_eq_some] at h
  obtain ⟨a, ha, b, hb, h⟩ := h
  by_cases hf : a < 0 ∧ b < 0
  · rw [if_pos hf] at h
    simp at h
  · rw [if_neg hf] at h
    simp only [Option.bind_eq_some] at h
    obtain ⟨s, hs, hv, hhv, h⟩ := h
    cases hv with
    | none => simp at h
    | some e3 =>
      simp only [Option.bind_eq_some, Option.some.injEq, Prod.mk.injEq, true_and] at h
      obtain ⟨e4, h4, e5, h5, he⟩ := h
      exact ⟨a, b, s, e3, e4, e5, ha, hb, hf, hs, hhv, h4, h5, he.symm⟩
theorem test_hevc_flags (video : video_cfg) (a b : encoder_t) (h : a.flags = b.flags) :
    test_hevc video a = test_hevc video b := by
  unfold test_hevc
  rw [h]

/-- The H.264 capabilities that a run of `validate_encoder` returning `true`
leaves, in terms of the values returned by its probes. -/
theorem validate_encoder_true_h264 (force_video_header_replace : Bool) (video : video_cfg)
    (probes : probes_t) (encoder e : encoder_t)
    (h : validate_encoder force_video_header_replace video probes encoder = some (true, e)) :
    ∃ max_ref_frames_h264 autoselect_h264 slice encoder3 encoder4 r_dynamic_range r_slice,
      validate_config probes.max_ref_frames_h264 video (validate_encoder_reset video encoder)
        config_max_ref_frames = some max_ref_frames_h264 ∧
      validate_config probes.autoselect_h264 video (validate_encoder_reset video encoder)
        config_autoselect = some autoselect_h264 ∧
      ¬ (max_ref_frames_h264 < 0 ∧ autoselect_h264 < 0) ∧
      validate_config probes.h264_slice video
        (validate_encoder_h264 (validate_encoder_reset video encoder) max_ref_frames_h264
          autoselect_h264) config_max_ref_frames = some slice ∧
      validate_encoder_hevc video probes
        (validate_encoder_h264_slice
          (validate_encoder_h264 (validate_encoder_reset video encoder) max_ref_frames_h264
            autoselect_h264) slice) = some (some encoder3) ∧
      validate_config probes.dynamic_range_h264 video encoder3
        { config_dynamic_range with videoFormat := 0 } = some r_dynamic_range ∧
      validate_encoder_flag video probes.dynamic_range_h264 probes.dynamic_range_hevc
        encoder3 .DYNAMIC_RANGE config_dynamic_range = some encoder4 ∧
      validate_config probes.slice_h264 video encoder4
        { config_slice with videoFormat := 0 } = some r_slice ∧
      e.h264.capabilities =
        { passed := true
          ref_frames_restrict := decide (max_ref_frames_h264 ≥ 0)
          ref_frames_autoselect := decide (autoselect_h264 ≥ 0)
          slice := decide (r_slice ≥ 0)
          dynamic_range := decide (r_dynamic_range ≥ 0)
          vui_parameters :=
            (decide (Int.land max_ref_frames_h264 validate_flag_e.VUI_PARAMS ≠ 0) &&
              decide (Int.land autoselect_h264 validate_flag_e.VUI_PARAMS ≠ 0)) &&
            !force_video_header_replace
          nalu_prefix_5b :=
            decide (Int.land max_ref_frames_h264 validate_flag_e.NALU_PREFIX_5b ≠ 0) &&
              decide (Int.land autoselect_h264 validate_flag_e.NALU_PREFIX_5b ≠ 0) } := by
  obtain ⟨a, b, s, e3, e4, e5, ha, hb, hf, hs, h3, h4, h5, he⟩ :=
    validate_encoder_true force_video_header_replace video probes encoder e h
  obtain ⟨h3h, -, -, -⟩ := validate_encoder_hevc_some video probes _ e3 h3
  obtain ⟨rd, hrd, h4h, -, -, -⟩ := validate_encoder_flag_some video _ _ e3 e4 _ _ h4
  obtain ⟨rs, hrs, h5h, -, -, -⟩ := validate_encoder_flag_some video _ _ e4 e5 _ _ h5
  refine ⟨a, b, s, e3, e4, rd, rs, ha, hb, hf, hs, h3, hrd, h4, hrs, ?_⟩
  rw [he]
  show ((e5.h264.assign _ _).capabilities) = _
  rw [h5h, h4h, h3h]
  rfl
/-- The HEVC capabilities that a run of `validate_encoder` returning `true`
leaves, in terms of the values returned by its probes. -/
theorem validate_encoder_true_hevc (force_video_header_replace : Bool) (video : video_cfg)
    (probes : probes_t) (encoder e : encoder_t)
    (h : validate_encoder force_video_header_replace video probes encoder = some (true, e)) :
    ∃ max_ref_frames_h264 autoselect_h264 slice encoder3 encoder4 r_dynamic_range r_slice,
      validate_config probes.max_ref_frames_h264 video (validate_encoder_reset video encoder)
        config_max_ref_frames = some max_ref_frames_h264 ∧
      validate_config probes.autoselect_h264 video (validate_encoder_reset video encoder)
        config_autoselect = some autoselect_h264 ∧
      validate_config probes.h264_slice video
        (validate_encoder_h264 (validate_encoder_reset video encoder) max_ref_frames_h264
          autoselect_h264) config_max_ref_frames = some slice ∧
      validate_encoder_hevc video probes
        (validate_encoder_h264_slice
          (validate_encoder_h264 (validate_encoder_reset video encoder) max_ref_frames_h264
            autoselect_h264) slice) = some (some encoder3) ∧
      validate_config probes.dynamic_range_h264 video encoder3
        { config_dynamic_range with videoFormat := 0 } = some r_dynamic_range ∧
      validate_encoder_flag video probes.dynamic_range_h264 probes.dynamic_range_hevc
        encoder3 .DYNAMIC_RANGE config_dynamic_range = some encoder4 ∧
      validate_config probes.slice_h264 video encoder4
        { config_slice with videoFormat := 0 } = some r_slice ∧
      (test_hevc video encoder = false →
        e.hevc.capabilities =
          { passed := false, ref_frames_restrict := true, ref_frames_autoselect := true,
            slice := true, dynamic_range := true,
            vui_parameters := !force_video_header_replace, nalu_prefix_5b := true }) ∧
      (test_hevc video encoder = true →
        ∃ max_ref_frames_hevc autoselect_hevc,
          validate_config probes.max_ref_frames_hevc video
            (validate_encoder_h264_slice
              (validate_encoder_h264 (validate_encoder_reset video encoder)
                max_ref_frames_h264 autoselect_h264) slice)
            { config_max_ref_frames with videoFormat := 1 } = some max_ref_frames_hevc ∧
          validate_config probes.autoselect_hevc video
            (validate_encoder_h264_slice
              (validate_encoder_h264 (validate_encoder_reset video encoder)
                max_ref_frames_h264 autoselect_h264) slice)
            { config_autoselect with videoFormat := 1 } = some autoselect_hevc ∧
          ¬ (force_hevc video = true ∧ max_ref_frames_hevc < 0 ∧ autoselect_hevc < 0) ∧
          e.hevc.capabilities.passed =
            (decide (max_ref_frames_hevc ≥ 0) || decide (autoselect_hevc ≥ 0)) ∧
          e.hevc.capabilities.ref_frames_restrict = decide (max_ref_frames_hevc ≥ 0) ∧
          e.hevc.capabilities.ref_frames_autoselect = decide (autoselect_hevc ≥ 0) ∧
          e.hevc.capabilities.vui_parameters =
            ((decide (Int.land max_ref_frames_hevc validate_flag_e.VUI_PARAMS ≠ 0) &&
              decide (Int.land autoselect_hevc validate_flag_e.VUI_PARAMS ≠ 0)) &&
            !force_video_header_replace) ∧
          e.hevc.capabilities.nalu_prefix_5b =
            (decide (Int.land max_ref_frames_hevc validate_flag_e.NALU_PREFIX_5b ≠ 0) &&
              decide (Int.land autoselect_hevc validate_flag_e.NALU_PREFIX_5b ≠ 0)) ∧
          (e.hevc.capabilities.passed = false →
            e.hevc.capabilities.dynamic_range = true ∧ e.hevc.capabilities.slice = true) ∧
          (e.hevc.capabilities.passed = true →
            ∃ r_dynamic_range_hevc r_slice_hevc,
              validate_config probes.dynamic_range_hevc video
                { encoder3 with
                  h264 := encoder3.h264.assign .DYNAMIC_RANGE (decide (r_dynamic_range ≥ 0)) }
                { config_dynamic_range with videoFormat := 1 } = some r_dynamic_range_hevc ∧
              validate_config probes.slice_hevc video
                { encoder4 with h264 := encoder4.h264.assign .SLICE (decide (r_slice ≥ 0)) }
                { config_slice with videoFormat := 1 } = some r_slice_hevc ∧
              e.hevc.capabilities.dynamic_range = decide (r_dynamic_range_hevc ≥ 0) ∧
              e.hevc.capabilities.slice = decide (r_slice_hevc ≥ 0))) := by
  obtain ⟨a, b, s, e3, e4, e5, ha, hb, hf, hs, h3, h4, h5, he⟩ :=
    validate_encoder_true force_video_header_replace video probes encoder e h
  obtain ⟨-, -, h3n, h3y⟩ := validate_encoder_hevc_some video probes _ e3 h3
  obtain ⟨rd, hrd, -, -, h4n, h4y⟩ := validate_encoder_flag_some video _ _ e3 e4 _ _ h4
  obtain ⟨rs, hrs, -, -, h5n, h5y⟩ := validate_encoder_flag_some video _ _ e4 e5 _ _ h5
  have hte : test_hevc video (validate_encoder_h264_slice
      (validate_encoder_h264 (validate_encoder_reset video encoder) a b) s) =
      test_hevc video encoder := test_hevc_flags video _ _ rfl
  rw [hte] at h3n h3y
  have hehevc : e.hevc = e5.hevc.assign .VUI_PARAMETERS
      (e5.hevc.capabilities.get .VUI_PARAMETERS && !force_video_header_replace) := by
    rw [he]
    rfl
  refine ⟨a, b, s, e3, e4, rd, rs, ha, hb, hs, h3, hrd, h4, hrs, ?_, ?_⟩
  · intro ht
    have h3e := h3n ht
    have hp3 : e3.hevc.capabilities.get .PASSED = false := by
      rw [h3e]
      show (((_ : codec_t).assign .PASSED (test_hevc video encoder)).capabilities.get .PASSED) = _
      rw [codec_get_assign, if_pos rfl, ht]
    have h4e := h4n hp3
    have hp4 : e4.hevc.capabilities.get .PASSED = false := by rw [h4e]; exact hp3
    have h5e := h5n hp4
    rw [hehevc, h5e, h4e, h3e]
    show (((_ : codec_t).assign .PASSED (test_hevc video encoder)).assign _ _).capabilities = _
    rw [ht]
    rfl
  · intro ht
    obtain ⟨mh, ah, hmh, hah, hnf, h3e⟩ := h3y ht
    refine ⟨mh, ah, hmh, hah, hnf, ?_⟩
    cases hp : (decide (mh ≥ 0) || decide (ah ≥ 0))
    · have hp3 : e3.hevc.capabilities.get .PASSED = false := by
        rw [h3e, codec_get_assign, if_pos rfl, hp]
      have h4e := h4n hp3
      have hp4 : e4.hevc.capabilities.get .PASSED = false := by rw [h4e]; exact hp3
      have h5e := h5n hp4
      have hcaps : e.hevc.capabilities =
          { passed := false
            ref_frames_restrict := decide (mh ≥ 0)
            ref_frames_autoselect := decide (ah ≥ 0)
            slice := true
            dynamic_range := true
            vui_parameters :=
              (decide (Int.land mh validate_flag_e.VUI_PARAMS ≠ 0) &&
                decide (Int.land ah validate_flag_e.VUI_PARAMS ≠ 0)) &&
              !force_video_header_replace
            nalu_prefix_5b :=
              decide (Int.land mh validate_flag_e.NALU_PREFIX_5b ≠ 0) &&
                decide (Int.land ah validate_flag_e.NALU_PREFIX_5b ≠ 0) } := by
        rw [hehevc, h5e, h4e, h3e, hp]
        rfl
      rw [hcaps]
      refine ⟨rfl, rfl, rfl, rfl, rfl, fun _ => ⟨rfl, rfl⟩, fun hc => ?_⟩
      cases hc
    · have hp3 : e3.hevc.capabilities.get .PASSED = true := by
        rw [h3e, codec_get_assign, if_pos rfl, hp]
      obtain ⟨rdh, hrdh, h4e⟩ := h4y hp3
      have hp4 : e4.hevc.capabilities.get .PASSED = true := by
        rw [h4e, codec_get_assign, if_neg (by decide)]
        exact hp3
      obtain ⟨rsh, hrsh, h5e⟩ := h5y hp4
      have hcaps : e.hevc.capabilities =
          { passed := true
            ref_frames_restrict := decide (mh ≥ 0)
            ref_frames_autoselect := decide (ah ≥ 0)
            slice := decide (rsh ≥ 0)
            dynamic_range := decide (rdh ≥ 0)
            vui_parameters :=
              (decide (Int.land mh validate_flag_e.VUI_PARAMS ≠ 0) &&
                decide (Int.land ah validate_flag_e.VUI_PARAMS ≠ 0)) &&
              !force_video_header_replace
            nalu_prefix_5b :=
              decide (Int.land mh validate_flag_e.NALU_PREFIX_5b ≠ 0) &&
                decide (Int.land ah validate_flag_e.NALU_PREFIX_5b ≠ 0) } := by
        rw [hehevc, h5e, h4e, h3e, hp]
        rfl
      rw [hcaps]
      refine ⟨rfl, rfl, rfl, rfl, rfl, fun hc => ?_, fun _ => ⟨rdh, rsh, hrdh, hrsh, rfl, rfl⟩⟩
      cases hc

/-- C12: whenever `validate_encoder` returns `true`, the H.264 capability
`REF_FRAMES_RESTRICT` is (the probe of line 1478 returned `>= 0`) and
`REF_FRAMES_AUTOSELECT` is (the probe of line 1479 returned `>= 0`); when
HEVC is probed (`test_hevc`), the HEVC capabilities are the same comparisons
on the values of the probes of lines 1503 and 1504. -/
theorem validate_encoder_ref_frames (force_video_header_replace : Bool) (video : video_cfg)
    (probes : probes_t) (encoder e : encoder_t)
    (h : validate_encoder force_video_header_replace video probes encoder = some (true, e)) :
    ∃ max_ref_frames_h264 autoselect_h264 slice,
      validate_config probes.max_ref_frames_h264 video (validate_encoder_reset video encoder)
        config_max_ref_frames = some max_ref_frames_h264 ∧
      validate_config probes.autoselect_h264 video (validate_encoder_reset video encoder)
        config_autoselect = some autoselect_h264 ∧
      validate_config probes.h264_slice video
        (validate_encoder_h264 (validate_encoder_reset video encoder) max_ref_frames_h264
          autoselect_h264) config_max_ref_frames = some slice ∧
      e.h264.capabilities.get .REF_FRAMES_RESTRICT = decide (max_ref_frames_h264 ≥ 0) ∧
      e.h264.capabilities.get .REF_FRAMES_AUTOSELECT = decide (autoselect_h264 ≥ 0) ∧
      (test_hevc video encoder = true →
        ∃ max_ref_frames_hevc autoselect_hevc,
          validate_config probes.max_ref_frames_hevc video
            (validate_encoder_h264_slice
              (validate_encoder_h264 (validate_encoder_reset video encoder)
                max_ref_frames_h264 autoselect_h264) slice)
            { config_max_ref_frames with videoFormat := 1 } = some max_ref_frames_hevc ∧
          validate_config probes.autoselect_hevc video
            (validate_encoder_h264_slice
              (validate_encoder_h264 (validate_encoder_reset video encoder)
                max_ref_frames_h264 autoselect_h264) slice)
            { config_autoselect with videoFormat := 1 } = some autoselect_hevc ∧
          e.hevc.capabilities.get .REF_FRAMES_RESTRICT = decide (max_ref_frames_hevc ≥ 0) ∧
          e.hevc.capabilities.get .REF_FRAMES_AUTOSELECT = decide (autoselect_hevc ≥ 0)) := by
  obtain ⟨a, b, s, e3, e4, rd, rs, ha, hb, hf, hs, h3, hrd, h4, hrs, hcaps⟩ :=
    validate_encoder_true_h264 force_video_header_replace video probes encoder e h
  obtain ⟨a', b', s', e3', e4', rd', rs', ha', hb', hs', h3', hrd', h4', hrs', -, hy⟩ :=
    validate_encoder_true_hevc force_video_header_replace video probes encoder e h
  have ea : a' = a := Option.some.inj (ha'.symm.trans ha)
  have eb : b' = b := Option.some.inj (hb'.symm.trans hb)
  subst ea eb
  have es : s' = s := Option.some.inj (hs'.symm.trans hs)
  subst es
  refine ⟨a', b', s', ha, hb, hs, ?_, ?_, ?_⟩
  · show e.h264.capabilities.ref_frames_restrict = _
    rw [hcaps]
  · show e.h264.capabilities.ref_frames_autoselect = _
    rw [hcaps]
  · intro ht
    obtain ⟨mh, ah, hmh, hah, -, -, hrr, hra, -, -, -, -⟩ := hy ht
    exact ⟨mh, ah, hmh, hah, hrr, hra⟩

theorem validate_encoder_ref_frames_witness :
    validate_encoder false video_qp probes_ok (vaapi caps_none caps_none) =
      some (true, validated false video_qp probes_ok (vaapi caps_none caps_none)) ∧
    ∃ max_ref_frames_h264 autoselect_h264 slice,
      validate_config probes_ok.max_ref_frames_h264 video_qp
        (validate_encoder_reset video_qp (vaapi caps_none caps_none))
        config_max_ref_frames = some max_ref_frames_h264 ∧
      validate_config probes_ok.autoselect_h264 video_qp
        (validate_encoder_reset video_qp (vaapi caps_none caps_none))
        config_autoselect = some autoselect_h264 ∧
      validate_config probes_ok.h264_slice video_qp
        (validate_encoder_h264 (validate_encoder_reset video_qp (vaapi caps_none caps_none))
          max_ref_frames_h264 autoselect_h264) config_max_ref_frames = some slice ∧
      (validated false video_qp probes_ok
        (vaapi caps_none caps_none)).h264.capabilities.get .REF_FRAMES_RESTRICT
          = decide (max_ref_frames_h264 ≥ 0) ∧
      (validated false video_qp probes_ok
        (vaapi caps_none caps_none)).h264.capabilities.get .REF_FRAMES_AUTOSELECT
          = decide (autoselect_h264 ≥ 0) ∧
      (test_hevc video_qp (vaapi caps_none caps_none) = true →
        ∃ max_ref_frames_hevc autoselect_hevc,
          validate_config probes_ok.max_ref_frames_hevc video_qp
            (validate_encoder_h264_slice
              (validate_encoder_h264 (validate_encoder_reset video_qp (vaapi caps_none caps_none))
                max_ref_frames_h264 autoselect_h264) slice)
            { config_max_ref_frames with videoFormat := 1 } = some max_ref_frames_hevc ∧
          validate_config probes_ok.autoselect_hevc video_qp
            (validate_encoder_h264_slice
              (validate_encoder_h264 (validate_encoder_reset video_qp (vaapi caps_none caps_none))
                max_ref_frames_h264 autoselect_h264) slice)
            { config_autoselect with videoFormat := 1 } = some autoselect_hevc ∧
          (validated false video_qp probes_ok
            (vaapi caps_none caps_none)).hevc.capabilities.get .REF_FRAMES_RESTRICT
              = decide (max_ref_frames_hevc ≥ 0) ∧
          (validated false video_qp probes_ok
            (vaapi caps_none caps_none)).hevc.capabilities.get .REF_FRAMES_AUTOSELECT
              = decide (autoselect_hevc ≥ 0)) :=
  ⟨rfl, validate_encoder_ref_frames false video_qp probes_ok
    (vaapi caps_none caps_none) _ rfl⟩
/-- C13: whenever `validate_encoder` returns `true` with
`FORCE_VIDEO_HEADER_REPLACE` off, the H.264 capability `VUI_PARAMETERS` is set
exactly when the values of the probes of lines 1478 and 1479 both have the bit
`VUI_PARAMS = 0x01`, and `NALU_PREFIX_5b` exactly when both have the bit
`NALU_PREFIX_5b = 0x02`; when HEVC is probed the same holds for the HEVC
capabilities and the probes of lines 1503 and 1504. -/
theorem validate_encoder_deficiencies (video : video_cfg) (probes : probes_t)
    (encoder e : encoder_t)
    (h : validate_encoder false video probes encoder = some (true, e)) :
    validate_flag_e.VUI_PARAMS = 0x01 ∧ validate_flag_e.NALU_PREFIX_5b = 0x02 ∧
    ∃ max_ref_frames_h264 autoselect_h264 slice,
      validate_config probes.max_ref_frames_h264 video (validate_encoder_reset video encoder)
        config_max_ref_frames = some max_ref_frames_h264 ∧
      validate_config probes.autoselect_h264 video (validate_encoder_reset video encoder)
        config_autoselect = some autoselect_h264 ∧
      validate_config probes.h264_slice video
        (validate_encoder_h264 (validate_encoder_reset video encoder) max_ref_frames_h264
          autoselect_h264) config_max_ref_frames = some slice ∧
      (e.h264.capabilities.get .VUI_PARAMETERS = true ↔
        (Int.land max_ref_frames_h264 validate_flag_e.VUI_PARAMS ≠ 0 ∧
          Int.land autoselect_h264 validate_flag_e.VUI_PARAMS ≠ 0)) ∧
      (e.h264.capabilities.get .NALU_PREFIX_5b = true ↔
        (Int.land max_ref_frames_h264 validate_flag_e.NALU_PREFIX_5b ≠ 0 ∧
          Int.land autoselect_h264 validate_flag_e.NALU_PREFIX_5b ≠ 0)) ∧
      (test_hevc video encoder = true →
        ∃ max_ref_frames_hevc autoselect_hevc,
          validate_config probes.max_ref_frames_hevc video
            (validate_encoder_h264_slice
              (validate_encoder_h264 (validate_encoder_reset video encoder)
                max_ref_frames_h264 autoselect_h264) slice)
            { config_max_ref_frames with videoFormat := 1 } = some max_ref_frames_hevc ∧
          validate_config probes.autoselect_hevc video
            (validate_encoder_h264_slice
              (validate_encoder_h264 (validate_encoder_reset video encoder)
                max_ref_frames_h264 autoselect_h264) slice)
            { config_autoselect with videoFormat := 1 } = some autoselect_hevc ∧
          (e.hevc.capabilities.get .VUI_PARAMETERS = true ↔
            (Int.land max_ref_frames_hevc validate_flag_e.VUI_PARAMS ≠ 0 ∧
              Int.land autoselect_hevc validate_flag_e.VUI_PARAMS ≠ 0)) ∧
          (e.hevc.capabilities.get .NALU_PREFIX_5b = true ↔
            (Int.land max_ref_frames_hevc validate_flag_e.NALU_PREFIX_5b ≠ 0 ∧
              Int.land autoselect_hevc validate_flag_e.NALU_PREFIX_5b ≠ 0))) := by
  obtain ⟨a, b, s, e3, e4, rd, rs, ha, hb, hf, hs, h3, hrd, h4, hrs, hcaps⟩ :=
    validate_encoder_true_h264 false video probes encoder e h
  obtain ⟨a', b', s', e3', e4', rd', rs', ha', hb', hs', h3', hrd', h4', hrs', -, hy⟩ :=
    validate_encoder_true_hevc false video probes encoder e h
  have ea : a' = a := Option.some.inj (ha'.symm.trans ha)
  have eb : b' = b := Option.some.inj (hb'.symm.trans hb)
  subst ea eb
  have es : s' = s := Option.some.inj (hs'.symm.trans hs)
  subst es
  refine ⟨rfl, rfl, a', b', s', ha, hb, hs, ?_, ?_, ?_⟩
  · show e.h264.capabilities.vui_parameters = true ↔ _
    rw [hcaps]
    simp
  · show e.h264.capabilities.nalu_prefix_5b = true ↔ _
    rw [hcaps]
    simp
  · intro ht
    obtain ⟨mh, ah, hmh, hah, -, -, -, -, hvui, hnalu, -, -⟩ := hy ht
    refine ⟨mh, ah, hmh, hah, ?_, ?_⟩
    · show e.hevc.capabilities.vui_parameters = true ↔ _
      rw [hvui]
      simp
    · show e.hevc.capabilities.nalu_prefix_5b = true ↔ _
      rw [hnalu]
      simp

theorem validate_encoder_deficiencies_witness :
    validate_encoder false video_qp probes_ok (vaapi caps_none caps_none) =
      some (true, validated false video_qp probes_ok (vaapi caps_none caps_none)) ∧
    validate_config probes_ok.max_ref_frames_h264 video_qp
      (validate_encoder_reset video_qp (vaapi caps_none caps_none)) config_max_ref_frames
        = some 3 ∧
    (validated false video_qp probes_ok (vaapi caps_none caps_none)).h264.capabilities.get
      .NALU_PREFIX_5b = true ∧
    (validated false video_qp probes_ok (vaapi caps_none caps_none)).hevc.capabilities.get
      .NALU_PREFIX_5b = false ∧
    validate_flag_e.VUI_PARAMS = 0x01 :=
  ⟨rfl, rfl, rfl, rfl,
   (validate_encoder_deficiencies video_qp probes_ok (vaapi caps_none caps_none) _ rfl).1⟩
/-- C14: whenever `validate_encoder` returns `true`, the final H.264 capability
`SLICE` is (the probe of the `SLICE` round, run with `slicesPerFrame = 2`,
returned `>= 0`) and the final H.264 capability `DYNAMIC_RANGE` is (the probe
of the `DYNAMIC_RANGE` round, run with `dynamicRange = 1`, returned `>= 0`),
whatever value `slice` the probe of line 1498 returned, which the assignment
of that line stored as `slice ≠ 0`; when HEVC has `PASSED` the same holds for
the HEVC capabilities and the HEVC probes of the two rounds. -/
theorem validate_encoder_slice_dynamic_range (force_video_header_replace : Bool)
    (video : video_cfg) (probes : probes_t) (encoder e : encoder_t)
    (h : validate_encoder force_video_header_replace video probes encoder = some (true, e)) :
    config_slice.slicesPerFrame = 2 ∧ config_dynamic_range.dynamicRange = 1 ∧
    ∃ max_ref_frames_h264 autoselect_h264 slice encoder3 encoder4 r_dynamic_range r_slice,
      validate_config probes.h264_slice video
        (validate_encoder_h264 (validate_encoder_reset video encoder) max_ref_frames_h264
          autoselect_h264) config_max_ref_frames = some slice ∧
      (validate_encoder_h264_slice
        (validate_encoder_h264 (validate_encoder_reset video encoder) max_ref_frames_h264
          autoselect_h264) slice).h264.capabilities.get .SLICE = decide (slice ≠ 0) ∧
      validate_encoder_hevc video probes
        (validate_encoder_h264_slice
          (validate_encoder_h264 (validate_encoder_reset video encoder) max_ref_frames_h264
            autoselect_h264) slice) = some (some encoder3) ∧
      validate_config probes.dynamic_range_h264 video encoder3
        { config_dynamic_range with videoFormat := 0 } = some r_dynamic_range ∧
      validate_encoder_flag video probes.dynamic_range_h264 probes.dynamic_range_hevc
        encoder3 .DYNAMIC_RANGE config_dynamic_range = some encoder4 ∧
      validate_config probes.slice_h264 video encoder4
        { config_slice with videoFormat := 0 } = some r_slice ∧
      e.h264.capabilities.get .SLICE = decide (r_slice ≥ 0) ∧
      e.h264.capabilities.get .DYNAMIC_RANGE = decide (r_dynamic_range ≥ 0) ∧
      (e.hevc.capabilities.get .PASSED = true →
        ∃ r_dynamic_range_hevc r_slice_hevc,
          validate_config probes.dynamic_range_hevc video
            { encoder3 with
              h264 := encoder3.h264.assign .DYNAMIC_RANGE (decide (r_dynamic_range ≥ 0)) }
            { config_dynamic_range with videoFormat := 1 } = some r_dynamic_range_hevc ∧
          validate_config probes.slice_hevc video
            { encoder4 with h264 := encoder4.h264.assign .SLICE (decide (r_slice ≥ 0)) }
            { config_slice with videoFormat := 1 } = some r_slice_hevc ∧
          e.hevc.capabilities.get .SLICE = decide (r_slice_hevc ≥ 0) ∧
          e.hevc.capabilities.get .DYNAMIC_RANGE = decide (r_dynamic_range_hevc ≥ 0)) := by
  obtain ⟨a, b, s, e3, e4, rd, rs, ha, hb, hf, hs, h3, hrd, h4, hrs, hcaps⟩ :=
    validate_encoder_true_h264 force_video_header_replace video probes encoder e h
  obtain ⟨a', b', s', e3', e4', rd', rs', ha', hb', hs', h3', hrd', h4', hrs', hn, hy⟩ :=
    validate_encoder_true_hevc force_video_header_replace video probes encoder e h
  have ea : a' = a := Option.some.inj (ha'.symm.trans ha)
  have eb : b' = b := Option.some.inj (hb'.symm.trans hb)
  subst ea eb
  have es : s' = s := Option.some.inj (hs'.symm.trans hs)
  subst es
  have e3e : e3' = e3 := Option.some.inj (Option.some.inj (h3'.symm.trans h3))
  subst e3e
  have erd : rd' = rd := Option.some.inj (hrd'.symm.trans hrd)
  subst erd
  have e4e : e4' = e4 := Option.some.inj (h4'.symm.trans h4)
  subst e4e
  have ers : rs' = rs := Option.some.inj (hrs'.symm.trans hrs)
  subst ers
  refine ⟨rfl, rfl, a', b', s', e3', e4', rd', rs', hs, rfl, h3, hrd, h4, hrs, ?_, ?_, ?_⟩
  · show e.h264.capabilities.slice = _
    rw [hcaps]
  · show e.h264.capabilities.dynamic_range = _
    rw [hcaps]
  · intro hp
    cases ht : test_hevc video encoder
    · have hc := hn ht
      have : e.hevc.capabilities.get .PASSED = false := by
        show e.hevc.capabilities.passed = false
        rw [hc]
      rw [this] at hp
      cases hp
    · obtain ⟨mh, ah, -, -, -, -, -, -, -, -, -, hpy⟩ := hy ht
      obtain ⟨rdh, rsh, hrdh, hrsh, hdr, hsl⟩ := hpy hp
      exact ⟨rdh, rsh, hrdh, hrsh, hsl, hdr⟩

theorem validate_encoder_slice_dynamic_range_witness :
    validate_encoder false video_qp probes_ok (vaapi caps_none caps_none) =
      some (true, validated false video_qp probes_ok (vaapi caps_none caps_none)) ∧
    (validated false video_qp probes_ok (vaapi caps_none caps_none)).h264.capabilities.get
      .SLICE = true ∧
    (validated false video_qp probes_ok (vaapi caps_none caps_none)).hevc.capabilities.get
      .PASSED = true ∧
    config_slice.slicesPerFrame = 2 :=
  ⟨rfl, rfl, rfl,
   (validate_encoder_slice_dynamic_range false video_qp probes_ok (vaapi caps_none caps_none)
      _ rfl).1⟩

/-- C15: with `FORCE_VIDEO_HEADER_REPLACE` set, every run of `validate_encoder`
that returns `true` leaves `VUI_PARAMETERS` clear for H.264 and for HEVC,
whatever the probes return, and every session that `make_session` then builds
from the descriptor for `videoFormat` 0 or 1 has `inject = 1 + videoFormat`,
which is not 0. -/
theorem validate_encoder_force_replace (video : video_cfg) (probes : probes_t)
    (encoder e : encoder_t)
    (h : validate_encoder true video probes encoder = some (true, e)) :
    e.h264.capabilities.get .VUI_PARAMETERS = false ∧
    e.hevc.capabilities.get .VUI_PARAMETERS = false ∧
    ∀ (av : av_env) (video1 : video_cfg) (config : config_t) (width height : Int)
      (hwdevice_data : Bool) (s : session_t),
      (config.videoFormat = 0 ∨ config.videoFormat = 1) →
      (make_session av video1 e config width height hwdevice_data).session = some s →
      s.inject = 1 + config.videoFormat ∧ s.inject ≠ 0 := by
  obtain ⟨a, b, s, e3, e4, rd, rs, ha, hb, hf, hs, h3, hrd, h4, hrs, hcaps⟩ :=
    validate_encoder_true_h264 true video probes encoder e h
  obtain ⟨a', b', s', e3', e4', rd', rs', ha', hb', hs', h3', hrd', h4', hrs', hn, hy⟩ :=
    validate_encoder_true_hevc true video probes encoder e h
  have h1 : e.h264.capabilities.get .VUI_PARAMETERS = false := by
    show e.h264.capabilities.vui_parameters = false
    rw [hcaps]
    simp
  have h2 : e.hevc.capabilities.get .VUI_PARAMETERS = false := by
    show e.hevc.capabilities.vui_parameters = false
    cases ht : test_hevc video encoder
    · rw [hn ht]
      rfl
    · obtain ⟨mh, ah, -, -, -, -, -, -, hvui, -, -, -⟩ := hy ht
      rw [hvui]
      simp
  refine ⟨h1, h2, ?_⟩
  intro av video1 config width height hwdevice_data s hvf hs
  obtain ⟨ctx1, calls2, options, -, -, hinj, -⟩ :=
    make_session_some av video1 e config width height hwdevice_data s hs
  unfold video_format at hinj
  rw [hinj]
  rcases hvf with hv | hv
  · simp [hv, h1, b2i, wrap32]
  · simp [hv, h2, b2i, wrap32]

theorem validate_encoder_force_replace_witness :
    validate_encoder true video_qp probes_ok (vaapi caps_none caps_none) =
      some (true, validated true video_qp probes_ok (vaapi caps_none caps_none)) ∧
    (make_session av_ok video_qp (validated true video_qp probes_ok (vaapi caps_none caps_none))
      (config_1080p60 1000 1 0) 1920 1080 true).session =
      some ((make_session av_ok video_qp
        (validated true video_qp probes_ok (vaapi caps_none caps_none))
        (config_1080p60 1000 1 0) 1920 1080 true).session.getD session_zero) ∧
    ((make_session av_ok video_qp
        (validated true video_qp probes_ok (vaapi caps_none caps_none))
        (config_1080p60 1000 1 0) 1920 1080 true).session.getD session_zero).inject = 2 :=
  ⟨rfl, rfl,
   ((validate_encoder_force_replace video_qp probes_ok (vaapi caps_none caps_none) _ rfl).2.2
      av_ok video_qp (config_1080p60 1000 1 0) 1920 1080 true _ (Or.inr rfl) rfl).1⟩

/-- C17: whenever `validate_encoder` returns `true`, H.264 has `PASSED`, and
HEVC has `PASSED` exactly when HEVC was tested and one of the probes of lines
1503 and 1504 returned `>= 0`. HEVC is tested exactly when `hevc_mode >= 2`,
or `hevc_mode = 0` and the encoder lacks `H264_ONLY`; so HEVC `PASSED` is
clear for `hevc_mode = 1` and for an `H264_ONLY` encoder under
`hevc_mode = 0`. -/
theorem validate_encoder_passed (force_video_header_replace : Bool) (video : video_cfg)
    (probes : probes_t) (encoder e : encoder_t)
    (h : validate_encoder force_video_header_replace video probes encoder = some (true, e)) :
    e.h264.capabilities.get .PASSED = true ∧
    (test_hevc video encoder = true ↔
      (video.hevc_mode ≥ 2 ∨ (video.hevc_mode = 0 ∧ Int.land encoder.flags H264_ONLY = 0))) ∧
    (test_hevc video encoder = false → e.hevc.capabilities.get .PASSED = false) ∧
    (video.hevc_mode = 1 → e.hevc.capabilities.get .PASSED = false) ∧
    (video.hevc_mode = 0 → Int.land encoder.flags H264_ONLY ≠ 0 →
      e.hevc.capabilities.get .PASSED = false) ∧
    (test_hevc video encoder = true →
      ∃ max_ref_frames_h264 autoselect_h264 slice max_ref_frames_hevc autoselect_hevc,
        validate_config probes.max_ref_frames_h264 video (validate_encoder_reset video encoder)
          config_max_ref_frames = some max_ref_frames_h264 ∧
        validate_config probes.autoselect_h264 video (validate_encoder_reset video encoder)
          config_autoselect = some autoselect_h264 ∧
        validate_config probes.h264_slice video
          (validate_encoder_h264 (validate_encoder_reset video encoder) max_ref_frames_h264
            autoselect_h264) config_max_ref_frames = some slice ∧
        validate_config probes.max_ref_frames_hevc video
          (validate_encoder_h264_slice
            (validate_encoder_h264 (validate_encoder_reset video encoder)
              max_ref_frames_h264 autoselect_h264) slice)
          { config_max_ref_frames with videoFormat := 1 } = some max_ref_frames_hevc ∧
        validate_config probes.autoselect_hevc video
          (validate_encoder_h264_slice
            (validate_encoder_h264 (validate_encoder_reset video encoder)
              max_ref_frames_h264 autoselect_h264) slice)
          { config_autoselect with videoFormat := 1 } = some autoselect_hevc ∧
        (e.hevc.capabilities.get .PASSED = true ↔
          (max_ref_frames_hevc ≥ 0 ∨ autoselect_hevc ≥ 0))) := by
  obtain ⟨a, b, s, e3, e4, rd, rs, ha, hb, hf, hs, h3, hrd, h4, hrs, hcaps⟩ :=
    validate_encoder_true_h264 force_video_header_replace video probes encoder e h
  obtain ⟨a', b', s', e3', e4', rd', rs', ha', hb', hs', h3', hrd', h4', hrs', hn, hy⟩ :=
    validate_encoder_true_hevc force_video_header_replace video probes encoder e h
  have htest : test_hevc video encoder = true ↔
      (video.hevc_mode ≥ 2 ∨ (video.hevc_mode = 0 ∧ Int.land encoder.flags H264_ONLY = 0)) := by
    simp [test_hevc, force_hevc]
  have hfalse : test_hevc video encoder = false → e.hevc.capabilities.get .PASSED = false := by
    intro ht
    show e.hevc.capabilities.passed = false
    rw [hn ht]
  refine ⟨?_, htest, hfalse, ?_, ?_, ?_⟩
  · show e.h264.capabilities.passed = true
    rw [hcaps]
  · intro h1
    apply hfalse
    cases ht : test_hevc video encoder
    · rfl
    · rcases htest.mp ht with h2 | h2 <;> omega
  · intro h0 hf1
    apply hfalse
    cases ht : test_hevc video encoder
    · rfl
    · rcases htest.mp ht with h2 | h2
      · omega
      · exact absurd h2.2 hf1
  · intro ht
    obtain ⟨mh, ah, hmh, hah, -, hp, -, -, -, -, -, -⟩ := hy ht
    refine ⟨a', b', s', mh, ah, ha', hb', hs', hmh, hah, ?_⟩
    show e.hevc.capabilities.passed = true ↔ _
    rw [hp]
    simp

theorem validate_encoder_passed_witness :
    validate_encoder false video_qp probes_no_hevc (vaapi caps_none caps_none) =
      some (true, validated false video_qp probes_no_hevc (vaapi caps_none caps_none)) ∧
    test_hevc video_qp (vaapi caps_none caps_none) = true ∧
    (validated false video_qp probes_no_hevc (vaapi caps_none caps_none)).hevc.capabilities.get
      .PASSED = false ∧
    (validated false video_qp probes_no_hevc (vaapi caps_none caps_none)).h264.capabilities.get
      .PASSED = true :=
  ⟨rfl, rfl, rfl,
   (validate_encoder_passed false video_qp probes_no_hevc (vaapi caps_none caps_none)
      _ rfl).1⟩

/-! ## The probes return -/

theorem encode_ret_zero (cbs : cbs_t) (frame_nr : Int) (session : session_t) (frame : AVFrame)
    (packets : List packet_t) (channel_data : Nat) (reply : reply_t)
    (h : (encode cbs frame_nr session frame packets channel_data reply).ret = 0) :
    ¬ reply.send < 0 ∧ (reply.last = AVERROR_EAGAIN ∨ reply.last = AVERROR_EOF) := by
  have hneg := reply.last_neg
  unfold encode at h
  by_cases hs : reply.send < 0
  · simp [hs] at h
  · refine ⟨hs, ?_⟩
    by_contra he
    simp only [hs, if_false, he] at h
    omega

theorem validate_config_wait_returns (cbs : cbs_t) (replies : List reply_t)
    (session : session_t) (frame : AVFrame) (packets : List packet_t)
    (h : packets ≠ [] ∨ replies.any reply_t.ends = true) :
    (validate_config_wait cbs replies session frame packets).isSome = true := by
  induction replies generalizing session frame packets with
  | nil =>
    cases packets with
    | nil => simp at h
    | cons p ps => simp [validate_config_wait]
  | cons r rest ih =>
    cases packets with
    | cons p ps => simp [validate_config_wait]
    | nil =>
      unfold validate_config_wait
      by_cases hret : (encode cbs 1 session frame [] 0 r).ret ≠ 0
      · simp [hret]
      · simp only [hret, if_false]
        apply ih
        have hz : (encode cbs 1 session frame [] 0 r).ret = 0 := not_not.mp hret
        obtain ⟨hs, hl⟩ := encode_ret_zero cbs 1 session frame [] 0 r hz
        rcases h with h | h
        · exact absurd rfl h
        · simp only [List.any_cons, Bool.or_eq_true] at h
          rcases h with h | h
          · left
            have hrec : r.received ≠ [] := by
              intro hnil
              simp [reply_t.ends, hs, hnil, hl] at h
              rcases hl with hl | hl <;> simp [hl] at h
            rw [encode_packets]
            simp only [hs, if_false]
            obtain ⟨pushed, hp, hm⟩ := encode_loop_pushes cbs 0 r.received session []
            rw [hp]
            intro hnil
            simp only [List.nil_append] at hnil
            rw [hnil] at hm
            exact hrec hm.symm
          · right
            exact h

theorem validate_config_returns (env : probe_env) (video : video_cfg) (encoder : encoder_t)
    (config : config_t) (h : env.ends = true) :
    ∃ r, validate_config env video encoder config = some r := by
  have hw : ∀ session frame,
      (validate_config_wait env.cbs env.replies session frame env.packets).isSome = true := by
    intro session frame
    apply validate_config_wait_returns
    simp only [probe_env.ends, Bool.or_eq_true, Bool.not_eq_true', List.isEmpty_eq_false] at h
    exact h
  rw [← Option.isSome_iff_exists]
  unfold validate_config
  cases reset_display env.display encoder.dev_type with
  | none => rfl
  | some disp =>
    simp only []
    generalize (if config.dynamicRange = 0 then map_pix_fmt encoder.static_pix_fmt
      else map_pix_fmt encoder.dynamic_pix_fmt) = pix
    cases env.make_hwdevice pix with
    | none => rfl
    | some hwdevice =>
      simp only []
      cases (make_session env.av video encoder config disp.1 disp.2 hwdevice).session with
      | none => rfl
      | some session =>
        simp only []
        by_cases h1 : env.dummy_img ≠ 0
        · rw [if_pos h1]
          rfl
        rw [if_neg h1]
        by_cases h2 : env.convert ≠ 0
        · rw [if_pos h2]
          rfl
        rw [if_neg h2]
        have hws := hw session { session.device.frame with pict_type := AV_PICTURE_TYPE_I }
        cases hwt : validate_config_wait env.cbs env.replies session
            { session.device.frame with pict_type := AV_PICTURE_TYPE_I } env.packets with
        | none =>
          rw [hwt] at hws
          simp at hws
        | some o =>
          cases o with
          | none => rfl
          | some packet =>
            simp only []
            split <;> rfl
theorem validate_encoder_flag_returns (video : video_cfg) (env_h264 env_hevc : probe_env)
    (encoder : encoder_t) (flag : flag_e) (config : config_t)
    (h1 : env_h264.ends = true) (h2 : env_hevc.ends = true) :
    ∃ e, validate_encoder_flag video env_h264 env_hevc encoder flag config = some e := by
  obtain ⟨r, hr⟩ := validate_config_returns env_h264 video encoder
    { config with videoFormat := 0 } h1
  obtain ⟨r1, hr1⟩ := validate_config_returns env_hevc video
    { encoder with h264 := encoder.h264.assign flag (decide (r ≥ 0)) }
    { config with videoFormat := 1 } h2
  unfold validate_encoder_flag
  simp only [hr, Option.some_bind]
  cases hp : encoder.hevc.capabilities.get .PASSED
  · simp
  · simp only [if_true, hr1, Option.some_bind]
    exact ⟨_, rfl⟩

theorem validate_encoder_hevc_eq (video : video_cfg) (probes : probes_t) (encoder : encoder_t)
    (max_ref_frames_hevc autoselect_hevc : Int)
    (hm : validate_config probes.max_ref_frames_hevc video encoder
      { config_max_ref_frames with videoFormat := 1 } = some max_ref_frames_hevc)
    (ha : validate_config probes.autoselect_hevc video encoder
      { config_autoselect with videoFormat := 1 } = some autoselect_hevc) :
    validate_encoder_hevc video probes encoder =
      if test_hevc video encoder = true then
        (if force_hevc video = true ∧ max_ref_frames_hevc < 0 ∧ autoselect_hevc < 0 then
           some none
         else
           some (some { encoder with
             hevc := (validate_encoder_viable encoder.hevc max_ref_frames_hevc
               autoselect_hevc).assign .PASSED
                 (decide (max_ref_frames_hevc ≥ 0) || decide (autoselect_hevc ≥ 0)) }))
      else some (some encoder) := by
  unfold validate_encoder_hevc
  simp only [hm, ha, Option.some_bind]

theorem force_hevc_test (video : video_cfg) (encoder : encoder_t)
    (h : test_hevc video encoder = false) : force_hevc video = false := by
  unfold test_hevc at h
  cases hf : force_hevc video
  · rfl
  · rw [hf] at h
    simp at h

/-- C16, as stated: with `hevc_mode = 2`, both H.264 viability probes of the
`vaapi` descriptor return the flag word 3, both HEVC viability probes fail,
and `validate_encoder` returns `false`. -/
theorem forced_hevc_drops_h264_capable_encoder :
    (video_hevc 2).hevc_mode = 2 ∧
    validate_config probes_no_hevc.max_ref_frames_h264 (video_hevc 2)
      (validate_encoder_reset (video_hevc 2) (vaapi caps_none caps_none))
      config_max_ref_frames = some 3 ∧
    validate_config probes_no_hevc.autoselect_h264 (video_hevc 2)
      (validate_encoder_reset (video_hevc 2) (vaapi caps_none caps_none))
      config_autoselect = some 3 ∧
    (validate_encoder false (video_hevc 2) probes_no_hevc (vaapi caps_none caps_none)).map
      Prod.fst = some false := by
  refine ⟨rfl, rfl, rfl, rfl⟩

/-- C16, amended: when the wait loop of every probe ends, `validate_encoder`
returns. It returns `false` when both H.264 viability probes fail. When one
of them succeeds it returns `true` unless `hevc_mode >= 2` and both HEVC
viability probes fail, in which case it returns `false`. -/
theorem validate_encoder_retains (force_video_header_replace : Bool) (video : video_cfg)
    (probes : probes_t) (encoder : encoder_t) (hends : probes.ends = true) :
    ∃ b e max_ref_frames_h264 autoselect_h264,
      validate_encoder force_video_header_replace video probes encoder = some (b, e) ∧
      validate_config probes.max_ref_frames_h264 video (validate_encoder_reset video encoder)
        config_max_ref_frames = some max_ref_frames_h264 ∧
      validate_config probes.autoselect_h264 video (validate_encoder_reset video encoder)
        config_autoselect = some autoselect_h264 ∧
      ((max_ref_frames_h264 < 0 ∧ autoselect_h264 < 0) → b = false) ∧
      (¬ (max_ref_frames_h264 < 0 ∧ autoselect_h264 < 0) →
        ∃ slice max_ref_frames_hevc autoselect_hevc,
          validate_config probes.h264_slice video
            (validate_encoder_h264 (validate_encoder_reset video encoder) max_ref_frames_h264
              autoselect_h264) config_max_ref_frames = some slice ∧
          validate_config probes.max_ref_frames_hevc video
            (validate_encoder_h264_slice
              (validate_encoder_h264 (validate_encoder_reset video encoder)
                max_ref_frames_h264 autoselect_h264) slice)
            { config_max_ref_frames with videoFormat := 1 } = some max_ref_frames_hevc ∧
          validate_config probes.autoselect_hevc video
            (validate_encoder_h264_slice
              (validate_encoder_h264 (validate_encoder_reset video encoder)
                max_ref_frames_h264 autoselect_h264) slice)
            { config_autoselect with videoFormat := 1 } = some autoselect_hevc ∧
          (b = false ↔
            (video.hevc_mode ≥ 2 ∧ max_ref_frames_hevc < 0 ∧ autoselect_hevc < 0))) := by
  simp only [probes_t.ends, Bool.and_eq_true] at hends
  obtain ⟨⟨⟨⟨⟨⟨⟨⟨p1, p2⟩, p3⟩, p4⟩, p5⟩, p6⟩, p7⟩, p8⟩, p9⟩ := hends
  obtain ⟨a, ha⟩ := validate_config_returns probes.max_ref_frames_h264 video
    (validate_encoder_reset video encoder) config_max_ref_frames p1
  obtain ⟨b, hb⟩ := validate_config_returns probes.autoselect_h264 video
    (validate_encoder_reset video encoder) config_autoselect p2
  by_cases hf : a < 0 ∧ b < 0
  · refine ⟨false, validate_encoder_reset video encoder, a, b, ?_, ha, hb, fun _ => rfl,
      fun hn => absurd hf hn⟩
    unfold validate_encoder
    simp only [ha, hb, Option.some_bind]
    rw [if_pos hf]
  · obtain ⟨s, hs⟩ := validate_config_returns probes.h264_slice video
      (validate_encoder_h264 (validate_encoder_reset video encoder) a b)
      config_max_ref_frames p3
    obtain ⟨mh, hmh⟩ := validate_config_returns probes.max_ref_frames_hevc video
      (validate_encoder_h264_slice
        (validate_encoder_h264 (validate_encoder_reset video encoder) a b) s)
      { config_max_ref_frames with videoFormat := 1 } p4
    obtain ⟨ah, hah⟩ := validate_config_returns probes.autoselect_hevc video
      (validate_encoder_h264_slice
        (validate_encoder_h264 (validate_encoder_reset video encoder) a b) s)
      { config_autoselect with videoFormat := 1 } p5
    have hhevc := validate_encoder_hevc_eq video probes _ mh ah hmh hah
    have hforce : force_hevc video = true ↔ video.hevc_mode ≥ 2 := by
      simp [force_hevc]
    have key : ∀ hv, validate_encoder_hevc video probes
        (validate_encoder_h264_slice
          (validate_encoder_h264 (validate_encoder_reset video encoder) a b) s) = some hv →
        ∃ b1 e, validate_encoder force_video_header_replace video probes encoder
          = some (b1, e) ∧ (b1 = false ↔ hv = none) := by
      intro hv hhv
      unfold validate_encoder
      simp only [ha, hb, Option.some_bind]
      rw [if_neg hf]
      simp only [hs, Option.some_bind, hhv]
      cases hv with
      | none => exact ⟨false, _, rfl, by simp⟩
      | some e3 =>
        obtain ⟨e4, h4⟩ := validate_encoder_flag_returns video probes.dynamic_range_h264
          probes.dynamic_range_hevc e3 .DYNAMIC_RANGE config_dynamic_range p6 p7
        obtain ⟨e5, h5⟩ := validate_encoder_flag_returns video probes.slice_h264
          probes.slice_hevc e4 .SLICE config_slice p8 p9
        simp only [h4, h5, Option.some_bind]
        exact ⟨true, _, rfl, by simp⟩
    cases ht : test_hevc video (validate_encoder_h264_slice
        (validate_encoder_h264 (validate_encoder_reset video encoder) a b) s)
    · rw [ht] at hhevc
      simp only [Bool.false_eq_true, if_false] at hhevc
      obtain ⟨b1, e, hve, hb1⟩ := key _ hhevc
      refine ⟨b1, e, a, b, hve, ha, hb, fun hc => absurd hc hf, fun _ => ?_⟩
      refine ⟨s, mh, ah, hs, hmh, hah, ?_⟩
      have hff := force_hevc_test video _ ht
      constructor
      · intro hc
        have := hb1.mp hc
        simp at this
      · intro hc
        have := hforce.mpr hc.1
        rw [hff] at this
        cases this
    · rw [ht] at hhevc
      simp only [if_true] at hhevc
      by_cases hfh : force_hevc video = true ∧ mh < 0 ∧ ah < 0
      · rw [if_pos hfh] at hhevc
        obtain ⟨b1, e, hve, hb1⟩ := key _ hhevc
        refine ⟨b1, e, a, b, hve, ha, hb, fun hc => absurd hc hf, fun _ => ?_⟩
        refine ⟨s, mh, ah, hs, hmh, hah, ?_⟩
        constructor
        · intro _
          exact ⟨hforce.mp hfh.1, hfh.2.1, hfh.2.2⟩
        · intro _
          exact hb1.mpr rfl
      · rw [if_neg hfh] at hhevc
        obtain ⟨b1, e, hve, hb1⟩ := key _ hhevc
        refine ⟨b1, e, a, b, hve, ha, hb, fun hc => absurd hc hf, fun _ => ?_⟩
        refine ⟨s, mh, ah, hs, hmh, hah, ?_⟩
        constructor
        · intro hc
          have := hb1.mp hc
          simp at this
        · intro hc
          exact absurd ⟨hforce.mpr hc.1, hc.2.1, hc.2.2⟩ hfh
theorem validate_encoder_hevc_returns (video : video_cfg) (probes : probes_t)
    (encoder : encoder_t) (h1 : probes.max_ref_frames_hevc.ends = true)
    (h2 : probes.autoselect_hevc.ends = true) :
    ∃ r, validate_encoder_hevc video probes encoder = some r := by
  obtain ⟨mh, hmh⟩ := validate_config_returns probes.max_ref_frames_hevc video encoder
    { config_max_ref_frames with videoFormat := 1 } h1
  obtain ⟨ah, hah⟩ := validate_config_returns probes.autoselect_hevc video encoder
    { config_autoselect with videoFormat := 1 } h2
  rw [validate_encoder_hevc_eq video probes encoder mh ah hmh hah]
  split
  · split <;> exact ⟨_, rfl⟩
  · exact ⟨_, rfl⟩

theorem validate_encoder_returns (force_video_header_replace : Bool) (video : video_cfg)
    (probes : probes_t) (encoder : encoder_t) (hends : probes.ends = true) :
    ∃ r, validate_encoder force_video_header_replace video probes encoder = some r := by
  simp only [probes_t.ends, Bool.and_eq_true] at hends
  obtain ⟨⟨⟨⟨⟨⟨⟨⟨p1, p2⟩, p3⟩, p4⟩, p5⟩, p6⟩, p7⟩, p8⟩, p9⟩ := hends
  obtain ⟨a, ha⟩ := validate_config_returns probes.max_ref_frames_h264 video
    (validate_encoder_reset video encoder) config_max_ref_frames p1
  obtain ⟨b, hb⟩ := validate_config_returns probes.autoselect_h264 video
    (validate_encoder_reset video encoder) config_autoselect p2
  unfold validate_encoder
  simp only [ha, hb, Option.some_bind]
  by_cases hf : a < 0 ∧ b < 0
  · rw [if_pos hf]
    exact ⟨_, rfl⟩
  · rw [if_neg hf]
    obtain ⟨s, hs⟩ := validate_config_returns probes.h264_slice video
      (validate_encoder_h264 (validate_encoder_reset video encoder) a b)
      config_max_ref_frames p3
    obtain ⟨hv, hhv⟩ := validate_encoder_hevc_returns video probes
      (validate_encoder_h264_slice
        (validate_encoder_h264 (validate_encoder_reset video encoder) a b) s) p4 p5
    simp only [hs, Option.some_bind, hhv]
    cases hv with
    | none => exact ⟨_, rfl⟩
    | some e3 =>
      obtain ⟨e4, h4⟩ := validate_encoder_flag_returns video probes.dynamic_range_h264
        probes.dynamic_range_hevc e3 .DYNAMIC_RANGE config_dynamic_range p6 p7
      obtain ⟨e5, h5⟩ := validate_encoder_flag_returns video probes.slice_h264
        probes.slice_hevc e4 .SLICE config_slice p8 p9
      simp only [h4, h5, Option.some_bind]
      exact ⟨_, rfl⟩

theorem init_loop_eq (force_video_header_replace : Bool) (video : video_cfg)
    (encoders : List (encoder_t × probes_t)) (hends : ∀ p ∈ encoders, p.2.ends = true) :
    init_loop force_video_header_replace video encoders =
      some (match encoders.dropWhile
          (fun p => !init_keeps force_video_header_replace video p) with
        | [] => []
        | p :: rest => validated force_video_header_replace video p.2 p.1 ::
            rest.map (fun x => x.1)) := by
  induction encoders with
  | nil => rfl
  | cons p rest ih =>
    obtain ⟨pos, probes⟩ := p
    have ih1 := ih (fun q hq => hends q (List.mem_cons_of_mem _ hq))
    have hp := hends (pos, probes) (List.mem_cons_self _ _)
    obtain ⟨r, hr⟩ := validate_encoder_returns force_video_header_replace video probes pos hp
    unfold init_loop
    by_cases hname : video.encoder ≠ "" ∧ pos.name ≠ video.encoder
    · rw [if_pos hname]
      have hk : init_keeps force_video_header_replace video (pos, probes) = false := by
        unfold init_keeps
        simp [hname.1, hname.2]
      rw [List.dropWhile_cons, hk]
      simpa using ih1
    · rw [if_neg hname]
      have hn : (decide (video.encoder = "") || decide (pos.name = video.encoder)) = true := by
        by_cases h1 : video.encoder = ""
        · simp [h1]
        · have : pos.name = video.encoder := by
            by_contra h2
            exact hname ⟨h1, h2⟩
          simp [this]
      simp only [hr, Option.some_bind]
      obtain ⟨b, e⟩ := r
      by_cases hc : b = false ∨
          (video.hevc_mode = 3 ∧ e.hevc.capabilities.get .DYNAMIC_RANGE = false)
      · rw [if_pos hc]
        have hk : init_keeps force_video_header_replace video (pos, probes) = false := by
          unfold init_keeps
          simp only [hr, hn, Bool.true_and]
          rcases hc with hc | hc
          · subst hc
            rfl
          · cases b
            · rfl
            · simp [hc.1, hc.2]
        rw [List.dropWhile_cons, hk]
        simpa using ih1
      · rw [if_neg hc]
        have hb : b = true := by
          cases b
          · exact absurd (Or.inl rfl) hc
          · rfl
        subst hb
        have hk : init_keeps force_video_header_replace video (pos, probes) = true := by
          unfold init_keeps
          simp only [hr, hn, Bool.true_and]
          by_cases h3 : video.hevc_mode = 3
          · have : e.hevc.capabilities.get .DYNAMIC_RANGE = true := by
              cases hd : e.hevc.capabilities.get .DYNAMIC_RANGE
              · exact absurd (Or.inr ⟨h3, hd⟩) hc
              · rfl
            simp [this]
          · simp [h3]
        rw [List.dropWhile_cons, hk]
        simp [validated, hr]

/-- C18: when the wait loop of every probe ends, `init` returns. It drops
every encoder before the first one that matches the pinned name (when
`config::video.encoder` is not empty), passes `validate_encoder` and (when
`hevc_mode = 3`) is left with the HEVC capability `DYNAMIC_RANGE`: if there
is such an encoder, `init` returns 0 and the list holds that encoder, as
`validate_encoder` has left it, followed by the encoders after it; if there
is none, `init` returns -1 and the list is empty. -/
theorem init_first_survivor (force_video_header_replace : Bool) (video : video_cfg)
    (encoders : List (encoder_t × probes_t)) (hends : ∀ p ∈ encoders, p.2.ends = true) :
    ∃ r, init force_video_header_replace video encoders = some r ∧
      (encoders.dropWhile (fun p => !init_keeps force_video_header_replace video p) = [] →
        r.ret = -1 ∧ r.encoders = []) ∧
      (∀ p rest,
        encoders.dropWhile (fun p => !init_keeps force_video_header_replace video p)
          = p :: rest →
        r.ret = 0 ∧
        validate_encoder force_video_header_replace video p.2 p.1 =
          some (true, validated force_video_header_replace video p.2 p.1) ∧
        r.encoders = validated force_video_header_replace video p.2 p.1 ::
          rest.map (fun x => x.1)) := by
  have hl := init_loop_eq force_video_header_replace video encoders hends
  unfold init
  rw [hl]
  cases hd : encoders.dropWhile (fun p => !init_keeps force_video_header_replace video p) with
  | nil =>
    refine ⟨_, rfl, fun _ => ⟨rfl, rfl⟩, fun p rest hc => by cases hc⟩
  | cons q qs =>
    refine ⟨_, rfl, (fun hc => by cases hc), ?_⟩
    intro p rest hc
    simp only [List.cons.injEq] at hc
    obtain ⟨hq, hqs⟩ := hc
    subst hq hqs
    refine ⟨rfl, ?_, rfl⟩
    have hk : init_keeps force_video_header_replace video q = true := by
      have := List.head_dropWhile_not (fun p => !init_keeps force_video_header_replace video p)
        encoders (by rw [hd]; simp)
      simp only [hd, List.head_cons, Bool.not_eq_true', Bool.not_eq_false'] at this
      exact this
    unfold init_keeps at hk
    simp only [Bool.and_eq_true] at hk
    obtain ⟨-, hm⟩ := hk
    unfold validated
    cases hv : validate_encoder force_video_header_replace video q.2 q.1 with
    | none => rw [hv] at hm; simp at hm
    | some r =>
      obtain ⟨b, e⟩ := r
      cases b
      · rw [hv] at hm
        simp at hm
      · rfl

theorem init_first_survivor_witness :
    (∀ p ∈ encoders_linux, p.2.ends = true) ∧
    encoders_linux.dropWhile (fun p => !init_keeps false video_qp p) =
      [(software caps_none caps_none, probes_ok)] ∧
    (init false video_qp encoders_linux).map (fun r => r.ret) = some 0 ∧
    ∃ r, init false video_qp encoders_linux = some r ∧
      (encoders_linux.dropWhile (fun p => !init_keeps false video_qp p) = [] →
        r.ret = -1 ∧ r.encoders = []) ∧
      (∀ p rest,
        encoders_linux.dropWhile (fun p => !init_keeps false video_qp p) = p :: rest →
        r.ret = 0 ∧
        validate_encoder false video_qp p.2 p.1 = some (true, validated false video_qp p.2 p.1) ∧
        r.encoders = validated false video_qp p.2 p.1 :: rest.map (fun x => x.1)) :=
  ⟨by decide, rfl, rfl, init_first_survivor false video_qp encoders_linux (by decide)⟩

theorem validate_encoder_retains_witness :
    probes_no_hevc.ends = true ∧
    ∃ b e max_ref_frames_h264 autoselect_h264,
      validate_encoder false (video_hevc 2) probes_no_hevc (vaapi caps_none caps_none)
        = some (b, e) ∧
      validate_config probes_no_hevc.max_ref_frames_h264 (video_hevc 2)
        (validate_encoder_reset (video_hevc 2) (vaapi caps_none caps_none))
        config_max_ref_frames = some max_ref_frames_h264 ∧
      validate_config probes_no_hevc.autoselect_h264 (video_hevc 2)
        (validate_encoder_reset (video_hevc 2) (vaapi caps_none caps_none))
        config_autoselect = some autoselect_h264 ∧
      ((max_ref_frames_h264 < 0 ∧ autoselect_h264 < 0) → b = false) ∧
      (¬ (max_ref_frames_h264 < 0 ∧ autoselect_h264 < 0) →
        ∃ slice max_ref_frames_hevc autoselect_hevc,
          validate_config probes_no_hevc.h264_slice (video_hevc 2)
            (validate_encoder_h264
              (validate_encoder_reset (video_hevc 2) (vaapi caps_none caps_none))
              max_ref_frames_h264 autoselect_h264) config_max_ref_frames = some slice ∧
          validate_config probes_no_hevc.max_ref_frames_hevc (video_hevc 2)
            (validate_encoder_h264_slice
              (validate_encoder_h264
                (validate_encoder_reset (video_hevc 2) (vaapi caps_none caps_none))
                max_ref_frames_h264 autoselect_h264) slice)
            { config_max_ref_frames with videoFormat := 1 } = some max_ref_frames_hevc ∧
          validate_config probes_no_hevc.autoselect_hevc (video_hevc 2)
            (validate_encoder_h264_slice
              (validate_encoder_h264
                (validate_encoder_reset (video_hevc 2) (vaapi caps_none caps_none))
                max_ref_frames_h264 autoselect_h264) slice)
            { config_autoselect with videoFormat := 1 } = some autoselect_hevc ∧
          (b = false ↔
            ((video_hevc 2).hevc_mode ≥ 2 ∧ max_ref_frames_hevc < 0 ∧ autoselect_hevc < 0))) :=
  ⟨rfl, validate_encoder_retains false (video_hevc 2) probes_no_hevc
    (vaapi caps_none caps_none) rfl⟩

/-! ## Claims on the colour settings and the slice count of `make_session` -/

theorem make_session_slices_colour (av : av_env) (video : video_cfg) (encoder : encoder_t)
    (config : config_t) (ctx ctx1 : AVCodecContext) (calls : List call_e)
    (h : make_session_slices av video encoder config ctx = (some ctx1, calls)) :
    ctx1.color_range = ctx.color_range ∧ ctx1.color_primaries = ctx.color_primaries ∧
      ctx1.color_trc = ctx.color_trc ∧ ctx1.colorspace = ctx.colorspace := by
  unfold make_session_slices at h
  by_cases hhw : encoder.dev_type ≠ AV_HWDEVICE_TYPE_NONE
  · by_cases hmk : av.make_hwdevice_ctx = false
    · simp [hhw, hmk] at h
    · by_cases hin : av.hwframe_ctx_init < 0
      · have := (hwframe_ctx_ok av.hwframe_ctx_init
          { ctx with pix_fmt := encoder.dev_pix_fmt }).not.mpr (not_not.mpr hin)
        simp [hhw, hmk, this] at h
      · have h0 := (hwframe_ctx_ok av.hwframe_ctx_init
          { ctx with pix_fmt := encoder.dev_pix_fmt }).mpr hin
        have h2 := hwframe_ctx_snd av.hwframe_ctx_init
          { ctx with pix_fmt := encoder.dev_pix_fmt } hin
        simp [hhw, hmk, h0, h2] at h
        obtain ⟨h1, h3⟩ := h
        subst h1 h3
        simp
  · simp [hhw] at h
    obtain ⟨h1, h3⟩ := h
    subst h1 h3
    simp

theorem make_session_slices_threads (av : av_env) (video : video_cfg) (encoder : encoder_t)
    (config : config_t) (ctx ctx1 : AVCodecContext) (calls : List call_e)
    (h : make_session_slices av video encoder config ctx = (some ctx1, calls)) :
    ctx1.slices =
        (if (video_format encoder config).capabilities.get .SLICE = false then 1
         else if encoder.dev_type ≠ AV_HWDEVICE_TYPE_NONE then config.slicesPerFrame
         else max config.slicesPerFrame video.min_threads) ∧
      ctx1.thread_count = ctx1.slices ∧ ctx1.thread_type = FF_THREAD_SLICE := by
  unfold make_session_slices at h
  by_cases hhw : encoder.dev_type ≠ AV_HWDEVICE_TYPE_NONE
  · by_cases hmk : av.make_hwdevice_ctx = false
    · simp [hhw, hmk] at h
    · by_cases hin : av.hwframe_ctx_init < 0
      · have := (hwframe_ctx_ok av.hwframe_ctx_init
          { ctx with pix_fmt := encoder.dev_pix_fmt }).not.mpr (not_not.mpr hin)
        simp [hhw, hmk, this] at h
      · have h0 := (hwframe_ctx_ok av.hwframe_ctx_init
          { ctx with pix_fmt := encoder.dev_pix_fmt }).mpr hin
        have h2 := hwframe_ctx_snd av.hwframe_ctx_init
          { ctx with pix_fmt := encoder.dev_pix_fmt } hin
        simp [hhw, hmk, h0, h2] at h
        obtain ⟨h1, h3⟩ := h
        subst h1 h3
        simp [hhw]
  · simp [hhw] at h
    obtain ⟨h1, h3⟩ := h
    subst h1 h3
    simp [hhw]

theorem make_session_rc_keeps (video : video_cfg) (encoder : encoder_t) (config : config_t)
    (ctx c : AVCodecContext) (options o : AVDictionary)
    (h : make_session_rc video encoder config ctx options = some (c, o)) :
    c.color_range = ctx.color_range ∧ c.color_primaries = ctx.color_primaries ∧
      c.color_trc = ctx.color_trc ∧ c.colorspace = ctx.colorspace ∧
      c.slices = ctx.slices ∧ c.thread_count = ctx.thread_count ∧
      c.thread_type = ctx.thread_type := by
  by_cases hb : config.bitrate > 500
  · rw [make_session_rc_cbr video encoder config ctx options hb] at h
    simp only [Option.some.injEq, Prod.mk.injEq] at h
    rw [← h.1]
    exact ⟨rfl, rfl, rfl, rfl, rfl, rfl, rfl⟩
  · obtain ⟨hc, -, -⟩ := make_session_rc_quality_some video encoder config ctx c options o
      (by omega) h
    rw [hc]
    exact ⟨rfl, rfl, rfl, rfl, rfl, rfl, rfl⟩

theorem make_session_device_colorspace (av : av_env) (encoder : encoder_t) (config : config_t)
    (width height : Int) (hwdevice_data : Bool) (ctx : AVCodecContext) (device : device_t)
    (calls : List call_e)
    (h : make_session_device av encoder config width height hwdevice_data ctx
      = (some device, calls)) :
    call_e.set_colorspace (sws_color_space config) ctx.color_range ∈ calls ∧
      ∀ cs cr, call_e.set_colorspace cs cr ∈ calls →
        cs = sws_color_space config ∧ cr = ctx.color_range := by
  unfold make_session_device at h
  by_cases h1 : hwdevice_data = false
  · by_cases h2 : av.swdevice_init width height (make_session_frame av encoder ctx)
        (sw_fmt encoder config) ≠ 0
    · simp [h1, h2] at h
    · by_cases h3 : av.set_frame (make_session_frame av encoder ctx) ≠ 0
      · simp [h1, h2, h3] at h
      · simp [h1, h2, h3] at h
        obtain ⟨-, hc⟩ := h
        subst hc
        simp
  · by_cases h3 : av.set_frame (make_session_frame av encoder ctx) ≠ 0
    · simp [h1, h3] at h
    · simp [h1, h3] at h
      obtain ⟨-, hc⟩ := h
      subst hc
      simp

theorem make_session_some_colorspace (av : av_env) (video : video_cfg) (encoder : encoder_t)
    (config : config_t) (width height : Int) (hwdevice_data : Bool) (s : session_t)
    (h : (make_session av video encoder config width height hwdevice_data).session = some s) :
    call_e.set_colorspace (sws_color_space config) s.ctx.color_range ∈
      (make_session av video encoder config width height hwdevice_data).calls := by
  unfold make_session at h ⊢
  simp only [] at h ⊢
  split at h
  · simp at h
  split at h
  · simp at h
  split at h
  · simp at h
  split at h
  · simp at h
  split at h
  · simp at h
  rename_i y ctx options hrc
  split at h
  · simp at h
  split at h
  · simp at h
  rename_i z device calls3 hdev
  have hcs := (make_session_device_colorspace av encoder config width height hwdevice_data ctx
    device calls3 hdev).1
  simp only [Option.some.injEq] at h
  subst h
  simp_all
  split <;> simp_all
/-- C22: every session that `make_session` returns has colour range JPEG
exactly when bit 0 of `encoderCscMode` is set and MPEG otherwise, and
`encoderCscMode >> 1` selects the primaries, the transfer characteristic, the
matrix and the coefficient index passed to `set_colorspace`: 1 gives Rec. 709
(BT709, `SWS_CS_ITU709`), 2 gives Rec. 2020 (BT2020, BT2020_10, BT2020_NCL,
`SWS_CS_BT2020`), and 0 and every other value give Rec. 601 (SMPTE170M,
`SWS_CS_SMPTE170M`). -/
theorem make_session_colour (av : av_env) (video : video_cfg) (encoder : encoder_t)
    (config : config_t) (width height : Int) (hwdevice_data : Bool) (s : session_t)
    (h : (make_session av video encoder config width height hwdevice_data).session = some s) :
    (s.ctx.color_range = AVCOL_RANGE_JPEG ↔ Int.land config.encoderCscMode 0x1 ≠ 0) ∧
    (s.ctx.color_range = AVCOL_RANGE_MPEG ↔ Int.land config.encoderCscMode 0x1 = 0) ∧
    (config.encoderCscMode >>> 1 = 1 →
      s.ctx.color_primaries = AVCOL_PRI_BT709 ∧ s.ctx.color_trc = AVCOL_TRC_BT709 ∧
      s.ctx.colorspace = AVCOL_SPC_BT709 ∧
      call_e.set_colorspace SWS_CS_ITU709 s.ctx.color_range ∈
        (make_session av video encoder config width height hwdevice_data).calls) ∧
    (config.encoderCscMode >>> 1 = 2 →
      s.ctx.color_primaries = AVCOL_PRI_BT2020 ∧ s.ctx.color_trc = AVCOL_TRC_BT2020_10 ∧
      s.ctx.colorspace = AVCOL_SPC_BT2020_NCL ∧
      call_e.set_colorspace SWS_CS_BT2020 s.ctx.color_range ∈
        (make_session av video encoder config width height hwdevice_data).calls) ∧
    (config.encoderCscMode >>> 1 ≠ 1 → config.encoderCscMode >>> 1 ≠ 2 →
      s.ctx.color_primaries = AVCOL_PRI_SMPTE170M ∧ s.ctx.color_trc = AVCOL_TRC_SMPTE170M ∧
      s.ctx.colorspace = AVCOL_SPC_SMPTE170M ∧
      call_e.set_colorspace SWS_CS_SMPTE170M s.ctx.color_range ∈
        (make_session av video encoder config width height hwdevice_data).calls) := by
  obtain ⟨ctx1, calls2, options, hsl, hrc, -, -⟩ :=
    make_session_some av video encoder config width height hwdevice_data s h
  obtain ⟨r1, p1, t1, c1⟩ := make_session_slices_colour av video encoder config _ ctx1 calls2 hsl
  obtain ⟨r2, p2, t2, c2, -, -, -⟩ := make_session_rc_keeps video encoder config ctx1 s.ctx _
    options hrc
  have hcs := make_session_some_colorspace av video encoder config width height hwdevice_data
    s h
  have hr : s.ctx.color_range =
      if Int.land config.encoderCscMode 0x1 ≠ 0 then AVCOL_RANGE_JPEG else AVCOL_RANGE_MPEG := by
    rw [r2, r1]
    rfl
  have hp : s.ctx.color_primaries =
      if config.encoderCscMode >>> 1 = 1 then AVCOL_PRI_BT709
      else if config.encoderCscMode >>> 1 = 2 then AVCOL_PRI_BT2020
      else AVCOL_PRI_SMPTE170M := by
    rw [p2, p1]
    rfl
  have ht : s.ctx.color_trc =
      if config.encoderCscMode >>> 1 = 1 then AVCOL_TRC_BT709
      else if config.encoderCscMode >>> 1 = 2 then AVCOL_TRC_BT2020_10
      else AVCOL_TRC_SMPTE170M := by
    rw [t2, t1]
    rfl
  have hc : s.ctx.colorspace =
      if config.encoderCscMode >>> 1 = 1 then AVCOL_SPC_BT709
      else if config.encoderCscMode >>> 1 = 2 then AVCOL_SPC_BT2020_NCL
      else AVCOL_SPC_SMPTE170M := by
    rw [c2, c1]
    rfl
  refine ⟨?_, ?_, ?_, ?_, ?_⟩
  · rw [hr]
    by_cases hb : Int.land config.encoderCscMode 0x1 ≠ 0
    · simp [hb]
    · simp only [hb, if_false, iff_false]
      decide
  · rw [hr]
    by_cases hb : Int.land config.encoderCscMode 0x1 ≠ 0
    · rw [if_pos hb]
      constructor
      · intro hc
        exact absurd hc (by decide)
      · intro hc
        exact absurd hc hb
    · simp only [hb, if_false, true_iff]
      exact not_not.mp hb
  · intro h1
    refine ⟨by rw [hp, if_pos h1], by rw [ht, if_pos h1], by rw [hc, if_pos h1], ?_⟩
    have : sws_color_space config = SWS_CS_ITU709 := by
      unfold sws_color_space
      rw [if_pos h1]
    rw [← this]
    exact hcs
  · intro h2
    have h1 : config.encoderCscMode >>> 1 ≠ 1 := by
      rw [h2]
      decide
    refine ⟨by rw [hp, if_neg h1, if_pos h2], by rw [ht, if_neg h1, if_pos h2],
      by rw [hc, if_neg h1, if_pos h2], ?_⟩
    have : sws_color_space config = SWS_CS_BT2020 := by
      unfold sws_color_space
      rw [if_neg h1, if_pos h2]
    rw [← this]
    exact hcs
  · intro h1 h2
    refine ⟨by rw [hp, if_neg h1, if_neg h2], by rw [ht, if_neg h1, if_neg h2],
      by rw [hc, if_neg h1, if_neg h2], ?_⟩
    have : sws_color_space config = SWS_CS_SMPTE170M := by
      unfold sws_color_space
      rw [if_neg h1, if_neg h2]
    rw [← this]
    exact hcs

theorem make_session_colour_witness :
    (make_session av_ok video_nv (nvenc caps_all caps_all) (config_720p30_hdr 1000)
        1280 720 true).session =
      some ((make_session av_ok video_nv (nvenc caps_all caps_all) (config_720p30_hdr 1000)
        1280 720 true).session.getD session_zero) ∧
    (config_720p30_hdr 1000).encoderCscMode = 4 ∧
    ((make_session av_ok video_nv (nvenc caps_all caps_all) (config_720p30_hdr 1000)
        1280 720 true).session.getD session_zero).ctx.color_primaries = AVCOL_PRI_BT2020 ∧
    (((make_session av_ok video_nv (nvenc caps_all caps_all) (config_720p30_hdr 1000)
        1280 720 true).session.getD session_zero).ctx.color_range = AVCOL_RANGE_MPEG ↔
      Int.land (config_720p30_hdr 1000).encoderCscMode 0x1 = 0) :=
  ⟨rfl, rfl,
   ((make_session_colour av_ok video_nv (nvenc caps_all caps_all) (config_720p30_hdr 1000)
      1280 720 true _ rfl).2.2.2.1 (by decide)).1,
   (make_session_colour av_ok video_nv (nvenc caps_all caps_all) (config_720p30_hdr 1000)
      1280 720 true _ rfl).2.1⟩

/-- C23: in every session that `make_session` returns, the slice count is 1
when the chosen codec lacks `SLICE`; otherwise it is
`max(config.slicesPerFrame, min_threads)` for a software encoder (device type
NONE) and `config.slicesPerFrame` for a hardware encoder; `thread_count` is
the slice count and `thread_type` is `FF_THREAD_SLICE`. -/
theorem make_session_slice_count (av : av_env) (video : video_cfg) (encoder : encoder_t)
    (config : config_t) (width height : Int) (hwdevice_data : Bool) (s : session_t)
    (h : (make_session av video encoder config width height hwdevice_data).session = some s) :
    ((video_format encoder config).capabilities.get .SLICE = false → s.ctx.slices = 1) ∧
    ((video_format encoder config).capabilities.get .SLICE = true →
      encoder.dev_type = AV_HWDEVICE_TYPE_NONE →
      s.ctx.slices = max config.slicesPerFrame video.min_threads) ∧
    ((video_format encoder config).capabilities.get .SLICE = true →
      encoder.dev_type ≠ AV_HWDEVICE_TYPE_NONE →
      s.ctx.slices = config.slicesPerFrame) ∧
    s.ctx.thread_count = s.ctx.slices ∧ s.ctx.thread_type = FF_THREAD_SLICE := by
  obtain ⟨ctx1, calls2, options, hsl, hrc, -, -⟩ :=
    make_session_some av video encoder config width height hwdevice_data s h
  obtain ⟨hs1, hc1, ht1⟩ := make_session_slices_threads av video encoder config _ ctx1 calls2 hsl
  obtain ⟨-, -, -, -, hs2, hc2, ht2⟩ := make_session_rc_keeps video encoder config ctx1 s.ctx _
    options hrc
  refine ⟨?_, ?_, ?_, ?_, ?_⟩
  · intro hcap
    rw [hs2, hs1, if_pos hcap]
  · intro hcap hsw
    rw [hs2, hs1, if_neg (by simp [hcap]), if_neg (by simp [hsw])]
  · intro hcap hhw
    rw [hs2, hs1, if_neg (by simp [hcap]), if_pos hhw]
  · rw [hc2, hs2, hc1]
  · rw [ht2, ht1]

theorem make_session_slice_count_witness :
    (make_session av_ok video_qp (software caps_none caps_x26x) (config_1080p60 501 0 0)
        1920 1080 false).session =
      some ((make_session av_ok video_qp (software caps_none caps_x26x)
        (config_1080p60 501 0 0) 1920 1080 false).session.getD session_zero) ∧
    video_qp.min_threads = 2 ∧ (config_1080p60 501 0 0).slicesPerFrame = 1 ∧
    ((make_session av_ok video_qp (software caps_none caps_x26x)
        (config_1080p60 501 0 0) 1920 1080 false).session.getD session_zero).ctx.slices
      = max (config_1080p60 501 0 0).slicesPerFrame video_qp.min_threads ∧
    ((make_session av_ok video_qp (software caps_none caps_x26x)
        (config_1080p60 501 0 0) 1920 1080 false).session.getD session_zero).ctx.thread_count
      = 2 :=
  ⟨rfl, rfl, rfl,
   (make_session_slice_count av_ok video_qp (software caps_none caps_x26x)
      (config_1080p60 501 0 0) 1920 1080 false _ rfl).2.1 rfl rfl,
   rfl⟩

/-! ## Claims on the flag word of `validate_config` -/

theorem search_isSome (n payload : bytes) : (search payload n).isSome = true ↔ n <:+: payload := by
  induction payload with
  | nil =>
    unfold search
    by_cases hn : n = []
    · simp [hn]
    · simp [hn]
  | cons b rest ih =>
    unfold search
    rw [List.infix_cons_iff]
    by_cases hp : n.isPrefixOf (b :: rest) = true
    · rw [if_pos hp]
      simp only [Option.isSome_some, true_iff]
      exact Or.inl (List.isPrefixOf_iff_prefix.mp hp)
    · rw [if_neg hp]
      simp only [Option.isSome_map']
      rw [ih]
      constructor
      · intro h
        exact Or.inr h
      · intro h
        rcases h with h | h
        · exact absurd (List.isPrefixOf_iff_prefix.mpr h) hp
        · exact h

/-- The value that `validate_config` returns: -1, or the flag word computed
from the packet that the wait loop has popped. -/
theorem validate_config_some (env : probe_env) (video : video_cfg) (encoder : encoder_t)
    (config : config_t) (r : Int) (h : validate_config env video encoder config = some r) :
    r = -1 ∨
    ∃ disp hwdevice session packet,
      reset_display env.display encoder.dev_type = some disp ∧
      (make_session env.av video encoder config disp.1 disp.2 hwdevice).session
        = some session ∧
      validate_config_wait env.cbs env.replies session
        { session.device.frame with pict_type := AV_PICTURE_TYPE_I } env.packets
        = some (some packet) ∧
      Int.land packet.pkt.flags AV_PKT_FLAG_KEY ≠ 0 ∧
      r = (if (search packet.pkt.data
              (if config.videoFormat ≠ 0 then hevc_nalu else h264_nalu)).isSome
           then Int.lor
             (if env.validate_sps packet.pkt
                  (if config.videoFormat ≠ 0 then AV_CODEC_ID_H265 else AV_CODEC_ID_H264)
              then Int.lor 0 validate_flag_e.VUI_PARAMS else 0)
             validate_flag_e.NALU_PREFIX_5b
           else
             (if env.validate_sps packet.pkt
                  (if config.videoFormat ≠ 0 then AV_CODEC_ID_H265 else AV_CODEC_ID_H264)
              then Int.lor 0 validate_flag_e.VUI_PARAMS else 0)) := by
  unfold validate_config at h
  cases hd : reset_display env.display encoder.dev_type with
  | none =>
    rw [hd] at h
    simp only [Option.some.injEq] at h
    exact Or.inl h.symm
  | some disp =>
    rw [hd] at h
    simp only [] at h
    generalize (if config.dynamicRange = 0 then map_pix_fmt encoder.static_pix_fmt
      else map_pix_fmt encoder.dynamic_pix_fmt) = pix at h
    cases hh : env.make_hwdevice pix with
    | none =>
      rw [hh] at h
      simp only [Option.some.injEq] at h
      exact Or.inl h.symm
    | some hwdevice =>
      rw [hh] at h
      simp only [] at h
      cases hs : (make_session env.av video encoder config disp.1 disp.2 hwdevice).session with
      | none =>
        rw [hs] at h
        simp only [Option.some.injEq] at h
        exact Or.inl h.symm
      | some session =>
        rw [hs] at h
        simp only [] at h
        by_cases h1 : env.dummy_img ≠ 0
        · rw [if_pos h1] at h
          simp only [Option.some.injEq] at h
          exact Or.inl h.symm
        rw [if_neg h1] at h
        by_cases h2 : env.convert ≠ 0
        · rw [if_pos h2] at h
          simp only [Option.some.injEq] at h
          exact Or.inl h.symm
        rw [if_neg h2] at h
        cases hw : validate_config_wait env.cbs env.replies session
            { session.device.frame with pict_type := AV_PICTURE_TYPE_I } env.packets with
        | none =>
          rw [hw] at h
          simp at h
        | some o =>
          rw [hw] at h
          cases o with
          | none =>
            simp only [Option.some.injEq] at h
            exact Or.inl h.symm
          | some packet =>
            simp only [] at h
            by_cases hk : Int.land packet.pkt.flags AV_PKT_FLAG_KEY = 0
            · rw [if_pos hk] at h
              simp only [Option.some.injEq] at h
              exact Or.inl h.symm
            · rw [if_neg hk] at h
              simp only [Option.some.injEq] at h
              exact Or.inr ⟨disp, hwdevice, session, packet, rfl, hs, hw, hk, h.symm⟩

theorem validate_config_fails (env : probe_env) (video : video_cfg) (encoder : encoder_t)
    (config : config_t) (r : Int) (h : validate_config env video encoder config = some r) :
    r = -1 ∨ (0 ≤ r ∧ r ≤ 3) := by
  rcases validate_config_some env video encoder config r h with h1 | ⟨_, _, _, packet, _, _, _, _, hr⟩
  · exact Or.inl h1
  · right
    rw [hr]
    cases (search packet.pkt.data
        (if config.videoFormat ≠ 0 then hevc_nalu else h264_nalu)).isSome <;>
      cases env.validate_sps packet.pkt
        (if config.videoFormat ≠ 0 then AV_CODEC_ID_H265 else AV_CODEC_ID_H264) <;>
      decide
/-- C25, at the failing input: with one subscription held, whose consumer has
stopped when the dispatch step runs, `captureThread` erases it and recomputes
the delay from `std::min_element` over the empty vector (lines 682-684), which is
the dereference of `std::end`. -/
theorem captureThread_last_erase_undefined :
    min_element [] = none ∧
    capture_dispatch (fun _ => false) [] [{ images := 0, delay := 16666666 }] 16666666
      = ([.undefined], none) ∧
    captureThread true (some { images := 0, delay := 16666666 }) sweeps_all_stopped =
      [.add { capture_ctxs := [{ images := 0, delay := 16666666 }], delay := 16666666 },
       .undefined] := by
  refine ⟨rfl, by decide, by decide⟩

theorem land_failed_probe :
    Int.land (-1) validate_flag_e.VUI_PARAMS = validate_flag_e.VUI_PARAMS ∧
      Int.land (-1) validate_flag_e.NALU_PREFIX_5b = validate_flag_e.NALU_PREFIX_5b := by
  constructor
  · show Int.land (Int.negSucc 0) (Int.ofNat 1) = 1
    simp [Int.land, Nat.ldiff]
  · show Int.land (Int.negSucc 0) (Int.ofNat 2) = 2
    simp [Int.land, Nat.ldiff]

/-- C26: read as a two's-complement flag word, the -1 of a failed probe has
both bits set. So when `validate_encoder` returns `true` and exactly one of
the two H.264 viability probes has failed, the H.264 capabilities
`VUI_PARAMETERS` and `NALU_PREFIX_5b` are, before the override of lines
1538-1539, the bits of the other probe alone, and after it `NALU_PREFIX_5b`
still is and `VUI_PARAMETERS` is that bit unless `FORCE_VIDEO_HEADER_REPLACE`
is set; the same holds for HEVC when it is probed. A probe that fails
returns -1. -/
theorem validate_encoder_failed_probe_bits (force_video_header_replace : Bool)
    (video : video_cfg) (probes : probes_t) (encoder e : encoder_t)
    (h : validate_encoder force_video_header_replace video probes encoder = some (true, e)) :
    Int.land (-1) validate_flag_e.VUI_PARAMS = validate_flag_e.VUI_PARAMS ∧
    Int.land (-1) validate_flag_e.NALU_PREFIX_5b = validate_flag_e.NALU_PREFIX_5b ∧
    ∃ max_ref_frames_h264 autoselect_h264 slice,
      validate_config probes.max_ref_frames_h264 video (validate_encoder_reset video encoder)
        config_max_ref_frames = some max_ref_frames_h264 ∧
      validate_config probes.autoselect_h264 video (validate_encoder_reset video encoder)
        config_autoselect = some autoselect_h264 ∧
      validate_config probes.h264_slice video
        (validate_encoder_h264 (validate_encoder_reset video encoder) max_ref_frames_h264
          autoselect_h264) config_max_ref_frames = some slice ∧
      (max_ref_frames_h264 < 0 → max_ref_frames_h264 = -1) ∧
      (autoselect_h264 < 0 → autoselect_h264 = -1) ∧
      (max_ref_frames_h264 = -1 → 0 ≤ autoselect_h264 →
        (validate_encoder_h264 (validate_encoder_reset video encoder) max_ref_frames_h264
          autoselect_h264).h264.capabilities.get .VUI_PARAMETERS =
            decide (Int.land autoselect_h264 validate_flag_e.VUI_PARAMS ≠ 0) ∧
        (validate_encoder_h264 (validate_encoder_reset video encoder) max_ref_frames_h264
          autoselect_h264).h264.capabilities.get .NALU_PREFIX_5b =
            decide (Int.land autoselect_h264 validate_flag_e.NALU_PREFIX_5b ≠ 0) ∧
        e.h264.capabilities.get .VUI_PARAMETERS =
          (decide (Int.land autoselect_h264 validate_flag_e.VUI_PARAMS ≠ 0) &&
            !force_video_header_replace) ∧
        e.h264.capabilities.get .NALU_PREFIX_5b =
          decide (Int.land autoselect_h264 validate_flag_e.NALU_PREFIX_5b ≠ 0)) ∧
      (autoselect_h264 = -1 → 0 ≤ max_ref_frames_h264 →
        (validate_encoder_h264 (validate_encoder_reset video encoder) max_ref_frames_h264
          autoselect_h264).h264.capabilities.get .VUI_PARAMETERS =
            decide (Int.land max_ref_frames_h264 validate_flag_e.VUI_PARAMS ≠ 0) ∧
        (validate_encoder_h264 (validate_encoder_reset video encoder) max_ref_frames_h264
          autoselect_h264).h264.capabilities.get .NALU_PREFIX_5b =
            decide (Int.land max_ref_frames_h264 validate_flag_e.NALU_PREFIX_5b ≠ 0) ∧
        e.h264.capabilities.get .VUI_PARAMETERS =
          (decide (Int.land max_ref_frames_h264 validate_flag_e.VUI_PARAMS ≠ 0) &&
            !force_video_header_replace) ∧
        e.h264.capabilities.get .NALU_PREFIX_5b =
          decide (Int.land max_ref_frames_h264 validate_flag_e.NALU_PREFIX_5b ≠ 0)) ∧
      (test_hevc video encoder = true →
        ∃ max_ref_frames_hevc autoselect_hevc,
          validate_config probes.max_ref_frames_hevc video
            (validate_encoder_h264_slice
              (validate_encoder_h264 (validate_encoder_reset video encoder)
                max_ref_frames_h264 autoselect_h264) slice)
            { config_max_ref_frames with videoFormat := 1 } = some max_ref_frames_hevc ∧
          validate_config probes.autoselect_hevc video
            (validate_encoder_h264_slice
              (validate_encoder_h264 (validate_encoder_reset video encoder)
                max_ref_frames_h264 autoselect_h264) slice)
            { config_autoselect with videoFormat := 1 } = some autoselect_hevc ∧
          (max_ref_frames_hevc = -1 → 0 ≤ autoselect_hevc →
            e.hevc.capabilities.get .VUI_PARAMETERS =
              (decide (Int.land autoselect_hevc validate_flag_e.VUI_PARAMS ≠ 0) &&
                !force_video_header_replace) ∧
            e.hevc.capabilities.get .NALU_PREFIX_5b =
              decide (Int.land autoselect_hevc validate_flag_e.NALU_PREFIX_5b ≠ 0)) ∧
          (autoselect_hevc = -1 → 0 ≤ max_ref_frames_hevc →
            e.hevc.capabilities.get .VUI_PARAMETERS =
              (decide (Int.land max_ref_frames_hevc validate_flag_e.VUI_PARAMS ≠ 0) &&
                !force_video_header_replace) ∧
            e.hevc.capabilities.get .NALU_PREFIX_5b =
              decide (Int.land max_ref_frames_hevc validate_flag_e.NALU_PREFIX_5b ≠ 0))) := by
  obtain ⟨a, b, s, e3, e4, rd, rs, ha, hb, hf, hs, h3, hrd, h4, hrs, hcaps⟩ :=
    validate_encoder_true_h264 force_video_header_replace video probes encoder e h
  obtain ⟨a', b', s', e3', e4', rd', rs', ha', hb', hs', h3', hrd', h4', hrs', -, hy⟩ :=
    validate_encoder_true_hevc force_video_header_replace video probes encoder e h
  have ea : a' = a := Option.some.inj (ha'.symm.trans ha)
  have eb : b' = b := Option.some.inj (hb'.symm.trans hb)
  subst ea eb
  have es : s' = s := Option.some.inj (hs'.symm.trans hs)
  subst es
  have v1 : decide (Int.land (-1) validate_flag_e.VUI_PARAMS ≠ 0) = true := by
    rw [land_failed_probe.1]
    decide
  have n1 : decide (Int.land (-1) validate_flag_e.NALU_PREFIX_5b ≠ 0) = true := by
    rw [land_failed_probe.2]
    decide
  have hvui : e.h264.capabilities.get .VUI_PARAMETERS =
      ((decide (Int.land a' validate_flag_e.VUI_PARAMS ≠ 0) &&
        decide (Int.land b' validate_flag_e.VUI_PARAMS ≠ 0)) &&
          !force_video_header_replace) := by
    show e.h264.capabilities.vui_parameters = _
    rw [hcaps]
  have hnalu : e.h264.capabilities.get .NALU_PREFIX_5b =
      (decide (Int.land a' validate_flag_e.NALU_PREFIX_5b ≠ 0) &&
        decide (Int.land b' validate_flag_e.NALU_PREFIX_5b ≠ 0)) := by
    show e.h264.capabilities.nalu_prefix_5b = _
    rw [hcaps]
  have hvui0 : (validate_encoder_h264 (validate_encoder_reset video encoder) a'
      b').h264.capabilities.get .VUI_PARAMETERS =
      (decide (Int.land a' validate_flag_e.VUI_PARAMS ≠ 0) &&
        decide (Int.land b' validate_flag_e.VUI_PARAMS ≠ 0)) := rfl
  have hnalu0 : (validate_encoder_h264 (validate_encoder_reset video encoder) a'
      b').h264.capabilities.get .NALU_PREFIX_5b =
      (decide (Int.land a' validate_flag_e.NALU_PREFIX_5b ≠ 0) &&
        decide (Int.land b' validate_flag_e.NALU_PREFIX_5b ≠ 0)) := rfl
  refine ⟨land_failed_probe.1, land_failed_probe.2, a', b', s', ha, hb, hs, ?_, ?_, ?_, ?_, ?_⟩
  · intro hneg
    rcases validate_config_fails _ _ _ _ _ ha with h1 | h1
    · exact h1
    · omega
  · intro hneg
    rcases validate_config_fails _ _ _ _ _ hb with h1 | h1
    · exact h1
    · omega
  · intro hm _
    rw [hvui, hnalu, hvui0, hnalu0, hm, v1, n1]
    simp
  · intro hm _
    rw [hvui, hnalu, hvui0, hnalu0, hm, v1, n1]
    simp
  · intro ht
    obtain ⟨mh, ah, hmh, hah, -, -, -, -, hv, hn, -, -⟩ := hy ht
    refine ⟨mh, ah, hmh, hah, ?_, ?_⟩
    · intro hm _
      refine ⟨?_, ?_⟩
      · show e.hevc.capabilities.vui_parameters = _
        rw [hv, hm, v1]
        simp
      · show e.hevc.capabilities.nalu_prefix_5b = _
        rw [hn, hm, n1]
        simp
    · intro hm _
      refine ⟨?_, ?_⟩
      · show e.hevc.capabilities.vui_parameters = _
        rw [hv, hm, v1]
        simp
      · show e.hevc.capabilities.nalu_prefix_5b = _
        rw [hn, hm, n1]
        simp

theorem validate_encoder_failed_probe_bits_witness :
    validate_encoder false video_qp probes_one_fails (vaapi caps_none caps_none) =
      some (true, validated false video_qp probes_one_fails (vaapi caps_none caps_none)) ∧
    validate_config probes_one_fails.max_ref_frames_h264 video_qp
      (validate_encoder_reset video_qp (vaapi caps_none caps_none)) config_max_ref_frames
        = some (-1) ∧
    validate_config probes_one_fails.autoselect_h264 video_qp
      (validate_encoder_reset video_qp (vaapi caps_none caps_none)) config_autoselect
        = some 3 ∧
    (validated false video_qp probes_one_fails (vaapi caps_none caps_none)).h264.capabilities.get
      .REF_FRAMES_RESTRICT = false ∧
    (validated false video_qp probes_one_fails (vaapi caps_none caps_none)).h264.capabilities.get
      .VUI_PARAMETERS = true ∧
    (validated false video_qp probes_one_fails (vaapi caps_none caps_none)).h264.capabilities.get
      .NALU_PREFIX_5b = true := by
  obtain ⟨-, -, a, b, s, ha, hb, -, -, -, hmax, -, -⟩ :=
    validate_encoder_failed_probe_bits false video_qp probes_one_fails
      (vaapi caps_none caps_none)
      (validated false video_qp probes_one_fails (vaapi caps_none caps_none)) rfl
  have ea : a = -1 := Option.some.inj (ha.symm.trans rfl)
  have eb : b = 3 := Option.some.inj (hb.symm.trans rfl)
  subst ea eb
  obtain ⟨-, -, hv, hn⟩ := hmax rfl (by decide)
  refine ⟨rfl, rfl, rfl, rfl, ?_, ?_⟩
  · exact hv.trans (by decide)
  · exact hn.trans (by decide)
/-- C27: the pattern that `validate_config` searches the probe packet for is
the five bytes `00 00 00 01 T`, with `T = 0x65` for H.264 and `T = 0x28` for
HEVC: a run that returns a flag word has `NALU_PREFIX_5b` in it exactly when
the pattern occurs in the payload of the packet popped. The entry that
`make_session` seeds when the capability is absent has that pattern as its
new bytes and the pattern without its first byte, `00 00 01 T`, as its old
bytes; so a payload in which an occurrence of the old bytes is replaced by
the new bytes holds the pattern that the probe looks for. -/
theorem nalu_seed_matches_probe (av : av_env) (video : video_cfg) (encoder : encoder_t)
    (config : config_t) (width height : Int) (hwdevice_data : Bool) (s : session_t)
    (h : (make_session av video encoder config width height hwdevice_data).session = some s)
    (hcap : (video_format encoder config).capabilities.get .NALU_PREFIX_5b = false) :
    h264_nalu = [0, 0, 0, 1, 0x65] ∧ hevc_nalu = [0, 0, 0, 1, 0x28] ∧
    (∀ (env : probe_env) (video1 : video_cfg) (encoder1 : encoder_t) (r : Int),
      validate_config env video1 encoder1 config = some r → 0 ≤ r →
      ∃ disp hwdevice session packet,
        reset_display env.display encoder1.dev_type = some disp ∧
        (make_session env.av video1 encoder1 config disp.1 disp.2 hwdevice).session
          = some session ∧
        validate_config_wait env.cbs env.replies session
          { session.device.frame with pict_type := AV_PICTURE_TYPE_I } env.packets
          = some (some packet) ∧
        (Int.land r validate_flag_e.NALU_PREFIX_5b ≠ 0 ↔
          (if config.videoFormat ≠ 0 then hevc_nalu else h264_nalu) <:+: packet.pkt.data)) ∧
    s.replacements =
      [(if config.videoFormat ≠ 0 then [0, 0, 1, 0x28] else [0, 0, 1, 0x65],
        if config.videoFormat ≠ 0 then hevc_nalu else h264_nalu)] ∧
    (∀ entry ∈ s.replacements, ∀ before after : bytes,
      entry.1 <:+: before ++ entry.1 ++ after ∧
      (search (before ++ entry.2 ++ after)
        (if config.videoFormat ≠ 0 then hevc_nalu else h264_nalu)).isSome = true) := by
  obtain ⟨ctx1, calls2, options, -, -, -, hrep⟩ :=
    make_session_some av video encoder config width height hwdevice_data s h
  rw [if_pos hcap] at hrep
  have hrep1 : s.replacements =
      [(if config.videoFormat ≠ 0 then [0, 0, 1, 0x28] else [0, 0, 1, 0x65],
        if config.videoFormat ≠ 0 then hevc_nalu else h264_nalu)] := by
    rw [hrep]
    by_cases hv : config.videoFormat ≠ 0
    · simp only [if_pos hv]
      rfl
    · simp only [if_neg hv]
      rfl
  refine ⟨rfl, rfl, ?_, hrep1, ?_⟩
  · intro env video1 encoder1 r hr hpos
    rcases validate_config_some env video1 encoder1 config r hr with
      h1 | ⟨disp, hwdevice, session, packet, hd, hs, hw, -, hflag⟩
    · omega
    · refine ⟨disp, hwdevice, session, packet, hd, hs, hw, ?_⟩
      rw [← search_isSome, hflag]
      cases (search packet.pkt.data
          (if config.videoFormat ≠ 0 then hevc_nalu else h264_nalu)).isSome <;>
        cases env.validate_sps packet.pkt
          (if config.videoFormat ≠ 0 then AV_CODEC_ID_H265 else AV_CODEC_ID_H264) <;>
        decide
  · intro entry hentry before after
    rw [hrep1] at hentry
    simp only [List.mem_singleton] at hentry
    subst hentry
    refine ⟨⟨before, after, rfl⟩, ?_⟩
    rw [search_isSome]
    exact ⟨before, after, rfl⟩

theorem nalu_seed_matches_probe_witness :
    (make_session av_ok video_qp (software caps_none caps_x26x) (config_1080p60 501 0 0)
        1920 1080 false).session =
      some ((make_session av_ok video_qp (software caps_none caps_x26x)
        (config_1080p60 501 0 0) 1920 1080 false).session.getD session_zero) ∧
    (video_format (software caps_none caps_x26x) (config_1080p60 501 0 0)).capabilities.get
      .NALU_PREFIX_5b = false ∧
    ((make_session av_ok video_qp (software caps_none caps_x26x)
        (config_1080p60 501 0 0) 1920 1080 false).session.getD session_zero).replacements =
      [([0, 0, 1, 0x65], [0, 0, 0, 1, 0x65])] ∧
    search [9, 0, 0, 0, 1, 0x65, 7] h264_nalu = some 1 ∧
    search [9, 0, 0, 1, 0x65, 7] h264_nalu = none :=
  ⟨rfl, rfl,
   (nalu_seed_matches_probe av_ok video_qp (software caps_none caps_x26x)
      (config_1080p60 501 0 0) 1920 1080 false _ rfl rfl).2.2.2.1,
   by decide, by decide⟩

/-! ## Claims on `swdevice_t::init` -/

theorem float_exact_to_int (q : ℚ) (h : 0 ≤ q) : float_exact.to_int q = ⌊q⌋ := by
  show Int.tdiv q.num q.den = ⌊q⌋
  rw [Rat.floor_def, Int.tdiv_eq_ediv (Rat.num_nonneg.mpr h) (Int.natCast_nonneg _)]

/-- The scaled size under exact arithmetic: within the frame, and equal to it
in one dimension. -/
theorem float_exact_scaled (a b W H : Int) (ha : 0 < a) (hb : 0 < b) (hW : 0 < W)
    (hH : 0 < H) :
    0 ≤ float_exact.to_int ((a : ℚ) * min ((W : ℚ) / a) ((H : ℚ) / b)) ∧
    0 ≤ float_exact.to_int ((b : ℚ) * min ((W : ℚ) / a) ((H : ℚ) / b)) ∧
    float_exact.to_int ((a : ℚ) * min ((W : ℚ) / a) ((H : ℚ) / b)) ≤ W ∧
    float_exact.to_int ((b : ℚ) * min ((W : ℚ) / a) ((H : ℚ) / b)) ≤ H ∧
    (float_exact.to_int ((a : ℚ) * min ((W : ℚ) / a) ((H : ℚ) / b)) = W ∨
      float_exact.to_int ((b : ℚ) * min ((W : ℚ) / a) ((H : ℚ) / b)) = H) := by
  have ha' : (0 : ℚ) < a := by exact_mod_cast ha
  have hb' : (0 : ℚ) < b := by exact_mod_cast hb
  have hW' : (0 : ℚ) < W := by exact_mod_cast hW
  have hH' : (0 : ℚ) < H := by exact_mod_cast hH
  have hq1 : (0 : ℚ) < (W : ℚ) / a := div_pos hW' ha'
  have hq2 : (0 : ℚ) < (H : ℚ) / b := div_pos hH' hb'
  have hmin : (0 : ℚ) < min ((W : ℚ) / a) ((H : ℚ) / b) := lt_min hq1 hq2
  have hx0 : (0 : ℚ) ≤ (a : ℚ) * min ((W : ℚ) / a) ((H : ℚ) / b) :=
    le_of_lt (mul_pos ha' hmin)
  have hy0 : (0 : ℚ) ≤ (b : ℚ) * min ((W : ℚ) / a) ((H : ℚ) / b) :=
    le_of_lt (mul_pos hb' hmin)
  have hxW : (a : ℚ) * min ((W : ℚ) / a) ((H : ℚ) / b) ≤ W := by
    calc (a : ℚ) * min ((W : ℚ) / a) ((H : ℚ) / b) ≤ (a : ℚ) * ((W : ℚ) / a) :=
          mul_le_mul_of_nonneg_left (min_le_left _ _) (le_of_lt ha')
      _ = W := by field_simp
  have hyH : (b : ℚ) * min ((W : ℚ) / a) ((H : ℚ) / b) ≤ H := by
    calc (b : ℚ) * min ((W : ℚ) / a) ((H : ℚ) / b) ≤ (b : ℚ) * ((H : ℚ) / b) :=
          mul_le_mul_of_nonneg_left (min_le_right _ _) (le_of_lt hb')
      _ = H := by field_simp
  rw [float_exact_to_int _ hx0, float_exact_to_int _ hy0]
  refine ⟨Int.floor_nonneg.mpr hx0, Int.floor_nonneg.mpr hy0, ?_, ?_, ?_⟩
  · have := Int.floor_le_floor hxW
    rwa [Int.floor_intCast] at this
  · have := Int.floor_le_floor hyH
    rwa [Int.floor_intCast] at this
  · rcases le_total ((W : ℚ) / a) ((H : ℚ) / b) with hle | hle
    · left
      rw [min_eq_left hle]
      have : (a : ℚ) * ((W : ℚ) / a) = W := by field_simp
      rw [this, Int.floor_intCast]
    · right
      rw [min_eq_right hle]
      have : (b : ℚ) * ((H : ℚ) / b) = H := by field_simp
      rw [this, Int.floor_intCast]
theorem swdevice_offsets_fit (W H x y : Int) (hW : 0 < W) (hH : 0 < H)
    (hfit : W * H ≤ 2147483647) (hx0 : 0 ≤ x) (hy0 : 0 ≤ y) (hxW : x ≤ W) (hyH : y ≤ H)
    (heq : x = W ∨ y = H) :
    0 ≤ Int.tdiv (W - x) 2 ∧ 0 ≤ Int.tdiv (H - y) 2 ∧
    wrap32 (Int.tdiv (wrap32 (W - x)) 2 + wrap32 (Int.tdiv (wrap32 (H - y)) 2 * W)) =
      Int.tdiv (W - x) 2 + Int.tdiv (H - y) 2 * W ∧
    Int.tdiv (wrap32 (Int.tdiv (wrap32 (W - x)) 2 +
        Int.tdiv (wrap32 (Int.tdiv (wrap32 (H - y)) 2 * W)) 2)) 2 =
      Int.tdiv (Int.tdiv (W - x) 2 + Int.tdiv (Int.tdiv (H - y) 2 * W) 2) 2 := by
  have hWH : W ≤ W * H := by nlinarith
  have hHW : H ≤ W * H := by nlinarith
  have e1 : Int.tdiv (W - x) 2 = (W - x) / 2 := Int.tdiv_eq_ediv (by omega) (by omega)
  have e2 : Int.tdiv (H - y) 2 = (H - y) / 2 := Int.tdiv_eq_ediv (by omega) (by omega)
  have hox : 0 ≤ (W - x) / 2 := by omega
  have hoy : 0 ≤ (H - y) / 2 := by omega
  have hoyH : (H - y) / 2 ≤ H := by omega
  have hp0 : 0 ≤ (H - y) / 2 * W := by positivity
  have hpWH : (H - y) / 2 * W ≤ W * H := by nlinarith
  have e3 : Int.tdiv ((H - y) / 2 * W) 2 = (H - y) / 2 * W / 2 :=
    Int.tdiv_eq_ediv hp0 (by omega)
  have hsum : (W - x) / 2 + (H - y) / 2 * W ≤ W * H := by
    rcases heq with h | h
    · have : (W - x) / 2 = 0 := by omega
      rw [this]
      omega
    · have : (H - y) / 2 = 0 := by omega
      rw [this]
      omega
  have r1 : wrap32 (W - x) = W - x := wrap32_eq _ (by omega) (by omega)
  have r2 : wrap32 (H - y) = H - y := wrap32_eq _ (by omega) (by omega)
  have r3 : wrap32 ((H - y) / 2 * W) = (H - y) / 2 * W := wrap32_eq _ (by omega) (by omega)
  have r4 : wrap32 ((W - x) / 2 + (H - y) / 2 * W) = (W - x) / 2 + (H - y) / 2 * W :=
    wrap32_eq _ (by omega) (by omega)
  have r5 : wrap32 ((W - x) / 2 + (H - y) / 2 * W / 2) = (W - x) / 2 + (H - y) / 2 * W / 2 :=
    wrap32_eq _ (by omega) (by omega)
  rw [r1, r2, e1, e2, r3, e3, r4, r5]
  exact ⟨hox, hoy, rfl, rfl⟩

/-- C24: with the arithmetic of `float` taken as exact and the conversion to
`int` truncating, for every positive input size and every positive frame size
whose area fits an `int`, `swdevice_t::init` scales the input by
`min(W / in_w, H / in_h)` to a size within the frame that equals the frame in
at least one dimension, the centring offsets `(W - w') / 2` and
`(H - h') / 2` are not negative, and it records
`offsetY = x_off + y_off * W` and `offsetUV = (x_off + y_off * W / 2) / 2`
under truncating division. -/
theorem swdevice_init_offsets (sws_getContext : Int → Int → Int → Int → Bool)
    (in_width in_height : Int) (frame : AVFrame)
    (hw : 0 < in_width) (hh : 0 < in_height) (hW : 0 < frame.width) (hH : 0 < frame.height)
    (hfit : frame.width * frame.height ≤ INT_MAX) :
    ∃ d, (swdevice_t.init float_exact 0 sws_getContext in_width in_height frame).2 = some d ∧
      d.out_width = float_exact.to_int ((in_width : ℚ) *
        min ((frame.width : ℚ) / in_width) ((frame.height : ℚ) / in_height)) ∧
      d.out_height = float_exact.to_int ((in_height : ℚ) *
        min ((frame.width : ℚ) / in_width) ((frame.height : ℚ) / in_height)) ∧
      d.out_width ≤ frame.width ∧ d.out_height ≤ frame.height ∧
      (d.out_width = frame.width ∨ d.out_height = frame.height) ∧
      0 ≤ Int.tdiv (frame.width - d.out_width) 2 ∧
      0 ≤ Int.tdiv (frame.height - d.out_height) 2 ∧
      d.offsetY = Int.tdiv (frame.width - d.out_width) 2 +
        Int.tdiv (frame.height - d.out_height) 2 * frame.width ∧
      d.offsetUV = Int.tdiv (Int.tdiv (frame.width - d.out_width) 2 +
        Int.tdiv (Int.tdiv (frame.height - d.out_height) 2 * frame.width) 2) 2 := by
  obtain ⟨hx0, hy0, hxW, hyH, heq⟩ :=
    float_exact_scaled in_width in_height frame.width frame.height hw hh hW hH
  obtain ⟨o1, o2, kY, kUV⟩ := swdevice_offsets_fit frame.width frame.height _ _
    hW hH hfit hx0 hy0 hxW hyH heq
  exact ⟨_, rfl, rfl, rfl, hxW, hyH, heq, o1, o2, kY, kUV⟩

theorem swdevice_init_offsets_witness :
    (swdevice_t.init float_exact 0 (fun _ _ _ _ => true) 1920 1200
      (frame_of_size 1920 1080)).2 =
        some { out_width := 1728, out_height := 1080, offsetUV := 48, offsetY := 96 } ∧
    ∃ d, (swdevice_t.init float_exact 0 (fun _ _ _ _ => true) 1920 1200
        (frame_of_size 1920 1080)).2 = some d ∧
      d.out_width = float_exact.to_int (((1920 : Int) : ℚ) *
        min (((frame_of_size 1920 1080).width : ℚ) / (1920 : Int))
          (((frame_of_size 1920 1080).height : ℚ) / (1200 : Int))) ∧
      d.out_height = float_exact.to_int (((1200 : Int) : ℚ) *
        min (((frame_of_size 1920 1080).width : ℚ) / (1920 : Int))
          (((frame_of_size 1920 1080).height : ℚ) / (1200 : Int))) ∧
      d.out_width ≤ (frame_of_size 1920 1080).width ∧
      d.out_height ≤ (frame_of_size 1920 1080).height ∧
      (d.out_width = (frame_of_size 1920 1080).width ∨
        d.out_height = (frame_of_size 1920 1080).height) ∧
      0 ≤ Int.tdiv ((frame_of_size 1920 1080).width - d.out_width) 2 ∧
      0 ≤ Int.tdiv ((frame_of_size 1920 1080).height - d.out_height) 2 ∧
      d.offsetY = Int.tdiv ((frame_of_size 1920 1080).width - d.out_width) 2 +
        Int.tdiv ((frame_of_size 1920 1080).height - d.out_height) 2 *
          (frame_of_size 1920 1080).width ∧
      d.offsetUV = Int.tdiv (Int.tdiv ((frame_of_size 1920 1080).width - d.out_width) 2 +
        Int.tdiv (Int.tdiv ((frame_of_size 1920 1080).height - d.out_height) 2 *
          (frame_of_size 1920 1080).width) 2) 2 :=
  ⟨by
      have e : min (((1920 : Int) : ℚ) / (1920 : Int)) (((1080 : Int) : ℚ) / (1200 : Int))
          = 9 / 10 := by
        rw [min_eq_right (by norm_num)]
        norm_num
      have e2 : ((1920 : Int) : ℚ) * (9 / 10) = 1728 := by norm_num
      have e3 : ((1200 : Int) : ℚ) * (9 / 10) = 1080 := by norm_num
      simp only [swdevice_t.init, float_exact, frame_of_size, frame_zero, e, e2, e3]
      simp [wrap32]
      decide,
   swdevice_init_offsets (fun _ _ _ _ => true) 1920 1200 (frame_of_size 1920 1080)
     (by decide) (by decide) (by decide) (by decide) (by decide)⟩

/-! ## Claims on the sweep of `encode_run_sync` -/

theorem encode_run_sync_sweep_map (cbs : cbs_t) (img_tmp : Bool)
    (l : List (sync_session_t × sync_tick_t)) :
    encode_run_sync_sweep cbs img_tmp l =
      l.map (fun p => encode_run_sync_iter cbs img_tmp p.1 p.2) := by
  induction l with
  | nil => rfl
  | cons p rest ih =>
    obtain ⟨pos, t⟩ := p
    simp only [encode_run_sync_sweep, List.map_cons, ih]

theorem encode_run_sync_sweep_get (cbs : cbs_t) (img_tmp : Bool)
    (l : List (sync_session_t × sync_tick_t)) (j : Nat) :
    (encode_run_sync_sweep cbs img_tmp l)[j]? =
      (l[j]?).map (fun p => encode_run_sync_iter cbs img_tmp p.1 p.2) := by
  rw [encode_run_sync_sweep_map, List.getElem?_map]

/-- C21: in a sweep of `encode_run_sync` over several sessions, let session
`i` have an IDR event pending or not. The session at every other position
`j` is handled the same way in both sweeps: the same trace, so the same pts
of the frame it encodes, and the same frame counter, scheduled keyframe
number and keyframe marks afterwards. Session `i` itself is handled by the
body of the sweep with its event, which sets its frame counter to the end
frame of the event and its scheduled keyframe number to that plus the
framerate. -/
theorem encode_run_sync_sweep_idr_local (cbs : cbs_t) (img_tmp : Bool)
    (l : List (sync_session_t × sync_tick_t)) (i : Nat) (pos : sync_session_t)
    (t : sync_tick_t) (e : idr_t) (hi : l[i]? = some (pos, t)) :
    (∀ j, j ≠ i →
      (encode_run_sync_sweep cbs img_tmp (l.set i (pos, { t with idr := some e })))[j]? =
        (encode_run_sync_sweep cbs img_tmp (l.set i (pos, { t with idr := none })))[j]? ∧
      ((encode_run_sync_sweep cbs img_tmp (l.set i (pos, { t with idr := some e })))[j]?).map
          (fun r => (pts_of r.events, r.counters)) =
        ((encode_run_sync_sweep cbs img_tmp (l.set i (pos, { t with idr := none })))[j]?).map
          (fun r => (pts_of r.events, r.counters))) ∧
    (encode_run_sync_sweep cbs img_tmp (l.set i (pos, { t with idr := some e })))[i]? =
      some (encode_run_sync_iter cbs img_tmp pos { t with idr := some e }) ∧
    (t.shutdown = false →
      (encode_run_sync_iter cbs img_tmp pos { t with idr := some e }).events.head? =
        some (.idr e e.2 (wrap32 (e.2 + pos.ctx.config.framerate)))) := by
  have hlt : i < l.length := by
    by_contra hge
    rw [List.getElem?_eq_none (by omega)] at hi
    cases hi
  refine ⟨?_, ?_, ?_⟩
  · intro j hj
    have key : (encode_run_sync_sweep cbs img_tmp (l.set i (pos, { t with idr := some e })))[j]?
        = (encode_run_sync_sweep cbs img_tmp (l.set i (pos, { t with idr := none })))[j]? := by
      rw [encode_run_sync_sweep_get, encode_run_sync_sweep_get,
        List.getElem?_set_ne (Ne.symm hj), List.getElem?_set_ne (Ne.symm hj)]
    exact ⟨key, by rw [key]⟩
  · rw [encode_run_sync_sweep_get, List.getElem?_set_self (by simpa using hlt)]
    rfl
  · intro hs
    unfold encode_run_sync_iter
    simp [hs]

theorem encode_run_sync_sweep_idr_local_witness :
    ([(sync_at_7, (sweep_of none).2), (sync_at_3, (sweep_of none).2)] :
      List (sync_session_t × sync_tick_t))[0]? = some (sync_at_7, (sweep_of none).2) ∧
    (encode_run_sync_sweep cbs_fixed true
      [(sync_at_7, { (sweep_of none).2 with idr := some (0, 120) }),
       (sync_at_3, (sweep_of none).2)]).map (fun r => (pts_of r.events, r.counters)) =
      [([120], some (121, 122, 0, 0)), ([3], some (4, 60, 0, 0))] ∧
    (encode_run_sync_sweep cbs_fixed true
      [(sync_at_7, { (sweep_of none).2 with idr := none }),
       (sync_at_3, (sweep_of none).2)]).map (fun r => (pts_of r.events, r.counters)) =
      [([7], some (8, 7, 0, 0)), ([3], some (4, 60, 0, 0))] ∧
    ((encode_run_sync_sweep cbs_fixed true
        (([(sync_at_7, (sweep_of none).2), (sync_at_3, (sweep_of none).2)] :
          List (sync_session_t × sync_tick_t)).set 0
            (sync_at_7, { (sweep_of none).2 with idr := some (0, 120) })))[1]?).map
        (fun r => (pts_of r.events, r.counters)) =
      ((encode_run_sync_sweep cbs_fixed true
        (([(sync_at_7, (sweep_of none).2), (sync_at_3, (sweep_of none).2)] :
          List (sync_session_t × sync_tick_t)).set 0
            (sync_at_7, { (sweep_of none).2 with idr := none })))[1]?).map
        (fun r => (pts_of r.events, r.counters)) :=
  ⟨rfl, by decide, by decide,
   ((encode_run_sync_sweep_idr_local cbs_fixed true
      [(sync_at_7, (sweep_of none).2), (sync_at_3, (sweep_of none).2)] 0 sync_at_7
      (sweep_of none).2 (0, 120) rfl).1 1 (by decide)).2⟩

end video
